import Mathlib

/-! Worker core of the Temporal Go SDK: decision state machines, poll selection, history paging.

A verification development over `internal/internal_task_pollers.go`,
`internal/internal_decision_state_machine_test.go` and `internal/common/convert.go`.

* Part I embeds the decisions helper (registry of decision state machines). Its implementation
  file is not among the sources at hand; only its test file is. The definitions of Part I are
  therefore modelled from the specification (§3, §4.1, §4.2) and every one of them says so.
* Part II embeds `workflowTaskPoller.getNextPollRequest`, `release` and `updateBacklog`.
* Part III embeds `newGetHistoryPageFunc` and `historyIteratorImpl`.
* Part IV embeds `workflowTaskPoller.RespondTaskCompleted` and `poll`, the conversion of an
  activity result to a report, `reportActivityComplete` and `activityTaskPoller.ProcessTask`.
  `backoff.Retry` is not among the sources at hand and is modelled from the specification.
* Part V embeds the integer helpers of `convert.go`, the stop handling of the pollers
  (`basePoller.doPoll`, `PollTask`, `ProcessTask`), the local activity tunnel and
  `localActivityTaskHandler.executeLocalActivityTask`, and describes runs of a poller.
* Part VI gives Go's `int` and `float64` their arithmetic: `getNextPollRequest` with the
  wrap-around of `++`, and `Duration.Seconds`, `math.Ceil` and the conversion to an integer on
  `float64` values.
-/

namespace Temporal

/-! ## Part I — decision state machines (modelled from the specification) -/

/-- Modelled from the spec: the `decisionState` enumeration of the missing
`internal_decision_state_machine.go`; the eleven states listed in §3. -/
inductive decisionState
  | decisionStateCreated
  | decisionStateDecisionSent
  | decisionStateCanceledBeforeInitiated
  | decisionStateCanceledBeforeSent
  | decisionStateInitiated
  | decisionStateStarted
  | decisionStateCanceledAfterInitiated
  | decisionStateCanceledAfterStarted
  | decisionStateCancellationDecisionSent
  | decisionStateCompleted
  | decisionStateCompletedAfterCancellationDecisionSent
  deriving DecidableEq, Repr

/-- Modelled from the spec: the `decisionType` enumeration of the missing state machine file; the
six entry kinds of §3. -/
inductive decisionType
  | decisionTypeTimer
  | decisionTypeActivity
  | decisionTypeChildWorkflow
  | decisionTypeCancellation
  | decisionTypeMarker
  | decisionTypeUpsertSearchAttributes
  deriving DecidableEq, Repr

/-- Modelled from the spec: the identity `(kind, id)` of an entry (§3), `decisionID` of the missing
state machine file. -/
structure decisionID where
  decisionType : decisionType
  id : String
  deriving DecidableEq, Repr

/-- Modelled from the spec: `makeDecisionID` of the missing state machine file, as called by the
tests. -/
def makeDecisionID (t : decisionType) (id : String) : decisionID := ⟨t, id⟩

/-- The command kinds of §6 (`enumspb.DecisionType`), as the tests name them. -/
inductive DecisionType
  | DECISION_TYPE_START_TIMER
  | DECISION_TYPE_CANCEL_TIMER
  | DECISION_TYPE_SCHEDULE_ACTIVITY_TASK
  | DECISION_TYPE_REQUEST_CANCEL_ACTIVITY_TASK
  | DECISION_TYPE_START_CHILD_WORKFLOW_EXECUTION
  | DECISION_TYPE_REQUEST_CANCEL_EXTERNAL_WORKFLOW_EXECUTION
  | DECISION_TYPE_RECORD_MARKER
  | DECISION_TYPE_UPSERT_WORKFLOW_SEARCH_ATTRIBUTES
  deriving DecidableEq, Repr

/-- Attributes of a `START_TIMER` command (`decisionpb.StartTimerDecisionAttributes`). -/
structure StartTimerDecisionAttributes where
  TimerId : String
  StartToFireTimeoutSeconds : Int
  deriving DecidableEq, Repr

/-- Attributes of a `SCHEDULE_ACTIVITY_TASK` command; the fields beyond the activity id are carried
along and never inspected by the helper. -/
structure ScheduleActivityTaskDecisionAttributes where
  ActivityId : String
  ActivityType : String
  Input : List Nat
  deriving DecidableEq, Repr

/-- Attributes of a `START_CHILD_WORKFLOW_EXECUTION` command. -/
structure StartChildWorkflowExecutionDecisionAttributes where
  Namespace : String
  WorkflowId : String
  WorkflowType : String
  deriving DecidableEq, Repr

/-- Attributes of a `REQUEST_CANCEL_EXTERNAL_WORKFLOW_EXECUTION` command, the five fields the tests
compare. -/
structure RequestCancelExternalWorkflowExecutionDecisionAttributes where
  Namespace : String
  WorkflowId : String
  RunId : String
  Control : String
  ChildWorkflowOnly : Bool
  deriving DecidableEq, Repr

/-- Attributes of a `RECORD_MARKER` command. -/
structure RecordMarkerDecisionAttributes where
  MarkerName : String
  Details : List Nat
  deriving DecidableEq, Repr

/-- Attributes of an `UPSERT_WORKFLOW_SEARCH_ATTRIBUTES` command. -/
structure UpsertWorkflowSearchAttributesDecisionAttributes where
  SearchAttributes : List (String × List Nat)
  deriving DecidableEq, Repr

/-- Attribute payload of a command (`decisionpb.Decision`'s attributes), one alternative per
command kind. -/
inductive DecisionAttributes
  | startTimer (a : StartTimerDecisionAttributes)
  | cancelTimer (TimerId : String)
  | scheduleActivityTask (a : ScheduleActivityTaskDecisionAttributes)
  | requestCancelActivityTask (ActivityId : String)
  | startChildWorkflowExecution (a : StartChildWorkflowExecutionDecisionAttributes)
  | requestCancelExternalWorkflowExecution
      (a : RequestCancelExternalWorkflowExecutionDecisionAttributes)
  | recordMarker (a : RecordMarkerDecisionAttributes)
  | upsertWorkflowSearchAttributes (a : UpsertWorkflowSearchAttributesDecisionAttributes)
  deriving DecidableEq, Repr

/-- A command sent to the server (`decisionpb.Decision`). -/
structure Decision where
  DecisionType : DecisionType
  Attributes : DecisionAttributes
  deriving DecidableEq, Repr

/-- Modelled from the spec: the payload of an entry (§3 "the command attributes to transmit"); the
alternative also fixes which of the missing state machine types the entry is (timer, activity,
child workflow, external cancellation, marker, search attributes). -/
inductive decisionData
  | timer (attributes : StartTimerDecisionAttributes)
  | activity (scheduleID : Int) (attributes : ScheduleActivityTaskDecisionAttributes)
  | childWorkflow (attributes : StartChildWorkflowExecutionDecisionAttributes)
  | cancelExternalWorkflow (attributes : RequestCancelExternalWorkflowExecutionDecisionAttributes)
  | marker (attributes : RecordMarkerDecisionAttributes)
  | upsertSearchAttributes (attributes : UpsertWorkflowSearchAttributesDecisionAttributes)
  deriving DecidableEq, Repr

/-- Modelled from the spec: the kind (§3) of the entry that carries a payload. -/
def decisionData.decisionType : decisionData → decisionType
  | .timer _ => .decisionTypeTimer
  | .activity _ _ => .decisionTypeActivity
  | .childWorkflow _ => .decisionTypeChildWorkflow
  | .cancelExternalWorkflow _ => .decisionTypeCancellation
  | .marker _ => .decisionTypeMarker
  | .upsertSearchAttributes _ => .decisionTypeUpsertSearchAttributes

/-- Modelled from the spec: a decision entry (§3), the `decisionStateMachine` of the missing state
machine file: identity, payload, state and the ordering key assigned at creation. -/
structure decisionStateMachine where
  id : decisionID
  state : decisionState
  data : decisionData
  seq : Nat
  deriving DecidableEq, Repr

/-- The value a captured panic carries (`PanicError`): its message. -/
abbrev PanicError := String

open decisionState decisionType DecisionType

namespace decisionStateMachine

/-- Modelled from the spec: `getState` of the missing state machine file. -/
def getState (d : decisionStateMachine) : decisionState := d.state

/-- Modelled from the spec: the state change of the missing `moveState`. -/
def moveState (d : decisionStateMachine) (newState : decisionState) : decisionStateMachine :=
  { d with state := newState }

/-- Modelled from the spec: the missing `failStateTransition`; §4.1 "Legality policy": an event in
an illegal source state raises a panic. -/
def failStateTransition (_d : decisionStateMachine) (event : String) :
    Except PanicError decisionStateMachine :=
  .error ("invalid state transition: attempt to " ++ event)

/-- Modelled from the spec: the missing `cancel` of an entry. §4.1 shared skeleton:
Created → Completed, DecisionSent → CanceledBeforeInitiated, Initiated → CanceledAfterInitiated;
a child workflow also Started → CanceledAfterStarted. Timers, activities and child workflows are
the kinds that can be cancelled. -/
def cancel (d : decisionStateMachine) : Except PanicError decisionStateMachine :=
  match d.data, d.state with
  | .timer _, decisionStateCreated => .ok (d.moveState decisionStateCompleted)
  | .timer _, decisionStateDecisionSent => .ok (d.moveState decisionStateCanceledBeforeInitiated)
  | .timer _, decisionStateInitiated => .ok (d.moveState decisionStateCanceledAfterInitiated)
  | .activity _ _, decisionStateCreated => .ok (d.moveState decisionStateCompleted)
  | .activity _ _, decisionStateDecisionSent =>
      .ok (d.moveState decisionStateCanceledBeforeInitiated)
  | .activity _ _, decisionStateInitiated => .ok (d.moveState decisionStateCanceledAfterInitiated)
  | .childWorkflow _, decisionStateCreated => .ok (d.moveState decisionStateCompleted)
  | .childWorkflow _, decisionStateDecisionSent =>
      .ok (d.moveState decisionStateCanceledBeforeInitiated)
  | .childWorkflow _, decisionStateInitiated =>
      .ok (d.moveState decisionStateCanceledAfterInitiated)
  | .childWorkflow _, decisionStateStarted => .ok (d.moveState decisionStateCanceledAfterStarted)
  | _, _ => d.failStateTransition "cancel"

/-- Modelled from the spec: the missing `handleInitiatedEvent`. §4.1: DecisionSent → Initiated and
CanceledBeforeInitiated → CanceledAfterInitiated for the kinds of the shared skeleton;
DecisionSent → Initiated for an external cancellation. -/
def handleInitiatedEvent (d : decisionStateMachine) : Except PanicError decisionStateMachine :=
  match d.data, d.state with
  | .timer _, decisionStateDecisionSent => .ok (d.moveState decisionStateInitiated)
  | .timer _, decisionStateCanceledBeforeInitiated =>
      .ok (d.moveState decisionStateCanceledAfterInitiated)
  | .activity _ _, decisionStateDecisionSent => .ok (d.moveState decisionStateInitiated)
  | .activity _ _, decisionStateCanceledBeforeInitiated =>
      .ok (d.moveState decisionStateCanceledAfterInitiated)
  | .childWorkflow _, decisionStateDecisionSent => .ok (d.moveState decisionStateInitiated)
  | .childWorkflow _, decisionStateCanceledBeforeInitiated =>
      .ok (d.moveState decisionStateCanceledAfterInitiated)
  | .cancelExternalWorkflow _, decisionStateDecisionSent =>
      .ok (d.moveState decisionStateInitiated)
  | _, _ => d.failStateTransition "handle initiated event"

/-- Modelled from the spec: the missing `handleStartedEvent`. §4.1: only a child workflow has a
Started state, entered from Initiated. -/
def handleStartedEvent (d : decisionStateMachine) : Except PanicError decisionStateMachine :=
  match d.data, d.state with
  | .childWorkflow _, decisionStateInitiated => .ok (d.moveState decisionStateStarted)
  | _, _ => d.failStateTransition "handle started event"

/-- Modelled from the spec: the missing `handleInitiationFailedEvent` (`startFailed`). §4.1: legal
only for a child workflow in DecisionSent or Initiated; the child is then over. -/
def handleInitiationFailedEvent (d : decisionStateMachine) :
    Except PanicError decisionStateMachine :=
  match d.data, d.state with
  | .childWorkflow _, decisionStateDecisionSent => .ok (d.moveState decisionStateCompleted)
  | .childWorkflow _, decisionStateInitiated => .ok (d.moveState decisionStateCompleted)
  | _, _ => d.failStateTransition "handle initiation failed event"

/-- Modelled from the spec: the missing `handleCompletionEvent` (`closed`). §4.1:
Initiated → Completed and CancellationDecisionSent → CompletedAfterCancellationDecisionSent; a child
workflow also Started → Completed. -/
def handleCompletionEvent (d : decisionStateMachine) : Except PanicError decisionStateMachine :=
  match d.data, d.state with
  | .timer _, decisionStateInitiated => .ok (d.moveState decisionStateCompleted)
  | .timer _, decisionStateCancellationDecisionSent =>
      .ok (d.moveState decisionStateCompletedAfterCancellationDecisionSent)
  | .activity _ _, decisionStateInitiated => .ok (d.moveState decisionStateCompleted)
  | .activity _ _, decisionStateCancellationDecisionSent =>
      .ok (d.moveState decisionStateCompletedAfterCancellationDecisionSent)
  | .childWorkflow _, decisionStateInitiated => .ok (d.moveState decisionStateCompleted)
  | .childWorkflow _, decisionStateStarted => .ok (d.moveState decisionStateCompleted)
  | .childWorkflow _, decisionStateCancellationDecisionSent =>
      .ok (d.moveState decisionStateCompletedAfterCancellationDecisionSent)
  | _, _ => d.failStateTransition "handle completion event"

/-- Modelled from the spec: the missing `handleCanceledEvent`. §4.1:
CancellationDecisionSent → Completed for the kinds of the shared skeleton. -/
def handleCanceledEvent (d : decisionStateMachine) : Except PanicError decisionStateMachine :=
  match d.data, d.state with
  | .timer _, decisionStateCancellationDecisionSent => .ok (d.moveState decisionStateCompleted)
  | .activity _ _, decisionStateCancellationDecisionSent =>
      .ok (d.moveState decisionStateCompleted)
  | .childWorkflow _, decisionStateCancellationDecisionSent =>
      .ok (d.moveState decisionStateCompleted)
  | _, _ => d.failStateTransition "handle canceled event"

/-- Modelled from the spec: the missing `handleCancelInitiatedEvent`. §8 S4: the acknowledgement
that the cancellation request of a child workflow was initiated is legal in
CancellationDecisionSent and changes no state. -/
def handleCancelInitiatedEvent (d : decisionStateMachine) :
    Except PanicError decisionStateMachine :=
  match d.data, d.state with
  | .childWorkflow _, decisionStateCancellationDecisionSent => .ok d
  | _, _ => d.failStateTransition "handle cancel initiated event"

/-- Modelled from the spec: the entry's handler of `cancelRequested`, the acknowledgement that a
cancellation request was accepted. §4.1: it completes an external cancellation that is Initiated;
§8 S4 and the tests: for a child workflow it is legal in CancellationDecisionSent and changes no
state. -/
def handleCancelRequestedEvent (d : decisionStateMachine) :
    Except PanicError decisionStateMachine :=
  match d.data, d.state with
  | .childWorkflow _, decisionStateCancellationDecisionSent => .ok d
  | .cancelExternalWorkflow _, decisionStateInitiated => .ok (d.moveState decisionStateCompleted)
  | _, _ => d.failStateTransition "handle cancel requested event"

/-- Modelled from the spec: the missing `handleCancelFailedEvent`. §4.1: for a child workflow
`cancelRequestFailed` reverts CancellationDecisionSent to Started; an external cancellation that
is Initiated is "Completed on failure"; for a timer `cancelFailed` is legal only from
CancellationDecisionSent, and since the spec rules out a return to Initiated and names no other
target the timer stays where it is. -/
def handleCancelFailedEvent (d : decisionStateMachine) : Except PanicError decisionStateMachine :=
  match d.data, d.state with
  | .childWorkflow _, decisionStateCancellationDecisionSent =>
      .ok (d.moveState decisionStateStarted)
  | .cancelExternalWorkflow _, decisionStateInitiated => .ok (d.moveState decisionStateCompleted)
  | .timer _, decisionStateCancellationDecisionSent => .ok d
  | _, _ => d.failStateTransition "handle cancel failed event"

/-- Modelled from the spec: the missing `handleDecisionSent` (`emit`). §4.1 "Emission semantics":
Created → DecisionSent, or → Completed for the emit-only kinds (marker, search attributes);
CanceledAfterInitiated → CancellationDecisionSent for timers and activities and
CanceledAfterStarted → CancellationDecisionSent for child workflows. An entry with nothing to emit
is left alone. -/
def handleDecisionSent (d : decisionStateMachine) : decisionStateMachine :=
  match d.data, d.state with
  | .marker _, decisionStateCreated => d.moveState decisionStateCompleted
  | .upsertSearchAttributes _, decisionStateCreated => d.moveState decisionStateCompleted
  | _, decisionStateCreated => d.moveState decisionStateDecisionSent
  | .timer _, decisionStateCanceledAfterInitiated =>
      d.moveState decisionStateCancellationDecisionSent
  | .activity _ _, decisionStateCanceledAfterInitiated =>
      d.moveState decisionStateCancellationDecisionSent
  | .childWorkflow _, decisionStateCanceledAfterStarted =>
      d.moveState decisionStateCancellationDecisionSent
  | _, _ => d

/-- Modelled from the spec: the missing `getDecision` of an entry, the command it has to emit in
its current state (§4.1 "Emission semantics", §6 command kinds): the start command in Created, the
cancellation command in CanceledAfterInitiated (timer, activity) or CanceledAfterStarted (child
workflow), nothing otherwise. -/
def getDecision (d : decisionStateMachine) : Option Decision :=
  match d.data, d.state with
  | .timer a, decisionStateCreated => some ⟨DECISION_TYPE_START_TIMER, .startTimer a⟩
  | .timer a, decisionStateCanceledAfterInitiated =>
      some ⟨DECISION_TYPE_CANCEL_TIMER, .cancelTimer a.TimerId⟩
  | .activity _ a, decisionStateCreated =>
      some ⟨DECISION_TYPE_SCHEDULE_ACTIVITY_TASK, .scheduleActivityTask a⟩
  | .activity _ a, decisionStateCanceledAfterInitiated =>
      some ⟨DECISION_TYPE_REQUEST_CANCEL_ACTIVITY_TASK, .requestCancelActivityTask a.ActivityId⟩
  | .childWorkflow a, decisionStateCreated =>
      some ⟨DECISION_TYPE_START_CHILD_WORKFLOW_EXECUTION, .startChildWorkflowExecution a⟩
  | .childWorkflow a, decisionStateCanceledAfterStarted =>
      some ⟨DECISION_TYPE_REQUEST_CANCEL_EXTERNAL_WORKFLOW_EXECUTION,
        .requestCancelExternalWorkflowExecution ⟨a.Namespace, a.WorkflowId, "", "", true⟩⟩
  | .cancelExternalWorkflow a, decisionStateCreated =>
      some ⟨DECISION_TYPE_REQUEST_CANCEL_EXTERNAL_WORKFLOW_EXECUTION,
        .requestCancelExternalWorkflowExecution a⟩
  | .marker a, decisionStateCreated => some ⟨DECISION_TYPE_RECORD_MARKER, .recordMarker a⟩
  | .upsertSearchAttributes a, decisionStateCreated =>
      some ⟨DECISION_TYPE_UPSERT_WORKFLOW_SEARCH_ATTRIBUTES, .upsertWorkflowSearchAttributes a⟩
  | _, _ => none

end decisionStateMachine

/-- Modelled from the spec: the decisions registry (§3, §4.2), the `decisionsHelper` of the missing
state machine file. `orderedDecisions` is the ordered mapping from identity to entry and at the
same time the queue that is drained; `nextSeq` is the source of ordering keys;
`scheduledEventIDToCancellationID` remembers, for an initiated external cancellation, which
cancellation id its initiated event belongs to, so that the acknowledgements (which carry only
the event id) find their entry. -/
structure decisionsHelper where
  orderedDecisions : List decisionStateMachine
  nextSeq : Nat
  scheduledEventIDToCancellationID : List (Int × String)
  deriving DecidableEq, Repr

/-- Modelled from the spec: `newDecisionsHelper` of the missing state machine file, the empty
registry. -/
def newDecisionsHelper : decisionsHelper := ⟨[], 0, []⟩

namespace decisionsHelper

/-- Modelled from the spec: reading an entry through the handle a creating call returned (the
tests keep the returned pointer and call `getState` on it); the queue is not touched. -/
def findDecision (h : decisionsHelper) (id : decisionID) : Option decisionStateMachine :=
  h.orderedDecisions.find? (fun d => d.id = id)

/-- State of the entry with the given identity, if it is registered. -/
def getState (h : decisionsHelper) (id : decisionID) : Option decisionState :=
  (h.findDecision id).map decisionStateMachine.getState

/-- Modelled from the spec: the missing `addDecision`. §4.2: a creating call registers the new
entry, at the back of the queue and with the next ordering key; §3: no two live entries share an
identity, so a second entry for a registered identity is a programmer error. -/
def addDecision (h : decisionsHelper) (id : decisionID) (data : decisionData) :
    Except PanicError decisionsHelper :=
  match h.findDecision id with
  | some _ => .error ("adding duplicate decision " ++ id.id)
  | none =>
      .ok { h with
        orderedDecisions := h.orderedDecisions ++ [⟨id, decisionStateCreated, data, h.nextSeq⟩]
        nextSeq := h.nextSeq + 1 }

/-- Modelled from the spec: routing of an event to the entry it is for (§4.2 `cancelTimer`,
`requestCancelActivityTask`, `handleXxx`), the missing `getDecision` of the helper followed by the
entry's handler. An identity that is not registered is a panic. The entry that received the event
goes to the back of the queue: this is what §4.2 and §8 S3 pin for a cancel, a cancelled timer's
command comes after the command of a marker that was recorded before the cancel. For a history
event the specification and the tests leave the position open; the entry is moved alike. -/
def route (h : decisionsHelper) (id : decisionID)
    (event : decisionStateMachine → Except PanicError decisionStateMachine) :
    Except PanicError decisionsHelper :=
  match h.findDecision id with
  | none => .error ("unknown decision " ++ id.id)
  | some d =>
      match event d with
      | .error e => .error e
      | .ok d' =>
          .ok { h with
            orderedDecisions := h.orderedDecisions.filter (fun e => e.id ≠ id) ++ [d'] }

/-- Modelled from the spec: `getDecisions(markAsSent)` of the missing state machine file (§4.1
"Emission semantics"): the pending commands in queue order; with `markAsSent` every entry also
receives `emit`. -/
def getDecisions (h : decisionsHelper) (markAsSent : Bool) : List Decision × decisionsHelper :=
  (h.orderedDecisions.filterMap decisionStateMachine.getDecision,
   if markAsSent then
     { h with orderedDecisions := h.orderedDecisions.map decisionStateMachine.handleDecisionSent }
   else h)

/-- Modelled from the spec: `startTimer` (§4.2), creates a timer entry in Created. -/
def startTimer (h : decisionsHelper) (attributes : StartTimerDecisionAttributes) :
    Except PanicError decisionsHelper :=
  h.addDecision (makeDecisionID decisionTypeTimer attributes.TimerId) (.timer attributes)

/-- Modelled from the spec: `cancelTimer` (§4.2), routes `cancel` to the timer entry. -/
def cancelTimer (h : decisionsHelper) (timerID : String) : Except PanicError decisionsHelper :=
  h.route (makeDecisionID decisionTypeTimer timerID) decisionStateMachine.cancel

/-- Modelled from the spec: `handleTimerStarted`, routes `initiated` to the timer entry. -/
def handleTimerStarted (h : decisionsHelper) (timerID : String) :
    Except PanicError decisionsHelper :=
  h.route (makeDecisionID decisionTypeTimer timerID) decisionStateMachine.handleInitiatedEvent

/-- Modelled from the spec: `handleTimerClosed`, routes `closed` to the timer entry. -/
def handleTimerClosed (h : decisionsHelper) (timerID : String) :
    Except PanicError decisionsHelper :=
  h.route (makeDecisionID decisionTypeTimer timerID) decisionStateMachine.handleCompletionEvent

/-- Modelled from the spec: `handleTimerCanceled`, routes `canceled` to the timer entry. -/
def handleTimerCanceled (h : decisionsHelper) (timerID : String) :
    Except PanicError decisionsHelper :=
  h.route (makeDecisionID decisionTypeTimer timerID) decisionStateMachine.handleCanceledEvent

/-- Modelled from the spec: `handleCancelTimerFailed`, routes `cancelFailed` to the timer entry. -/
def handleCancelTimerFailed (h : decisionsHelper) (timerID : String) :
    Except PanicError decisionsHelper :=
  h.route (makeDecisionID decisionTypeTimer timerID) decisionStateMachine.handleCancelFailedEvent

/-- Modelled from the spec: `scheduleActivityTask` (§4.2), creates an activity entry in Created. -/
def scheduleActivityTask (h : decisionsHelper) (scheduleID : Int)
    (attributes : ScheduleActivityTaskDecisionAttributes) : Except PanicError decisionsHelper :=
  h.addDecision (makeDecisionID decisionTypeActivity attributes.ActivityId)
    (.activity scheduleID attributes)

/-- Modelled from the spec: `requestCancelActivityTask` (§4.2), routes `cancel` to the activity
entry. -/
def requestCancelActivityTask (h : decisionsHelper) (activityID : String) :
    Except PanicError decisionsHelper :=
  h.route (makeDecisionID decisionTypeActivity activityID) decisionStateMachine.cancel

/-- Modelled from the spec: `handleActivityTaskScheduled`, routes `initiated` to the activity
entry named by the event. -/
def handleActivityTaskScheduled (h : decisionsHelper) (_scheduledEventID : Int)
    (activityID : String) : Except PanicError decisionsHelper :=
  h.route (makeDecisionID decisionTypeActivity activityID)
    decisionStateMachine.handleInitiatedEvent

/-- Modelled from the spec: `handleActivityTaskClosed`, routes `closed` to the activity entry. -/
def handleActivityTaskClosed (h : decisionsHelper) (activityID : String) :
    Except PanicError decisionsHelper :=
  h.route (makeDecisionID decisionTypeActivity activityID)
    decisionStateMachine.handleCompletionEvent

/-- Modelled from the spec: `handleActivityTaskCanceled`, routes `canceled` to the activity
entry. -/
def handleActivityTaskCanceled (h : decisionsHelper) (activityID : String) :
    Except PanicError decisionsHelper :=
  h.route (makeDecisionID decisionTypeActivity activityID)
    decisionStateMachine.handleCanceledEvent

/-- Modelled from the spec: `startChildWorkflowExecution` (§4.2), creates a child workflow entry
in Created. -/
def startChildWorkflowExecution (h : decisionsHelper)
    (attributes : StartChildWorkflowExecutionDecisionAttributes) :
    Except PanicError decisionsHelper :=
  h.addDecision (makeDecisionID decisionTypeChildWorkflow attributes.WorkflowId)
    (.childWorkflow attributes)

/-- Modelled from the spec: `handleStartChildWorkflowExecutionInitiated`, routes `initiated` to
the child workflow entry. -/
def handleStartChildWorkflowExecutionInitiated (h : decisionsHelper) (workflowID : String) :
    Except PanicError decisionsHelper :=
  h.route (makeDecisionID decisionTypeChildWorkflow workflowID)
    decisionStateMachine.handleInitiatedEvent

/-- Modelled from the spec: `handleStartChildWorkflowExecutionFailed`, routes `startFailed` to
the child workflow entry. -/
def handleStartChildWorkflowExecutionFailed (h : decisionsHelper) (workflowID : String) :
    Except PanicError decisionsHelper :=
  h.route (makeDecisionID decisionTypeChildWorkflow workflowID)
    decisionStateMachine.handleInitiationFailedEvent

/-- Modelled from the spec: `handleChildWorkflowExecutionStarted`, routes `started` to the child
workflow entry. -/
def handleChildWorkflowExecutionStarted (h : decisionsHelper) (workflowID : String) :
    Except PanicError decisionsHelper :=
  h.route (makeDecisionID decisionTypeChildWorkflow workflowID)
    decisionStateMachine.handleStartedEvent

/-- Modelled from the spec: `handleChildWorkflowExecutionClosed`, routes `closed` to the child
workflow entry. -/
def handleChildWorkflowExecutionClosed (h : decisionsHelper) (workflowID : String) :
    Except PanicError decisionsHelper :=
  h.route (makeDecisionID decisionTypeChildWorkflow workflowID)
    decisionStateMachine.handleCompletionEvent

/-- Modelled from the spec: `handleChildWorkflowExecutionCanceled`, routes `canceled` to the
child workflow entry. -/
def handleChildWorkflowExecutionCanceled (h : decisionsHelper) (workflowID : String) :
    Except PanicError decisionsHelper :=
  h.route (makeDecisionID decisionTypeChildWorkflow workflowID)
    decisionStateMachine.handleCanceledEvent

/-- Modelled from the spec: `requestCancelExternalWorkflowExecution` (§4.1, §4.2). With
`childWorkflowOnly` it routes `cancel` to the child workflow entry of that workflow id; otherwise
it creates an external cancellation entry, in Created, whose id is the cancellation id and whose
command carries the five given values. -/
def requestCancelExternalWorkflowExecution (h : decisionsHelper)
    (ns workflowID runID cancellationID : String) (childWorkflowOnly : Bool) :
    Except PanicError decisionsHelper :=
  if childWorkflowOnly then
    h.route (makeDecisionID decisionTypeChildWorkflow workflowID) decisionStateMachine.cancel
  else
    h.addDecision (makeDecisionID decisionTypeCancellation cancellationID)
      (.cancelExternalWorkflow ⟨ns, workflowID, runID, cancellationID, false⟩)

/-- Modelled from the spec: `handleRequestCancelExternalWorkflowExecutionInitiated`. An event
without cancellation id is about a child workflow and is routed to it as `cancelInitiated`; an
event with one is routed as `initiated` to the external cancellation entry of that id, and the
event id is remembered for the acknowledgement. The tests tell the two apart in this way: they
cancel a child workflow under the empty cancellation id (lines 360-387) and an external workflow
under a non-empty one (lines 551-578). -/
def handleRequestCancelExternalWorkflowExecutionInitiated (h : decisionsHelper)
    (initiatedEventID : Int) (workflowID cancellationID : String) :
    Except PanicError decisionsHelper :=
  if cancellationID = "" then
    h.route (makeDecisionID decisionTypeChildWorkflow workflowID)
      decisionStateMachine.handleCancelInitiatedEvent
  else
    { h with scheduledEventIDToCancellationID :=
        (initiatedEventID, cancellationID) ::
          h.scheduledEventIDToCancellationID.filter (fun p => p.1 ≠ initiatedEventID) }.route
      (makeDecisionID decisionTypeCancellation cancellationID)
      decisionStateMachine.handleInitiatedEvent

/-- Modelled from the spec: `handleExternalWorkflowExecutionCancelRequested`, the success
acknowledgement of a cancellation request, routed as `cancelRequested` to the external
cancellation entry whose initiated event was remembered under this event id, and otherwise to the
child workflow entry of that workflow id. -/
def handleExternalWorkflowExecutionCancelRequested (h : decisionsHelper)
    (initiatedEventID : Int) (workflowID : String) : Except PanicError decisionsHelper :=
  match h.scheduledEventIDToCancellationID.lookup initiatedEventID with
  | none =>
      h.route (makeDecisionID decisionTypeChildWorkflow workflowID)
        decisionStateMachine.handleCancelRequestedEvent
  | some cancellationID =>
      h.route (makeDecisionID decisionTypeCancellation cancellationID)
        decisionStateMachine.handleCancelRequestedEvent

/-- Modelled from the spec: `handleRequestCancelExternalWorkflowExecutionFailed`, the failure
acknowledgement of a cancellation request, routed as `cancelRequestFailed` to the external
cancellation entry whose initiated event was remembered under this event id, and otherwise to the
child workflow entry of that workflow id. -/
def handleRequestCancelExternalWorkflowExecutionFailed (h : decisionsHelper)
    (initiatedEventID : Int) (workflowID : String) : Except PanicError decisionsHelper :=
  match h.scheduledEventIDToCancellationID.lookup initiatedEventID with
  | none =>
      h.route (makeDecisionID decisionTypeChildWorkflow workflowID)
        decisionStateMachine.handleCancelFailedEvent
  | some cancellationID =>
      h.route (makeDecisionID decisionTypeCancellation cancellationID)
        decisionStateMachine.handleCancelFailedEvent

/-- Name under which side-effect markers are recorded. -/
def sideEffectMarkerName : String := "SideEffect"

/-- Name under which local-activity markers are recorded. -/
def localActivityMarkerName : String := "LocalActivity"

/-- Modelled from the spec: `recordSideEffectMarker` (§4.2), creates a marker entry in Created. -/
def recordSideEffectMarker (h : decisionsHelper) (sideEffectID : Int) (data : List Nat) :
    Except PanicError decisionsHelper :=
  h.addDecision
    (makeDecisionID decisionTypeMarker (sideEffectMarkerName ++ "_" ++ toString sideEffectID))
    (.marker ⟨sideEffectMarkerName, data⟩)

/-- Modelled from the spec: `recordLocalActivityMarker` (§4.2), creates a marker entry in
Created. -/
def recordLocalActivityMarker (h : decisionsHelper) (activityID : String) (details : List Nat) :
    Except PanicError decisionsHelper :=
  h.addDecision (makeDecisionID decisionTypeMarker (localActivityMarkerName ++ "_" ++ activityID))
    (.marker ⟨localActivityMarkerName, details⟩)

/-- Modelled from the spec: `upsertSearchAttributes` (§4.2), creates a search attributes entry in
Created. -/
def upsertSearchAttributes (h : decisionsHelper) (upsertID : String)
    (searchAttr : UpsertWorkflowSearchAttributesDecisionAttributes) :
    Except PanicError decisionsHelper :=
  h.addDecision (makeDecisionID decisionTypeUpsertSearchAttributes upsertID)
    (.upsertSearchAttributes searchAttr)

end decisionsHelper

/-! ## Part II — sticky / normal poll selection (`internal_task_pollers.go`) -/

/-- Task list kinds (`enumspb.TaskListKind`). -/
inductive TaskListKind
  | TASK_LIST_KIND_UNSPECIFIED
  | TASK_LIST_KIND_NORMAL
  | TASK_LIST_KIND_STICKY
  deriving DecidableEq, Repr

/-- The task list named in a poll request (`tasklistpb.TaskList`). -/
structure TaskList where
  Name : String
  Kind : TaskListKind
  deriving DecidableEq, Repr

/-- A long-poll request (`workflowservice.PollForDecisionTaskRequest`). -/
structure PollForDecisionTaskRequest where
  Namespace : String
  TaskList : TaskList
  Identity : String
  BinaryChecksum : String
  deriving DecidableEq, Repr

/-- The fields of `workflowTaskPoller` that poll selection reads or writes. The two pending counts
are Go `int`s and the backlog an `int64`; they count outstanding polls and queued tasks, far from
the 64-bit range, and are embedded as integers. Where the ends of the range matter the
increments are embedded with their wrap-around, in `getNextPollRequestWrapping`. `requestLock`
serialises the accesses, so every operation below is one atomic step. -/
structure workflowTaskPoller where
  ns : String
  taskListName : String
  identity : String
  stickyUUID : String
  disableStickyExecution : Bool
  pendingRegularPollCount : Int
  pendingStickyPollCount : Int
  stickyBacklog : Int
  deriving DecidableEq, Repr

open TaskListKind

namespace workflowTaskPoller

/-- Embedding of `workflowTaskPoller.release` (lines 584-596). -/
def release (wtp : workflowTaskPoller) (kind : TaskListKind) : workflowTaskPoller :=
  if wtp.disableStickyExecution then wtp
  else if kind = TASK_LIST_KIND_STICKY then
    { wtp with pendingStickyPollCount := wtp.pendingStickyPollCount - 1 }
  else
    { wtp with pendingRegularPollCount := wtp.pendingRegularPollCount - 1 }

/-- Embedding of `workflowTaskPoller.updateBacklog` (lines 598-606). -/
def updateBacklog (wtp : workflowTaskPoller) (taskListKind : TaskListKind)
    (backlogCountHint : Int) : workflowTaskPoller :=
  if taskListKind = TASK_LIST_KIND_NORMAL ∨ wtp.disableStickyExecution then wtp
  else { wtp with stickyBacklog := backlogCountHint }

/-- Embedding of `workflowTaskPoller.getNextPollRequest` (lines 615-640): the request and the
poller after the call. `getWorkerTaskList` and `getBinaryChecksum` are defined outside the file
and are parameters. -/
def getNextPollRequest (getWorkerTaskList : String → String) (getBinaryChecksum : String)
    (wtp : workflowTaskPoller) : PollForDecisionTaskRequest × workflowTaskPoller :=
  let taskListName := wtp.taskListName
  let taskListKind := TASK_LIST_KIND_NORMAL
  let (taskListName, taskListKind, wtp') :=
    if ¬ wtp.disableStickyExecution then
      if wtp.stickyBacklog > 0 ∨ wtp.pendingStickyPollCount ≤ wtp.pendingRegularPollCount then
        (getWorkerTaskList wtp.stickyUUID, TASK_LIST_KIND_STICKY,
          { wtp with pendingStickyPollCount := wtp.pendingStickyPollCount + 1 })
      else
        (taskListName, taskListKind,
          { wtp with pendingRegularPollCount := wtp.pendingRegularPollCount + 1 })
    else (taskListName, taskListKind, wtp)
  let taskList : TaskList := { Name := taskListName, Kind := taskListKind }
  ({ Namespace := wtp.ns, TaskList := taskList, Identity := wtp.identity,
     BinaryChecksum := getBinaryChecksum }, wtp')

end workflowTaskPoller

/-! ## Part III — history paging (`internal_task_pollers.go`) -/

/-- History event types (`enumspb.EventType`); the page function tells
`EVENT_TYPE_DECISION_TASK_COMPLETED` from all others. -/
inductive EventType
  | EVENT_TYPE_DECISION_TASK_SCHEDULED
  | EVENT_TYPE_DECISION_TASK_STARTED
  | EVENT_TYPE_DECISION_TASK_COMPLETED
  | EVENT_TYPE_OTHER (code : Nat)
  deriving DecidableEq, Repr

/-- A history event (`historypb.HistoryEvent`), the two fields the page function reads. Event ids
are `int64`; they are positive ("eventIds start from 1") and embedded as integers. -/
structure HistoryEvent where
  EventId : Int
  EventType : EventType
  deriving DecidableEq, Repr

/-- A page of history (`historypb.History`). -/
structure History where
  Events : List HistoryEvent
  deriving DecidableEq, Repr

/-- Go's nil-safe getter `(*HistoryEvent).GetEventId`, applied to the result of an index
expression. -/
def GetEventId (e : Option HistoryEvent) : Int :=
  match e with
  | some e => e.EventId
  | none => 0

/-- A workflow execution (`commonpb.WorkflowExecution`). -/
structure WorkflowExecution where
  WorkflowId : String
  RunId : String
  deriving DecidableEq, Repr

/-- The request of `GetWorkflowExecutionHistory`. A page token is a byte slice, `none` being Go's
`nil`. -/
structure GetWorkflowExecutionHistoryRequest where
  Namespace : String
  Execution : WorkflowExecution
  NextPageToken : Option (List Nat)
  deriving DecidableEq, Repr

/-- The response of `GetWorkflowExecutionHistory`: a structured page, or raw blobs to decode, and
the token of the next page. -/
structure GetWorkflowExecutionHistoryResponse where
  History : Option History
  RawHistory : Option (List (List Nat))
  NextPageToken : Option (List Nat)
  deriving DecidableEq, Repr

/-- What the page function returns: `(*History, []byte, error)`. -/
structure HistoryPage where
  history : Option History
  token : Option (List Nat)
  err : Option String
  deriving DecidableEq, Repr

/-- Embedding of the closure returned by `newGetHistoryPageFunc` (lines 737-795). `service` is the
outcome of `GetWorkflowExecutionHistory` under `backoff.Retry` (a response, or the error the
retries ended with) and `deserialize` is `serializer.DeserializeBlobDataToHistoryEvents`; both are
defined outside the file and are parameters. Metrics are not part of the embedding. The outer
`Except` is a Go run-time panic: a nil `History`, a slice bound out of range (the page's capacity
is its length), an index out of range. -/
def newGetHistoryPageFunc
    (deserialize : List (List Nat) → Except String History)
    (service : GetWorkflowExecutionHistoryRequest → Except String GetWorkflowExecutionHistoryResponse)
    (ns : String) (execution : WorkflowExecution) (atDecisionTaskCompletedEventID : Int)
    (nextPageToken : Option (List Nat)) : Except PanicError HistoryPage :=
  match service { Namespace := ns, Execution := execution, NextPageToken := nextPageToken } with
  | .error err => .ok ⟨none, none, some err⟩
  | .ok resp =>
    let decoded : Except Unit (Option History) :=
      match resp.RawHistory with
      | some raw =>
          match deserialize raw with
          | .error _ => .error ()
          | .ok h => .ok (some h)
      | none => .ok resp.History
    match decoded with
    | .error _ => .ok ⟨none, none, none⟩
    | .ok none => .error "invalid memory address or nil pointer dereference"
    | .ok (some h) =>
      let size := h.Events.length
      if size > 0 ∧ atDecisionTaskCompletedEventID > 0 ∧
          GetEventId h.Events[size - 1]? > atDecisionTaskCompletedEventID then
        let first := GetEventId h.Events[0]?
        let bound := atDecisionTaskCompletedEventID - first + 1
        if bound < 0 ∨ (size : Int) < bound then .error "slice bounds out of range"
        else
          let events := h.Events.take bound.toNat
          match events[events.length - 1]? with
          | none => .error "index out of range [-1]"
          | some e =>
            if e.EventType ≠ EventType.EVENT_TYPE_DECISION_TASK_COMPLETED then
              .ok ⟨none, none,
                some ("newGetHistoryPageFunc: atDecisionTaskCompletedEventID(" ++
                  toString atDecisionTaskCompletedEventID ++
                  ") points to event that is not DecisionTaskCompleted")⟩
            else .ok ⟨some { Events := events }, none, none⟩
      else .ok ⟨some h, resp.NextPageToken, none⟩

/-- The fields of `historyIteratorImpl` that paging uses; `iteratorFunc` is built on first use from
the other fields, `none` being Go's `nil`. -/
structure historyIteratorImpl where
  iteratorFunc : Option (Option (List Nat) → Except PanicError HistoryPage)
  execution : WorkflowExecution
  nextPageToken : Option (List Nat)
  ns : String
  maxEventID : Int

namespace historyIteratorImpl

/-- Embedding of `historyIteratorImpl.GetNextPage` (lines 710-727): the returned
`(*History, error)` and the iterator after the call. -/
def GetNextPage
    (deserialize : List (List Nat) → Except String History)
    (service : GetWorkflowExecutionHistoryRequest → Except String GetWorkflowExecutionHistoryResponse)
    (h : historyIteratorImpl) :
    Except PanicError ((Option History × Option String) × historyIteratorImpl) :=
  let pageFunc := newGetHistoryPageFunc deserialize service h.ns h.execution h.maxEventID
  let h1 : historyIteratorImpl :=
    match h.iteratorFunc with
    | none => { h with iteratorFunc := some pageFunc }
    | some _ => h
  match h1.iteratorFunc with
  | none => .error "invalid memory address or nil pointer dereference"
  | some iteratorFunc =>
    match iteratorFunc h1.nextPageToken with
    | .error p => .error p
    | .ok page =>
      match page.err with
      | some err => .ok ((none, some err), h1)
      | none => .ok ((page.history, none), { h1 with nextPageToken := page.token })

/-- Embedding of `historyIteratorImpl.Reset` (lines 729-731). -/
def Reset (h : historyIteratorImpl) : historyIteratorImpl :=
  { h with nextPageToken := none }

/-- Embedding of `historyIteratorImpl.HasNextPage` (lines 733-735). -/
def HasNextPage (h : historyIteratorImpl) : Bool :=
  h.nextPageToken.isSome

end historyIteratorImpl

end Temporal

/-! ## The transition tables of §4.1, written out, and the operations that deliver their events -/

namespace Temporal
open decisionState decisionType DecisionType

/-- The verbs of the shared transition table of §4.1. -/
inductive sharedEvent
  | emit
  | cancel
  | initiated
  | closed
  | emitCancel
  | canceled
  deriving DecidableEq, Repr

/-- The shared transition table of §4.1, row by row: source state, verb, target state. -/
def sharedTransitions : List (decisionState × sharedEvent × decisionState) :=
  [ (decisionStateCreated, .emit, decisionStateDecisionSent),
    (decisionStateCreated, .cancel, decisionStateCompleted),
    (decisionStateDecisionSent, .cancel, decisionStateCanceledBeforeInitiated),
    (decisionStateDecisionSent, .initiated, decisionStateInitiated),
    (decisionStateCanceledBeforeInitiated, .initiated, decisionStateCanceledAfterInitiated),
    (decisionStateInitiated, .cancel, decisionStateCanceledAfterInitiated),
    (decisionStateInitiated, .closed, decisionStateCompleted),
    (decisionStateCanceledAfterInitiated, .emitCancel, decisionStateCancellationDecisionSent),
    (decisionStateCancellationDecisionSent, .closed,
      decisionStateCompletedAfterCancellationDecisionSent),
    (decisionStateCancellationDecisionSent, .canceled, decisionStateCompleted) ]

/-- The state the table defines after one event, if the event is legal in the state. -/
def tableStep (s : decisionState) (e : sharedEvent) : Option decisionState :=
  (sharedTransitions.find? (fun t => t.1 = s ∧ t.2.1 = e)).map (fun t => t.2.2)

/-- The state the table defines after a sequence of events, if every one of them is legal where it
arrives. -/
def tableRun : decisionState → List sharedEvent → Option decisionState
  | s, [] => some s
  | s, e :: es => (tableStep s e).bind (fun s' => tableRun s' es)

/-- The helper operation that delivers a verb of the shared table to the timer (`k` is
`decisionTypeTimer`) or activity (`k` is `decisionTypeActivity`) with the given id: a drain with
`markAsSent` for the two emissions, `cancelTimer` / `requestCancelActivityTask` for `cancel`, and
the `handleXxx` of the matching history event otherwise. -/
def deliver (k : decisionType) (id : String) (scheduledEventID : Int) (e : sharedEvent)
    (h : decisionsHelper) : Except PanicError decisionsHelper :=
  match k, e with
  | decisionTypeTimer, .emit => .ok (h.getDecisions true).2
  | decisionTypeTimer, .emitCancel => .ok (h.getDecisions true).2
  | decisionTypeTimer, .cancel => h.cancelTimer id
  | decisionTypeTimer, .initiated => h.handleTimerStarted id
  | decisionTypeTimer, .closed => h.handleTimerClosed id
  | decisionTypeTimer, .canceled => h.handleTimerCanceled id
  | decisionTypeActivity, .emit => .ok (h.getDecisions true).2
  | decisionTypeActivity, .emitCancel => .ok (h.getDecisions true).2
  | decisionTypeActivity, .cancel => h.requestCancelActivityTask id
  | decisionTypeActivity, .initiated => h.handleActivityTaskScheduled scheduledEventID id
  | decisionTypeActivity, .closed => h.handleActivityTaskClosed id
  | decisionTypeActivity, .canceled => h.handleActivityTaskCanceled id
  | _, _ => .error "not a timer or activity"

/-- Delivery of a sequence of verbs, one after the other; a panic ends the run. -/
def deliverAll (k : decisionType) (id : String) (scheduledEventID : Int) :
    List sharedEvent → decisionsHelper → Except PanicError decisionsHelper
  | [], h => .ok h
  | e :: es, h =>
      match deliver k id scheduledEventID e h with
      | .error p => .error p
      | .ok h' => deliverAll k id scheduledEventID es h'

/-- The cancellation command kind of a timer or activity. -/
def cancelCommandType (k : decisionType) : DecisionType :=
  if k = decisionTypeTimer then DECISION_TYPE_CANCEL_TIMER
  else DECISION_TYPE_REQUEST_CANCEL_ACTIVITY_TASK

/-- The server-history events the helper has a `handleXxx` for, with the arguments of the call. -/
inductive serverEvent
  | timerStarted (timerID : String)
  | timerClosed (timerID : String)
  | timerCanceled (timerID : String)
  | cancelTimerFailed (timerID : String)
  | activityTaskScheduled (scheduledEventID : Int) (activityID : String)
  | activityTaskClosed (activityID : String)
  | activityTaskCanceled (activityID : String)
  | startChildWorkflowExecutionInitiated (workflowID : String)
  | startChildWorkflowExecutionFailed (workflowID : String)
  | childWorkflowExecutionStarted (workflowID : String)
  | childWorkflowExecutionClosed (workflowID : String)
  | childWorkflowExecutionCanceled (workflowID : String)
  | requestCancelExternalWorkflowExecutionInitiated (initiatedEventID : Int)
      (workflowID cancellationID : String)
  | externalWorkflowExecutionCancelRequested (initiatedEventID : Int) (workflowID : String)
  | requestCancelExternalWorkflowExecutionFailed (initiatedEventID : Int) (workflowID : String)
  deriving DecidableEq, Repr

/-- The `handleXxx` call for a server-history event. -/
def decisionsHelper.handle (h : decisionsHelper) : serverEvent → Except PanicError decisionsHelper
  | .timerStarted t => h.handleTimerStarted t
  | .timerClosed t => h.handleTimerClosed t
  | .timerCanceled t => h.handleTimerCanceled t
  | .cancelTimerFailed t => h.handleCancelTimerFailed t
  | .activityTaskScheduled s a => h.handleActivityTaskScheduled s a
  | .activityTaskClosed a => h.handleActivityTaskClosed a
  | .activityTaskCanceled a => h.handleActivityTaskCanceled a
  | .startChildWorkflowExecutionInitiated w => h.handleStartChildWorkflowExecutionInitiated w
  | .startChildWorkflowExecutionFailed w => h.handleStartChildWorkflowExecutionFailed w
  | .childWorkflowExecutionStarted w => h.handleChildWorkflowExecutionStarted w
  | .childWorkflowExecutionClosed w => h.handleChildWorkflowExecutionClosed w
  | .childWorkflowExecutionCanceled w => h.handleChildWorkflowExecutionCanceled w
  | .requestCancelExternalWorkflowExecutionInitiated i w c =>
      h.handleRequestCancelExternalWorkflowExecutionInitiated i w c
  | .externalWorkflowExecutionCancelRequested i w =>
      h.handleExternalWorkflowExecutionCancelRequested i w
  | .requestCancelExternalWorkflowExecutionFailed i w =>
      h.handleRequestCancelExternalWorkflowExecutionFailed i w

/-- The verbs of §4.2 that server-history events are routed as. -/
inductive eventVerb
  | initiated
  | started
  | closed
  | canceled
  | cancelInitiated
  | cancelRequested
  | cancelRequestFailed
  | startFailed
  deriving DecidableEq, Repr

/-- The verb a server-history event is routed as. An initiated cancellation request without
cancellation id concerns a child workflow, for which it is `cancelInitiated`. -/
def serverEvent.verb : serverEvent → eventVerb
  | .timerStarted _ => .initiated
  | .timerClosed _ => .closed
  | .timerCanceled _ => .canceled
  | .cancelTimerFailed _ => .cancelRequestFailed
  | .activityTaskScheduled _ _ => .initiated
  | .activityTaskClosed _ => .closed
  | .activityTaskCanceled _ => .canceled
  | .startChildWorkflowExecutionInitiated _ => .initiated
  | .startChildWorkflowExecutionFailed _ => .startFailed
  | .childWorkflowExecutionStarted _ => .started
  | .childWorkflowExecutionClosed _ => .closed
  | .childWorkflowExecutionCanceled _ => .canceled
  | .requestCancelExternalWorkflowExecutionInitiated _ _ c =>
      if c = "" then .cancelInitiated else .initiated
  | .externalWorkflowExecutionCancelRequested _ _ => .cancelRequested
  | .requestCancelExternalWorkflowExecutionFailed _ _ => .cancelRequestFailed

/-- The identity of the entry a server-history event is for. The acknowledgements of a cancellation
request are for the external cancellation whose initiated event they name, and for the child
workflow of the given workflow id when there is none. -/
def serverEvent.target (h : decisionsHelper) : serverEvent → decisionID
  | .timerStarted t => makeDecisionID decisionTypeTimer t
  | .timerClosed t => makeDecisionID decisionTypeTimer t
  | .timerCanceled t => makeDecisionID decisionTypeTimer t
  | .cancelTimerFailed t => makeDecisionID decisionTypeTimer t
  | .activityTaskScheduled _ a => makeDecisionID decisionTypeActivity a
  | .activityTaskClosed a => makeDecisionID decisionTypeActivity a
  | .activityTaskCanceled a => makeDecisionID decisionTypeActivity a
  | .startChildWorkflowExecutionInitiated w => makeDecisionID decisionTypeChildWorkflow w
  | .startChildWorkflowExecutionFailed w => makeDecisionID decisionTypeChildWorkflow w
  | .childWorkflowExecutionStarted w => makeDecisionID decisionTypeChildWorkflow w
  | .childWorkflowExecutionClosed w => makeDecisionID decisionTypeChildWorkflow w
  | .childWorkflowExecutionCanceled w => makeDecisionID decisionTypeChildWorkflow w
  | .requestCancelExternalWorkflowExecutionInitiated _ w c =>
      if c = "" then makeDecisionID decisionTypeChildWorkflow w
      else makeDecisionID decisionTypeCancellation c
  | .externalWorkflowExecutionCancelRequested i w =>
      match h.scheduledEventIDToCancellationID.lookup i with
      | none => makeDecisionID decisionTypeChildWorkflow w
      | some c => makeDecisionID decisionTypeCancellation c
  | .requestCancelExternalWorkflowExecutionFailed i w =>
      match h.scheduledEventIDToCancellationID.lookup i with
      | none => makeDecisionID decisionTypeChildWorkflow w
      | some c => makeDecisionID decisionTypeCancellation c

/-- The legal source states of §4.1, per entry kind and verb; every other state is illegal. -/
def legalSources : decisionType → eventVerb → List decisionState
  | decisionTypeTimer, .initiated => [decisionStateDecisionSent, decisionStateCanceledBeforeInitiated]
  | decisionTypeTimer, .closed => [decisionStateInitiated, decisionStateCancellationDecisionSent]
  | decisionTypeTimer, .canceled => [decisionStateCancellationDecisionSent]
  | decisionTypeTimer, .cancelRequestFailed => [decisionStateCancellationDecisionSent]
  | decisionTypeActivity, .initiated =>
      [decisionStateDecisionSent, decisionStateCanceledBeforeInitiated]
  | decisionTypeActivity, .closed => [decisionStateInitiated, decisionStateCancellationDecisionSent]
  | decisionTypeActivity, .canceled => [decisionStateCancellationDecisionSent]
  | decisionTypeChildWorkflow, .initiated =>
      [decisionStateDecisionSent, decisionStateCanceledBeforeInitiated]
  | decisionTypeChildWorkflow, .started => [decisionStateInitiated]
  | decisionTypeChildWorkflow, .closed =>
      [decisionStateInitiated, decisionStateStarted, decisionStateCancellationDecisionSent]
  | decisionTypeChildWorkflow, .canceled => [decisionStateCancellationDecisionSent]
  | decisionTypeChildWorkflow, .cancelInitiated => [decisionStateCancellationDecisionSent]
  | decisionTypeChildWorkflow, .cancelRequested => [decisionStateCancellationDecisionSent]
  | decisionTypeChildWorkflow, .cancelRequestFailed => [decisionStateCancellationDecisionSent]
  | decisionTypeChildWorkflow, .startFailed => [decisionStateDecisionSent, decisionStateInitiated]
  | decisionTypeCancellation, .initiated => [decisionStateDecisionSent]
  | decisionTypeCancellation, .cancelRequested => [decisionStateInitiated]
  | decisionTypeCancellation, .cancelRequestFailed => [decisionStateInitiated]
  | _, _ => []

/-- The state an entry in Created is in after a drain with `markAsSent`: Completed for the
emit-only kinds (marker, search attributes), DecisionSent for the others. -/
def stateAfterEmit (k : decisionType) : decisionState :=
  if k = decisionTypeMarker ∨ k = decisionTypeUpsertSearchAttributes then decisionStateCompleted
  else decisionStateDecisionSent

/-- The start command kind of an entry kind (§6). -/
def startCommandType : decisionType → DecisionType
  | decisionTypeTimer => DECISION_TYPE_START_TIMER
  | decisionTypeActivity => DECISION_TYPE_SCHEDULE_ACTIVITY_TASK
  | decisionTypeChildWorkflow => DECISION_TYPE_START_CHILD_WORKFLOW_EXECUTION
  | decisionTypeCancellation => DECISION_TYPE_REQUEST_CANCEL_EXTERNAL_WORKFLOW_EXECUTION
  | decisionTypeMarker => DECISION_TYPE_RECORD_MARKER
  | decisionTypeUpsertSearchAttributes => DECISION_TYPE_UPSERT_WORKFLOW_SEARCH_ATTRIBUTES

end Temporal

namespace Temporal
open decisionState decisionType DecisionType

/-- The entry handler a verb of §4.2 is given to. -/
def decisionStateMachine.on (d : decisionStateMachine) :
    eventVerb → Except PanicError decisionStateMachine
  | .initiated => d.handleInitiatedEvent
  | .started => d.handleStartedEvent
  | .closed => d.handleCompletionEvent
  | .canceled => d.handleCanceledEvent
  | .cancelInitiated => d.handleCancelInitiatedEvent
  | .cancelRequested => d.handleCancelRequestedEvent
  | .cancelRequestFailed => d.handleCancelFailedEvent
  | .startFailed => d.handleInitiationFailedEvent

/-- The timer of the tests. -/
def testTimer : StartTimerDecisionAttributes :=
  { TimerId := "test-timer-1", StartToFireTimeoutSeconds := 0 }

/-- The activity of the tests. -/
def testActivity : ScheduleActivityTaskDecisionAttributes :=
  { ActivityId := "test-activity-1", ActivityType := "", Input := [] }

/-- The child workflow of the tests. -/
def testChild : StartChildWorkflowExecutionDecisionAttributes :=
  { Namespace := "", WorkflowId := "test-workflow-id", WorkflowType := "" }

/-- A helper whose only entry is the test timer in the given state. -/
def timerHelper (s : decisionState) : decisionsHelper :=
  ⟨[⟨makeDecisionID decisionTypeTimer "test-timer-1", s, .timer testTimer, 0⟩], 1, []⟩

/-- A helper whose only entry is the test activity in the given state. -/
def activityHelper (s : decisionState) : decisionsHelper :=
  ⟨[⟨makeDecisionID decisionTypeActivity "test-activity-1", s, .activity 5 testActivity, 0⟩],
    1, []⟩

/-- A helper whose only entry is the test child workflow in the given state. -/
def childHelper (s : decisionState) : decisionsHelper :=
  ⟨[⟨makeDecisionID decisionTypeChildWorkflow "test-workflow-id", s, .childWorkflow testChild,
      0⟩], 1, []⟩

/-- A helper with a side-effect marker, a search attributes entry and a timer, all just created,
after an activity that was already sent. -/
def mixedHelper : decisionsHelper :=
  ⟨[⟨makeDecisionID decisionTypeActivity "test-activity-1", decisionStateDecisionSent,
      .activity 5 testActivity, 0⟩,
    ⟨makeDecisionID decisionTypeMarker "SideEffect_1", decisionStateCreated,
      .marker ⟨"SideEffect", []⟩, 1⟩,
    ⟨makeDecisionID decisionTypeUpsertSearchAttributes "1", decisionStateCreated,
      .upsertSearchAttributes ⟨[]⟩, 2⟩,
    ⟨makeDecisionID decisionTypeTimer "test-timer-1", decisionStateCreated,
      .timer testTimer, 3⟩], 4, []⟩

end Temporal

namespace Temporal

/-- The entry handler a verb of the shared table is given to; the two emissions are the `emit` a
drain with `markAsSent` gives to every entry. -/
def decisionStateMachine.onShared (d : decisionStateMachine) :
    sharedEvent → Except PanicError decisionStateMachine
  | .emit => .ok d.handleDecisionSent
  | .emitCancel => .ok d.handleDecisionSent
  | .cancel => d.cancel
  | .initiated => d.handleInitiatedEvent
  | .closed => d.handleCompletionEvent
  | .canceled => d.handleCanceledEvent

end Temporal

namespace Temporal

/-- A poller with sticky execution switched off and some polls pending. -/
def pollerStickyDisabled : workflowTaskPoller :=
  { ns := "default", taskListName := "tl", identity := "worker-1", stickyUUID := "uuid-1",
    disableStickyExecution := true, pendingRegularPollCount := 2, pendingStickyPollCount := 5,
    stickyBacklog := 3 }

/-- A poller with sticky execution on, a backlog of one, and more sticky than regular polls
pending. -/
def pollerStickyBacklog : workflowTaskPoller :=
  { ns := "default", taskListName := "tl", identity := "worker-1", stickyUUID := "uuid-1",
    disableStickyExecution := false, pendingRegularPollCount := 0, pendingStickyPollCount := 4,
    stickyBacklog := 1 }

/-- A poller with sticky execution on, no backlog, and as many sticky as regular polls pending. -/
def pollerTie : workflowTaskPoller :=
  { ns := "default", taskListName := "tl", identity := "worker-1", stickyUUID := "uuid-1",
    disableStickyExecution := false, pendingRegularPollCount := 2, pendingStickyPollCount := 2,
    stickyBacklog := 0 }

/-- The sticky task list name used in the examples. -/
def stickyName (uuid : String) : String := "host:" ++ uuid

end Temporal

/-! ## Predicates and sample inputs used in the statements -/

namespace Temporal

/-- The event ids of a page are consecutive: each event's id is its predecessor's plus one. -/
def consecutiveEventIds : List HistoryEvent → Bool
  | a :: b :: rest => decide (b.EventId = a.EventId + 1) && consecutiveEventIds (b :: rest)
  | _ => true

/-- The page `h` is what the service's response `resp` carries: either as structured events, or as
raw blobs that decode to it. -/
def fetchedPage (deserialize : List (List Nat) → Except String History)
    (resp : GetWorkflowExecutionHistoryResponse) (h : History) : Prop :=
  (resp.RawHistory = none ∧ resp.History = some h) ∨
    (∃ raw, resp.RawHistory = some raw ∧ deserialize raw = .ok h)

/-- The error the page function surfaces when the terminal event is of the wrong type. -/
def notDecisionTaskCompletedError (atDecisionTaskCompletedEventID : Int) : String :=
  "newGetHistoryPageFunc: atDecisionTaskCompletedEventID(" ++
    toString atDecisionTaskCompletedEventID ++
    ") points to event that is not DecisionTaskCompleted"

end Temporal

namespace Temporal
open EventType

/-- A sample execution. -/
def sampleExecution : WorkflowExecution := { WorkflowId := "wf-1", RunId := "run-1" }

/-- A sample decoder, which rejects every blob. -/
def sampleDeserialize : List (List Nat) → Except String History :=
  fun _ => .error "corrupt blob"

/-- A page with ids 1, 2, 3 that ends with a DecisionTaskCompleted event. -/
def pageEndingCompleted : History :=
  { Events := [⟨1, EVENT_TYPE_DECISION_TASK_SCHEDULED⟩, ⟨2, EVENT_TYPE_DECISION_TASK_STARTED⟩,
      ⟨3, EVENT_TYPE_DECISION_TASK_COMPLETED⟩] }

/-- A service that answers with `pageEndingCompleted` and announces a further page. -/
def serviceEndingCompleted :
    GetWorkflowExecutionHistoryRequest → Except String GetWorkflowExecutionHistoryResponse :=
  fun _ => .ok { History := some pageEndingCompleted, RawHistory := none, NextPageToken := some [7] }

/-- A page with ids 1, 2 that ends with a DecisionTaskStarted event. -/
def pageEndingStarted : History :=
  { Events := [⟨1, EVENT_TYPE_DECISION_TASK_SCHEDULED⟩, ⟨2, EVENT_TYPE_DECISION_TASK_STARTED⟩] }

/-- A service that answers with `pageEndingStarted` and announces a further page. -/
def serviceEndingStarted :
    GetWorkflowExecutionHistoryRequest → Except String GetWorkflowExecutionHistoryResponse :=
  fun _ => .ok { History := some pageEndingStarted, RawHistory := none, NextPageToken := some [7] }

/-- A page with ids 5 to 8 whose event 7 is a DecisionTaskCompleted event. -/
def pageBeyondTerminal : History :=
  { Events := [⟨5, EVENT_TYPE_DECISION_TASK_SCHEDULED⟩, ⟨6, EVENT_TYPE_DECISION_TASK_STARTED⟩,
      ⟨7, EVENT_TYPE_DECISION_TASK_COMPLETED⟩, ⟨8, EVENT_TYPE_OTHER 10⟩] }

/-- A service that answers with `pageBeyondTerminal` and announces a further page. -/
def serviceBeyondTerminal :
    GetWorkflowExecutionHistoryRequest → Except String GetWorkflowExecutionHistoryResponse :=
  fun _ => .ok { History := some pageBeyondTerminal, RawHistory := none, NextPageToken := some [7] }

end Temporal

/-! ## Decision state machines: done entries, creating calls, queue order -/

namespace Temporal
open decisionState decisionType DecisionType

/-- Modelled from the spec: `isDone` of the missing state machine file, as the tests call it on
the handle a creating call returns. §3: the terminal states are Completed and
CompletedAfterCancellationDecisionSent. -/
def decisionStateMachine.isDone (d : decisionStateMachine) : Bool :=
  d.state = decisionStateCompleted ∨
    d.state = decisionStateCompletedAfterCancellationDecisionSent

/-- The creating calls of §4.2, with their arguments (`requestCancelExternalWorkflowExecution`
creates an entry when it is not for a child workflow only). -/
inductive creation
  | startTimer (attributes : StartTimerDecisionAttributes)
  | scheduleActivityTask (scheduleID : Int) (attributes : ScheduleActivityTaskDecisionAttributes)
  | startChildWorkflowExecution (attributes : StartChildWorkflowExecutionDecisionAttributes)
  | requestCancelExternalWorkflowExecution (ns workflowID runID cancellationID : String)
  | recordSideEffectMarker (sideEffectID : Int) (data : List Nat)
  | recordLocalActivityMarker (activityID : String) (details : List Nat)
  | upsertSearchAttributes (upsertID : String)
      (searchAttr : UpsertWorkflowSearchAttributesDecisionAttributes)
  deriving DecidableEq, Repr

/-- The helper call for a creating call. -/
def decisionsHelper.create (h : decisionsHelper) : creation → Except PanicError decisionsHelper
  | .startTimer a => h.startTimer a
  | .scheduleActivityTask s a => h.scheduleActivityTask s a
  | .startChildWorkflowExecution a => h.startChildWorkflowExecution a
  | .requestCancelExternalWorkflowExecution ns w r c =>
      h.requestCancelExternalWorkflowExecution ns w r c false
  | .recordSideEffectMarker i data => h.recordSideEffectMarker i data
  | .recordLocalActivityMarker a details => h.recordLocalActivityMarker a details
  | .upsertSearchAttributes u s => h.upsertSearchAttributes u s

/-- Creating calls made one after the other, with no other operation in between; a panic ends the
run. -/
def decisionsHelper.createAll : decisionsHelper → List creation → Except PanicError decisionsHelper
  | h, [] => .ok h
  | h, c :: cs =>
      match h.create c with
      | .error p => .error p
      | .ok h' => decisionsHelper.createAll h' cs

/-- The identity of the entry a creating call creates. -/
def creation.id : creation → decisionID
  | .startTimer a => makeDecisionID decisionTypeTimer a.TimerId
  | .scheduleActivityTask _ a => makeDecisionID decisionTypeActivity a.ActivityId
  | .startChildWorkflowExecution a => makeDecisionID decisionTypeChildWorkflow a.WorkflowId
  | .requestCancelExternalWorkflowExecution _ _ _ c => makeDecisionID decisionTypeCancellation c
  | .recordSideEffectMarker i _ =>
      makeDecisionID decisionTypeMarker
        (decisionsHelper.sideEffectMarkerName ++ "_" ++ toString i)
  | .recordLocalActivityMarker a _ =>
      makeDecisionID decisionTypeMarker (decisionsHelper.localActivityMarkerName ++ "_" ++ a)
  | .upsertSearchAttributes u _ => makeDecisionID decisionTypeUpsertSearchAttributes u

/-- The payload of the entry a creating call creates. -/
def creation.data : creation → decisionData
  | .startTimer a => .timer a
  | .scheduleActivityTask s a => .activity s a
  | .startChildWorkflowExecution a => .childWorkflow a
  | .requestCancelExternalWorkflowExecution ns w r c =>
      .cancelExternalWorkflow ⟨ns, w, r, c, false⟩
  | .recordSideEffectMarker _ data => .marker ⟨decisionsHelper.sideEffectMarkerName, data⟩
  | .recordLocalActivityMarker _ details =>
      .marker ⟨decisionsHelper.localActivityMarkerName, details⟩
  | .upsertSearchAttributes _ s => .upsertSearchAttributes s

/-- The command of the entry a creating call creates (§6): the start command of its kind with the
attributes the call was given. -/
def creation.command : creation → Decision
  | .startTimer a => ⟨DECISION_TYPE_START_TIMER, .startTimer a⟩
  | .scheduleActivityTask _ a => ⟨DECISION_TYPE_SCHEDULE_ACTIVITY_TASK, .scheduleActivityTask a⟩
  | .startChildWorkflowExecution a =>
      ⟨DECISION_TYPE_START_CHILD_WORKFLOW_EXECUTION, .startChildWorkflowExecution a⟩
  | .requestCancelExternalWorkflowExecution ns w r c =>
      ⟨DECISION_TYPE_REQUEST_CANCEL_EXTERNAL_WORKFLOW_EXECUTION,
        .requestCancelExternalWorkflowExecution ⟨ns, w, r, c, false⟩⟩
  | .recordSideEffectMarker _ data =>
      ⟨DECISION_TYPE_RECORD_MARKER, .recordMarker ⟨decisionsHelper.sideEffectMarkerName, data⟩⟩
  | .recordLocalActivityMarker _ details =>
      ⟨DECISION_TYPE_RECORD_MARKER,
        .recordMarker ⟨decisionsHelper.localActivityMarkerName, details⟩⟩
  | .upsertSearchAttributes _ s =>
      ⟨DECISION_TYPE_UPSERT_WORKFLOW_SEARCH_ATTRIBUTES, .upsertWorkflowSearchAttributes s⟩

/-- The creation sequence numbers of the entries that have a command to emit, in the order in
which a drain emits their commands. -/
def decisionsHelper.pendingSeqs (h : decisionsHelper) : List Nat :=
  (h.orderedDecisions.filter (fun d => d.getDecision.isSome)).map (fun d => d.seq)

/-- The helper of `Test_TimerCancelEventOrdering` before its last drain: the test timer, created
first, started and then cancelled after the local-activity marker was recorded. -/
def timerCancelOrderingHelper : decisionsHelper :=
  ⟨[⟨makeDecisionID decisionTypeMarker "LocalActivity_test-activity-1", decisionStateCreated,
      .marker ⟨"LocalActivity", []⟩, 1⟩,
    ⟨makeDecisionID decisionTypeTimer "test-timer-1", decisionStateCanceledAfterInitiated,
      .timer testTimer, 0⟩], 2, []⟩

/-- The helper of `Test_TimerCancelEventOrdering` after the marker was recorded and before the
timer is cancelled. -/
def timerAndMarkerHelper : decisionsHelper :=
  ⟨[⟨makeDecisionID decisionTypeTimer "test-timer-1", decisionStateInitiated,
      .timer testTimer, 0⟩,
    ⟨makeDecisionID decisionTypeMarker "LocalActivity_test-activity-1", decisionStateCreated,
      .marker ⟨"LocalActivity", []⟩, 1⟩], 2, []⟩

/-- Four creating calls of different kinds. -/
def sampleCreations : List creation :=
  [.scheduleActivityTask 5 testActivity, .recordSideEffectMarker 1 [], .startTimer testTimer,
   .requestCancelExternalWorkflowExecution "test-namespace" "test-workflow-id" "test-run-id" "1"]

end Temporal

/-! ## Part IV — completing decision tasks, polling, reporting activity results -/

namespace Temporal
open TaskListKind

/-- Go `error` values as far as the pollers tell them apart: the sentinels
`ErrActivityResultPending`, `errStop` and `context.Canceled`, a `*CanceledError` with its details,
any other error, and an error that wraps another one (`Unwrap`). -/
inductive GoError
  | ErrActivityResultPending
  | errStop
  | contextCanceled
  | CanceledError (details : List (List Nat))
  | other (message : String)
  | wrapped (message : String) (cause : GoError)
  deriving DecidableEq, Repr

/-- Go's `errors.As(err, &cancelledErr)` for a target of type `*CanceledError`: the details of the
first `*CanceledError` met when unwrapping `err`. -/
def errorsAsCanceledError : GoError → Option (List (List Nat))
  | .CanceledError details => some details
  | .wrapped _ cause => errorsAsCanceledError cause
  | _ => none

/-- Go's `errors.Is(err, context.Canceled)`: whether unwrapping `err` meets `context.Canceled`. -/
def errorsIsContextCanceled : GoError → Bool
  | .contextCanceled => true
  | .wrapped _ cause => errorsIsContextCanceled cause
  | _ => false

/-- The operations on `float64` that `common.Int32Ceil` is used with: `time.Duration.Seconds`,
`math.Ceil` and the conversions to `int32` and `int64`. They belong to Go and its library and
are parameters of the embedding; `goFloat64` is their meaning in Go. -/
structure float64Ops (F : Type) where
  Seconds : Int → F
  Ceil : F → F
  toInt32 : F → Int
  toInt64 : F → Int

/-- Embedding of `common.Int32Ceil` (convert.go lines 31-34). -/
def Int32Ceil {F : Type} (ops : float64Ops F) (v : F) : Int :=
  ops.toInt32 (ops.Ceil v)

/-- Embedding of `common.Int64Ceil` (convert.go lines 36-39). -/
def Int64Ceil {F : Type} (ops : float64Ops F) (v : F) : Int :=
  ops.toInt64 (ops.Ceil v)

/-- Sticky attributes of a completion request (`tasklistpb.StickyExecutionAttributes`). -/
structure StickyExecutionAttributes where
  WorkerTaskList : Option TaskList
  ScheduleToStartTimeoutSeconds : Int
  deriving DecidableEq, Repr

/-- A completion request (`workflowservice.RespondDecisionTaskCompletedRequest`). -/
structure RespondDecisionTaskCompletedRequest where
  TaskToken : List Nat
  Decisions : List Decision
  Identity : String
  StickyAttributes : Option StickyExecutionAttributes
  ReturnNewDecisionTask : Bool
  ForceCreateNewDecisionTask : Bool
  deriving DecidableEq, Repr

/-- A failure report for a decision task (`workflowservice.RespondDecisionTaskFailedRequest`). -/
structure RespondDecisionTaskFailedRequest where
  TaskToken : List Nat
  Cause : Nat
  Identity : String
  deriving DecidableEq, Repr

/-- A query answer (`workflowservice.RespondQueryTaskCompletedRequest`). -/
structure RespondQueryTaskCompletedRequest where
  TaskToken : List Nat
  QueryResult : Option (List (List Nat))
  ErrorMessage : String
  deriving DecidableEq, Repr

/-- A decision task as polled (`workflowservice.PollForDecisionTaskResponse`), the fields the
pollers read. -/
structure PollForDecisionTaskResponse where
  TaskToken : List Nat
  WorkflowExecution : WorkflowExecution
  StartedEventId : Int
  Attempt : Int
  BacklogCountHint : Int
  NextPageToken : Option (List Nat)
  deriving DecidableEq, Repr

/-- Go's nil-safe getter `(*PollForDecisionTaskResponse).GetAttempt`. -/
def GetAttempt (task : Option PollForDecisionTaskResponse) : Int :=
  match task with
  | some t => t.Attempt
  | none => 0

/-- The answer to a completion request
(`workflowservice.RespondDecisionTaskCompletedResponse`). -/
structure RespondDecisionTaskCompletedResponse where
  DecisionTask : Option PollForDecisionTaskResponse
  deriving DecidableEq, Repr

/-- Report that an activity completed (`workflowservice.RespondActivityTaskCompletedRequest`). -/
structure RespondActivityTaskCompletedRequest where
  TaskToken : List Nat
  Result : Option (List (List Nat))
  Identity : String
  deriving DecidableEq, Repr

/-- Report that an activity was cancelled (`workflowservice.RespondActivityTaskCanceledRequest`). -/
structure RespondActivityTaskCanceledRequest where
  TaskToken : List Nat
  Details : Option (List (List Nat))
  Identity : String
  deriving DecidableEq, Repr

/-- A serialized failure (`failurepb.Failure`). -/
structure Failure where
  Message : String
  Source : String
  deriving DecidableEq, Repr

/-- Report that an activity failed (`workflowservice.RespondActivityTaskFailedRequest`). -/
structure RespondActivityTaskFailedRequest where
  TaskToken : List Nat
  Failure : Failure
  Identity : String
  deriving DecidableEq, Repr

/-- Report by id that an activity completed. -/
structure RespondActivityTaskCompletedByIdRequest where
  Namespace : String
  WorkflowId : String
  RunId : String
  ActivityId : String
  Result : Option (List (List Nat))
  Identity : String
  deriving DecidableEq, Repr

/-- Report by id that an activity was cancelled. -/
structure RespondActivityTaskCanceledByIdRequest where
  Namespace : String
  WorkflowId : String
  RunId : String
  ActivityId : String
  Details : Option (List (List Nat))
  Identity : String
  deriving DecidableEq, Repr

/-- Report by id that an activity failed. -/
structure RespondActivityTaskFailedByIdRequest where
  Namespace : String
  WorkflowId : String
  RunId : String
  ActivityId : String
  Failure : Failure
  Identity : String
  deriving DecidableEq, Repr

/-- The values `convertActivityResultToRespondRequest` returns as `interface{}`: the pending
sentinel or one of the three reports. -/
inductive activityRespondRequest
  | ErrActivityResultPending
  | RespondActivityTaskCompletedRequest (r : RespondActivityTaskCompletedRequest)
  | RespondActivityTaskCanceledRequest (r : RespondActivityTaskCanceledRequest)
  | RespondActivityTaskFailedRequest (r : RespondActivityTaskFailedRequest)
  deriving DecidableEq, Repr

/-- The non-nil values `convertActivityResultToRespondRequestByID` returns as `interface{}`. -/
inductive activityRespondByIdRequest
  | RespondActivityTaskCompletedByIdRequest (r : RespondActivityTaskCompletedByIdRequest)
  | RespondActivityTaskCanceledByIdRequest (r : RespondActivityTaskCanceledByIdRequest)
  | RespondActivityTaskFailedByIdRequest (r : RespondActivityTaskFailedByIdRequest)
  deriving DecidableEq, Repr

/-- The values passed to `RespondTaskCompleted` as `interface{}`, by dynamic type. -/
inductive completedRequest
  | RespondDecisionTaskFailedRequest (r : RespondDecisionTaskFailedRequest)
  | RespondDecisionTaskCompletedRequest (r : RespondDecisionTaskCompletedRequest)
  | RespondQueryTaskCompletedRequest (r : RespondQueryTaskCompletedRequest)
  | unknown
  deriving DecidableEq, Repr

/-- A remote call issued to the service, with the request sent. -/
inductive ServiceCall
  | RespondDecisionTaskFailed (r : RespondDecisionTaskFailedRequest)
  | RespondDecisionTaskCompleted (r : RespondDecisionTaskCompletedRequest)
  | RespondQueryTaskCompleted (r : RespondQueryTaskCompletedRequest)
  | RespondActivityTaskCanceled (r : RespondActivityTaskCanceledRequest)
  | RespondActivityTaskFailed (r : RespondActivityTaskFailedRequest)
  | RespondActivityTaskCompleted (r : RespondActivityTaskCompletedRequest)
  | RespondActivityTaskCanceledById (r : RespondActivityTaskCanceledByIdRequest)
  | RespondActivityTaskFailedById (r : RespondActivityTaskFailedByIdRequest)
  | RespondActivityTaskCompletedById (r : RespondActivityTaskCompletedByIdRequest)
  deriving DecidableEq, Repr

/-- The service (`workflowservice.WorkflowServiceClient`), the calls the pollers make. The
service is outside the program: each call is a parameter. The first argument of a respond call
is the number of calls issued before it within the same operation, so that an answer may differ
from one attempt to the next. -/
structure WorkflowServiceClient where
  PollForDecisionTask :
    PollForDecisionTaskRequest → Except GoError (Option PollForDecisionTaskResponse)
  RespondDecisionTaskFailed : Nat → RespondDecisionTaskFailedRequest → Option GoError
  RespondDecisionTaskCompleted :
    Nat → RespondDecisionTaskCompletedRequest → Except GoError RespondDecisionTaskCompletedResponse
  RespondQueryTaskCompleted : Nat → RespondQueryTaskCompletedRequest → Option GoError
  RespondActivityTaskCanceled : Nat → RespondActivityTaskCanceledRequest → Option GoError
  RespondActivityTaskFailed : Nat → RespondActivityTaskFailedRequest → Option GoError
  RespondActivityTaskCompleted : Nat → RespondActivityTaskCompletedRequest → Option GoError
  RespondActivityTaskCanceledById : Nat → RespondActivityTaskCanceledByIdRequest → Option GoError
  RespondActivityTaskFailedById : Nat → RespondActivityTaskFailedByIdRequest → Option GoError
  RespondActivityTaskCompletedById :
    Nat → RespondActivityTaskCompletedByIdRequest → Option GoError

/-- Modelled from the spec: `backoff.Retry` of the missing backoff package (§4.5 "RPC errors are
retried with a dynamic backoff policy"). The operation is invoked; it is invoked again after an
error as long as the error is retryable and the policy, here the number of retries it grants,
is not used up. The state is what the operation's closure can write. A panic of the operation
ends the retries. -/
def Retry {σ : Type} (isRetryable : GoError → Bool) :
    Nat → (σ → Except PanicError (Option GoError × σ)) → σ →
      Except PanicError (Option GoError × σ)
  | 0, operation, s => operation s
  | retries + 1, operation, s =>
      match operation s with
      | .error p => .error p
      | .ok (none, s') => .ok (none, s')
      | .ok (some err, s') =>
          if isRetryable err then Retry isRetryable retries operation s'
          else .ok (some err, s')

/-- What the closure inside `RespondTaskCompleted` reads and writes: the request (the Go code
updates it in place), the named result `response`, and the calls issued so far. -/
structure respondState where
  completedRequest : completedRequest
  response : Option RespondDecisionTaskCompletedResponse
  calls : List ServiceCall
  deriving DecidableEq, Repr

/-- Embedding of lines 385-392 of `RespondTaskCompleted`: what the closure does to a
`RespondDecisionTaskCompletedRequest` before it sends it. The Go code leaves `Kind` of the new
task list at its zero value. `StickyScheduleToStartTimeout` is the poller's field of that name, in
nanoseconds. -/
def prepareCompletedRequest {F : Type} (getWorkerTaskList : String → String)
    (ops : float64Ops F) (wtp : workflowTaskPoller) (StickyScheduleToStartTimeout : Int)
    (request : RespondDecisionTaskCompletedRequest) : RespondDecisionTaskCompletedRequest :=
  if request.StickyAttributes = none ∧ ¬ wtp.disableStickyExecution then
    { request with
      StickyAttributes := some
        { WorkerTaskList :=
            some { Name := getWorkerTaskList wtp.stickyUUID,
                   Kind := TASK_LIST_KIND_UNSPECIFIED },
          ScheduleToStartTimeoutSeconds :=
            Int32Ceil ops (ops.Seconds StickyScheduleToStartTimeout) } }
  else { request with ReturnNewDecisionTask := false }

/-- Embedding of the closure that `RespondTaskCompleted` hands to `backoff.Retry` (lines
368-412), one invocation. `StickyScheduleToStartTimeout` is the poller's field of that name, in
nanoseconds. -/
def respondTaskCompletedOperation {F : Type} (getWorkerTaskList : String → String)
    (ops : float64Ops F) (service : WorkflowServiceClient) (wtp : workflowTaskPoller)
    (StickyScheduleToStartTimeout : Int) (task : Option PollForDecisionTaskResponse)
    (s : respondState) : Except PanicError (Option GoError × respondState) :=
  match s.completedRequest with
  | .RespondDecisionTaskFailedRequest request =>
      if GetAttempt task = 0 then
        let err1 := service.RespondDecisionTaskFailed s.calls.length request
        .ok (err1, { s with calls := s.calls ++ [.RespondDecisionTaskFailed request] })
      else .ok (none, s)
  | .RespondDecisionTaskCompletedRequest request =>
      let request :=
        prepareCompletedRequest getWorkerTaskList ops wtp StickyScheduleToStartTimeout request
      match service.RespondDecisionTaskCompleted s.calls.length request with
      | .ok response =>
          .ok (none,
            { completedRequest := .RespondDecisionTaskCompletedRequest request,
              response := some response,
              calls := s.calls ++ [.RespondDecisionTaskCompleted request] })
      | .error err1 =>
          .ok (some err1,
            { completedRequest := .RespondDecisionTaskCompletedRequest request,
              response := none,
              calls := s.calls ++ [.RespondDecisionTaskCompleted request] })
  | .RespondQueryTaskCompletedRequest request =>
      let err1 := service.RespondQueryTaskCompleted s.calls.length request
      .ok (err1, { s with calls := s.calls ++ [.RespondQueryTaskCompleted request] })
  | .unknown => .error "unknown request type from ProcessWorkflowTask()"

/-- Embedding of `workflowTaskPoller.RespondTaskCompleted` (lines 364-415): the returned
`(response, err)`, together with the calls issued and the request as the retries left it.
`isServiceTransientError` and the retry policy (`maxRetries`, the retries it grants) are defined
outside the file and are parameters. -/
def workflowTaskPoller.RespondTaskCompleted {F : Type} (getWorkerTaskList : String → String)
    (ops : float64Ops F) (isServiceTransientError : GoError → Bool) (maxRetries : Nat)
    (service : WorkflowServiceClient) (wtp : workflowTaskPoller)
    (StickyScheduleToStartTimeout : Int) (completedRequest : completedRequest)
    (task : Option PollForDecisionTaskResponse) :
    Except PanicError (Option GoError × respondState) :=
  Retry isServiceTransientError maxRetries
    (respondTaskCompletedOperation getWorkerTaskList ops service wtp
      StickyScheduleToStartTimeout task)
    { completedRequest := completedRequest, response := none, calls := [] }

/-- A polled decision task as handed to the task handler (`workflowTask`): the response and the
iterator over its history; both absent when the poll brought nothing. -/
structure workflowTask where
  task : Option PollForDecisionTaskResponse
  historyIterator : Option historyIteratorImpl

/-- Embedding of `workflowTaskPoller.toWorkflowTask` (lines 694-708). -/
def workflowTaskPoller.toWorkflowTask (wtp : workflowTaskPoller)
    (response : PollForDecisionTaskResponse) : workflowTask :=
  let historyIterator : historyIteratorImpl :=
    { iteratorFunc := none, nextPageToken := response.NextPageToken,
      execution := response.WorkflowExecution, ns := wtp.ns,
      maxEventID := response.StartedEventId }
  { task := some response, historyIterator := some historyIterator }

/-- Embedding of `workflowTaskPoller.poll` (lines 643-692): the returned `(task, err)` and the
poller after the call, the deferred `release` included. Metrics and logging are not part of the
embedding. -/
def workflowTaskPoller.poll (getWorkerTaskList : String → String) (getBinaryChecksum : String)
    (service : WorkflowServiceClient) (wtp : workflowTaskPoller) :
    Except GoError workflowTask × workflowTaskPoller :=
  let (request, wtp1) := wtp.getNextPollRequest getWorkerTaskList getBinaryChecksum
  let kind := request.TaskList.Kind
  match service.PollForDecisionTask request with
  | .error err => (.error err, (wtp1.updateBacklog kind 0).release kind)
  | .ok response =>
    match response with
    | none => (.ok { task := none, historyIterator := none },
        (wtp1.updateBacklog kind 0).release kind)
    | some response =>
      if response.TaskToken.length = 0 then
        (.ok { task := none, historyIterator := none }, (wtp1.updateBacklog kind 0).release kind)
      else
        let wtp2 := wtp1.updateBacklog kind response.BacklogCountHint
        (.ok (wtp2.toWorkflowTask response), wtp2.release kind)

end Temporal

namespace Temporal

/-- Embedding of `convertActivityResultToRespondRequest` (lines 1012-1044).
`convertErrDetailsToPayloads` and `convertErrorToFailure` (with the data converter they are
given) are defined outside the file and are parameters. -/
def convertActivityResultToRespondRequest
    (convertErrDetailsToPayloads : List (List Nat) → Option (List (List Nat)))
    (convertErrorToFailure : GoError → Failure)
    (identity : String) (taskToken : List Nat) (result : Option (List (List Nat)))
    (err : Option GoError) : activityRespondRequest :=
  if err = some .ErrActivityResultPending then .ErrActivityResultPending
  else
    match err with
    | none =>
        .RespondActivityTaskCompletedRequest
          { TaskToken := taskToken, Result := result, Identity := identity }
    | some err =>
        match errorsAsCanceledError err with
        | some details =>
            .RespondActivityTaskCanceledRequest
              { TaskToken := taskToken, Details := convertErrDetailsToPayloads details,
                Identity := identity }
        | none =>
            if errorsIsContextCanceled err then
              .RespondActivityTaskCanceledRequest
                { TaskToken := taskToken, Details := none, Identity := identity }
            else
              .RespondActivityTaskFailedRequest
                { TaskToken := taskToken, Failure := convertErrorToFailure err,
                  Identity := identity }

/-- Embedding of `convertActivityResultToRespondRequestByID` (lines 1046-1091); `none` is the
`nil` it returns for a pending result. -/
def convertActivityResultToRespondRequestByID
    (convertErrDetailsToPayloads : List (List Nat) → Option (List (List Nat)))
    (convertErrorToFailure : GoError → Failure)
    (identity ns workflowID runID activityID : String) (result : Option (List (List Nat)))
    (err : Option GoError) : Option activityRespondByIdRequest :=
  if err = some .ErrActivityResultPending then none
  else
    match err with
    | none =>
        some (.RespondActivityTaskCompletedByIdRequest
          { Namespace := ns, WorkflowId := workflowID, RunId := runID, ActivityId := activityID,
            Result := result, Identity := identity })
    | some err =>
        match errorsAsCanceledError err with
        | some details =>
            some (.RespondActivityTaskCanceledByIdRequest
              { Namespace := ns, WorkflowId := workflowID, RunId := runID,
                ActivityId := activityID, Details := convertErrDetailsToPayloads details,
                Identity := identity })
        | none =>
            if errorsIsContextCanceled err then
              some (.RespondActivityTaskCanceledByIdRequest
                { Namespace := ns, WorkflowId := workflowID, RunId := runID,
                  ActivityId := activityID, Details := none, Identity := identity })
            else
              some (.RespondActivityTaskFailedByIdRequest
                { Namespace := ns, WorkflowId := workflowID, RunId := runID,
                  ActivityId := activityID, Failure := convertErrorToFailure err,
                  Identity := identity })

/-- One remote call under `backoff.Retry`, as `reportActivityComplete` issues it: the call is
added to the calls issued and its error returned. -/
def issue (call : ServiceCall) (answer : Nat → Option GoError) (calls : List ServiceCall) :
    Except PanicError (Option GoError × List ServiceCall) :=
  .ok (answer calls.length, calls ++ [call])

/-- Embedding of `reportActivityComplete` (lines 912-960): the returned error and the calls
issued. `none` is a `nil` request. Metrics are not part of the embedding. -/
def reportActivityComplete (isServiceTransientError : GoError → Bool) (maxRetries : Nat)
    (service : WorkflowServiceClient) (request : Option activityRespondRequest) :
    Except PanicError (Option GoError × List ServiceCall) :=
  match request with
  | none => .ok (none, [])
  | some (.RespondActivityTaskCanceledRequest r) =>
      Retry isServiceTransientError maxRetries
        (issue (.RespondActivityTaskCanceled r) (fun n => service.RespondActivityTaskCanceled n r))
        []
  | some (.RespondActivityTaskFailedRequest r) =>
      Retry isServiceTransientError maxRetries
        (issue (.RespondActivityTaskFailed r) (fun n => service.RespondActivityTaskFailed n r)) []
  | some (.RespondActivityTaskCompletedRequest r) =>
      Retry isServiceTransientError maxRetries
        (issue (.RespondActivityTaskCompleted r)
          (fun n => service.RespondActivityTaskCompleted n r)) []
  | some .ErrActivityResultPending => .ok (none, [])

/-- Embedding of `reportActivityCompleteByID` (lines 962-1010). -/
def reportActivityCompleteByID (isServiceTransientError : GoError → Bool) (maxRetries : Nat)
    (service : WorkflowServiceClient) (request : Option activityRespondByIdRequest) :
    Except PanicError (Option GoError × List ServiceCall) :=
  match request with
  | none => .ok (none, [])
  | some (.RespondActivityTaskCanceledByIdRequest r) =>
      Retry isServiceTransientError maxRetries
        (issue (.RespondActivityTaskCanceledById r)
          (fun n => service.RespondActivityTaskCanceledById n r)) []
  | some (.RespondActivityTaskFailedByIdRequest r) =>
      Retry isServiceTransientError maxRetries
        (issue (.RespondActivityTaskFailedById r)
          (fun n => service.RespondActivityTaskFailedById n r)) []
  | some (.RespondActivityTaskCompletedByIdRequest r) =>
      Retry isServiceTransientError maxRetries
        (issue (.RespondActivityTaskCompletedById r)
          (fun n => service.RespondActivityTaskCompletedById n r)) []

/-- An activity task as polled (`workflowservice.PollForActivityTaskResponse`), the fields
`ProcessTask` reads. -/
structure PollForActivityTaskResponse where
  TaskToken : List Nat
  WorkflowType : String
  ActivityType : String
  ActivityId : String
  deriving DecidableEq, Repr

/-- The task `activityTaskPoller.poll` returns (`activityTask`); `task` is absent when the poll
brought nothing. -/
structure activityTask where
  task : Option PollForActivityTaskResponse
  deriving DecidableEq, Repr

/-- The fields of `activityTaskPoller` that `ProcessTask` reads. -/
structure activityTaskPoller where
  ns : String
  taskListName : String
  identity : String
  deriving DecidableEq, Repr

/-- Embedding of `activityTaskPoller.ProcessTask` (lines 861-910): the returned error and the
calls issued to the service. `Execute` is the task handler's `Execute`, which returns an
`interface{}` (`none` is `nil`) and an error; `stoppingAtEntry` and `stoppingBeforeReport` are
what `stopping()` answers at its two call sites. Metrics and logging are not part of the
embedding. -/
def activityTaskPoller.ProcessTask (isServiceTransientError : GoError → Bool) (maxRetries : Nat)
    (service : WorkflowServiceClient)
    (Execute : String → PollForActivityTaskResponse →
      Option activityRespondRequest × Option GoError)
    (stoppingAtEntry stoppingBeforeReport : Bool)
    (atp : activityTaskPoller) (activityTask : activityTask) :
    Except PanicError (Option GoError × List ServiceCall) :=
  if stoppingAtEntry then .ok (some .errStop, [])
  else
    match activityTask.task with
    | none => .ok (none, [])
    | some task =>
      match Execute atp.taskListName task with
      | (_, some err) => .ok (some err, [])
      | (request, none) =>
        if request = some .ErrActivityResultPending then .ok (none, [])
        else if stoppingBeforeReport then .ok (some .errStop, [])
        else reportActivityComplete isServiceTransientError maxRetries service request

/-- The chain of an error: the error, the error it wraps, and so on. -/
def errorChain : GoError → List GoError
  | .wrapped message cause => .wrapped message cause :: errorChain cause
  | e => [e]

/-- The four outcomes of an activity that is not pending (§4.6). -/
inductive activityOutcome
  | completed
  | canceledWithDetails (details : List (List Nat))
  | canceledWithoutDetails
  | failed
  deriving DecidableEq, Repr

/-- The classification of §4.6 in the words of the specification: no error is a completion; an
error whose chain contains a typed `Canceled` error is a cancellation with that error's details;
otherwise an error whose chain contains the generic context cancellation is a cancellation
without details; anything else is a failure. -/
def classifyActivityResult (err : Option GoError) : activityOutcome :=
  match err with
  | none => .completed
  | some e =>
      match (errorChain e).findSome? (fun x =>
          match x with
          | .CanceledError details => some details
          | _ => none) with
      | some details => .canceledWithDetails details
      | none =>
          if GoError.contextCanceled ∈ errorChain e then .canceledWithoutDetails else .failed

/-- The report by task token that §4.6 has for an outcome. -/
def reportFor (convertErrDetailsToPayloads : List (List Nat) → Option (List (List Nat)))
    (convertErrorToFailure : GoError → Failure)
    (identity : String) (taskToken : List Nat) (result : Option (List (List Nat)))
    (err : Option GoError) : activityOutcome → activityRespondRequest
  | .completed =>
      .RespondActivityTaskCompletedRequest
        { TaskToken := taskToken, Result := result, Identity := identity }
  | .canceledWithDetails details =>
      .RespondActivityTaskCanceledRequest
        { TaskToken := taskToken, Details := convertErrDetailsToPayloads details,
          Identity := identity }
  | .canceledWithoutDetails =>
      .RespondActivityTaskCanceledRequest
        { TaskToken := taskToken, Details := none, Identity := identity }
  | .failed =>
      .RespondActivityTaskFailedRequest
        { TaskToken := taskToken,
          Failure := convertErrorToFailure (err.getD (.other "")), Identity := identity }

/-- The report by id that §4.6 has for an outcome. -/
def reportByIdFor (convertErrDetailsToPayloads : List (List Nat) → Option (List (List Nat)))
    (convertErrorToFailure : GoError → Failure)
    (identity ns workflowID runID activityID : String) (result : Option (List (List Nat)))
    (err : Option GoError) : activityOutcome → activityRespondByIdRequest
  | .completed =>
      .RespondActivityTaskCompletedByIdRequest
        { Namespace := ns, WorkflowId := workflowID, RunId := runID, ActivityId := activityID,
          Result := result, Identity := identity }
  | .canceledWithDetails details =>
      .RespondActivityTaskCanceledByIdRequest
        { Namespace := ns, WorkflowId := workflowID, RunId := runID, ActivityId := activityID,
          Details := convertErrDetailsToPayloads details, Identity := identity }
  | .canceledWithoutDetails =>
      .RespondActivityTaskCanceledByIdRequest
        { Namespace := ns, WorkflowId := workflowID, RunId := runID, ActivityId := activityID,
          Details := none, Identity := identity }
  | .failed =>
      .RespondActivityTaskFailedByIdRequest
        { Namespace := ns, WorkflowId := workflowID, RunId := runID, ActivityId := activityID,
          Failure := convertErrorToFailure (err.getD (.other "")), Identity := identity }

end Temporal

namespace Temporal
open TaskListKind

/-- A sample conversion of error details to payloads. -/
def sampleDetailsToPayloads : List (List Nat) → Option (List (List Nat)) := fun d => some d

/-- A sample conversion of an error to a failure. -/
def sampleErrorToFailure : GoError → Failure := fun _ => { Message := "failed", Source := "GoSDK" }

/-- A sample service: every respond call succeeds, a poll brings the sample task. -/
def sampleTask : PollForDecisionTaskResponse :=
  { TaskToken := [1], WorkflowExecution := sampleExecution, StartedEventId := 3, Attempt := 0,
    BacklogCountHint := 9, NextPageToken := none }

/-- A sample service: every respond call succeeds, every poll brings `sampleTask`. -/
def sampleService : WorkflowServiceClient :=
  { PollForDecisionTask := fun _ => .ok (some sampleTask),
    RespondDecisionTaskFailed := fun _ _ => none,
    RespondDecisionTaskCompleted := fun _ _ => .ok { DecisionTask := none },
    RespondQueryTaskCompleted := fun _ _ => none,
    RespondActivityTaskCanceled := fun _ _ => none,
    RespondActivityTaskFailed := fun _ _ => none,
    RespondActivityTaskCompleted := fun _ _ => none,
    RespondActivityTaskCanceledById := fun _ _ => none,
    RespondActivityTaskFailedById := fun _ _ => none,
    RespondActivityTaskCompletedById := fun _ _ => none }

/-- Sample float operations in fixed point: a value is a whole number of billionths.
`Seconds` of a duration in nanoseconds is then the duration itself, `Ceil` rounds up to a
multiple of a billion, and the conversions to integers divide by a billion. -/
def sampleFloatOps : float64Ops Int :=
  { Seconds := fun d => d,
    Ceil := fun v => (v + 999999999) / 1000000000 * 1000000000,
    toInt32 := fun v => v / 1000000000,
    toInt64 := fun v => v / 1000000000 }

/-- A sample activity task. -/
def sampleActivityTask : PollForActivityTaskResponse :=
  { TaskToken := [7], WorkflowType := "wf", ActivityType := "act", ActivityId := "a1" }

/-- A task handler whose activity completes asynchronously. -/
def pendingExecute :
    String → PollForActivityTaskResponse → Option activityRespondRequest × Option GoError :=
  fun _ _ => (some .ErrActivityResultPending, none)

/-- A sample activity poller. -/
def sampleActivityPoller : activityTaskPoller :=
  { ns := "default", taskListName := "tl", identity := "worker-1" }

/-- A completion request as a task handler builds it: no sticky attributes, a new decision task
asked for. -/
def handlerRequest : RespondDecisionTaskCompletedRequest :=
  { TaskToken := [1], Decisions := [], Identity := "worker-1", StickyAttributes := none,
    ReturnNewDecisionTask := true, ForceCreateNewDecisionTask := false }

/-- A completion request that already carries sticky attributes, for another task list. -/
def presetStickyRequest : RespondDecisionTaskCompletedRequest :=
  { TaskToken := [1], Decisions := [], Identity := "worker-1",
    StickyAttributes := some
      { WorkerTaskList := some { Name := "elsewhere", Kind := TASK_LIST_KIND_UNSPECIFIED },
        ScheduleToStartTimeoutSeconds := 1 },
    ReturnNewDecisionTask := true, ForceCreateNewDecisionTask := false }

/-- A service whose first answer to a completion request is a transient error and whose later
answers are successes. -/
def flakyService : WorkflowServiceClient :=
  { sampleService with
    RespondDecisionTaskCompleted := fun issued _ =>
      if issued = 0 then .error (.other "unavailable") else .ok { DecisionTask := none },
    RespondDecisionTaskFailed := fun issued _ =>
      if issued = 0 then some (.other "unavailable") else none }

/-- The sample task on its third attempt. -/
def retriedTask : PollForDecisionTaskResponse := { sampleTask with Attempt := 2 }

/-- A failure report for the sample task. -/
def sampleFailedRequest : RespondDecisionTaskFailedRequest :=
  { TaskToken := [1], Cause := 2, Identity := "worker-1" }

/-- A poller with sticky execution on, no backlog, and fewer regular than sticky polls pending,
so that its next poll is a normal one. -/
def pollerNormalNext : workflowTaskPoller :=
  { ns := "default", taskListName := "tl", identity := "worker-1", stickyUUID := "uuid-1",
    disableStickyExecution := false, pendingRegularPollCount := 0, pendingStickyPollCount := 4,
    stickyBacklog := 0 }

end Temporal

/-! ## Part V — integer helpers, poller runs, stop handling, local activities -/

namespace Temporal
open TaskListKind EventType

/-- Embedding of `common.MinInt64` (convert.go lines 41-47). The comparison is the same at every
integer width, so the arguments are embedded as integers. -/
def MinInt64 (a b : Int) : Int :=
  if a < b then a else b

/-- Embedding of `common.MaxInt64` (convert.go lines 49-55). -/
def MaxInt64 (a b : Int) : Int :=
  if a > b then a else b

/-- Embedding of `common.MinInt32` (convert.go lines 57-63). -/
def MinInt32 (a b : Int) : Int :=
  if a < b then a else b

/-- Embedding of `common.MinInt` (convert.go lines 65-71). -/
def MinInt (a b : Int) : Int :=
  if a < b then a else b

/-- Embedding of `common.MaxInt` (convert.go lines 73-79). -/
def MaxInt (a b : Int) : Int :=
  if a > b then a else b

/-- Go's nil-safe getter `(*History).GetEvents`: a nil history has no events. -/
def GetEvents (h : Option History) : List HistoryEvent :=
  match h with
  | some h => h.Events
  | none => []

/-- A service that answers with raw blobs and announces a further page. -/
def serviceRawHistory :
    GetWorkflowExecutionHistoryRequest → Except String GetWorkflowExecutionHistoryResponse :=
  fun _ => .ok { History := none, RawHistory := some [[1, 2]], NextPageToken := some [9] }

/-- An iterator in the middle of a history: a page token is stored, no page function yet. -/
def iteratorMidway : historyIteratorImpl :=
  { iteratorFunc := none, execution := sampleExecution, nextPageToken := some [4],
    ns := "default", maxEventID := 3 }

/-- A service that serves the first page only: it answers a request without a page token with
`pageEndingCompleted` and the token `[7]`, and any other request with an error. -/
def serviceFirstPageOnly :
    GetWorkflowExecutionHistoryRequest → Except String GetWorkflowExecutionHistoryResponse :=
  fun request =>
    match request.NextPageToken with
    | none => .ok { History := some pageEndingCompleted, RawHistory := none,
                    NextPageToken := some [7] }
    | some _ => .error "not the first page"

/-- A page with ids 4, 5, 6: the page that follows one ending with event 3. -/
def pageAfterTerminal : History :=
  { Events := [⟨4, EVENT_TYPE_OTHER 10⟩, ⟨5, EVENT_TYPE_DECISION_TASK_SCHEDULED⟩,
      ⟨6, EVENT_TYPE_DECISION_TASK_STARTED⟩] }

/-- A service that answers with `pageAfterTerminal`. -/
def serviceAfterTerminal :
    GetWorkflowExecutionHistoryRequest → Except String GetWorkflowExecutionHistoryResponse :=
  fun _ => .ok { History := some pageAfterTerminal, RawHistory := none, NextPageToken := none }

/-- A service with two pages: it answers a request without a page token with
`pageEndingCompleted` and the token `[7]`, and any other request with `pageAfterTerminal`. -/
def serviceTwoPages :
    GetWorkflowExecutionHistoryRequest → Except String GetWorkflowExecutionHistoryResponse :=
  fun request =>
    match request.NextPageToken with
    | none => .ok { History := some pageEndingCompleted, RawHistory := none,
                    NextPageToken := some [7] }
    | some _ => .ok { History := some pageAfterTerminal, RawHistory := none,
                      NextPageToken := none }

/-- The iterator of a decision task whose started event id is 3, before its first page. -/
def iteratorFresh : historyIteratorImpl :=
  { iteratorFunc := none, execution := sampleExecution, nextPageToken := none,
    ns := "default", maxEventID := 3 }

/-- A page with ids 5, 6, 7. -/
def pageFarAfterTerminal : History :=
  { Events := [⟨5, EVENT_TYPE_DECISION_TASK_SCHEDULED⟩, ⟨6, EVENT_TYPE_DECISION_TASK_STARTED⟩,
      ⟨7, EVENT_TYPE_DECISION_TASK_COMPLETED⟩] }

/-- A service that answers with `pageFarAfterTerminal`. -/
def serviceFarAfterTerminal :
    GetWorkflowExecutionHistoryRequest → Except String GetWorkflowExecutionHistoryResponse :=
  fun _ => .ok { History := some pageFarAfterTerminal, RawHistory := none, NextPageToken := none }

/-- A step in the use of a workflow task poller by its poll loops: a `getNextPollRequest`, the
`release` of the request that stands at position `i` among those issued and not yet released,
or an `updateBacklog`. -/
inductive pollerStep
  | getNextPollRequest
  | release (i : Nat)
  | updateBacklog (taskListKind : TaskListKind) (backlogCountHint : Int)
  deriving DecidableEq, Repr

/-- A poller together with the task list kinds of the requests issued by `getNextPollRequest`
and not yet released, oldest first. -/
structure pollerRun where
  wtp : workflowTaskPoller
  outstanding : List TaskListKind
  deriving DecidableEq, Repr

/-- One step of a run. `requestLock` makes each of the three operations atomic, so an
interleaving of poll loops is a sequence of such steps. A `release` for a request that is not
outstanding is not a step of any run. -/
def pollerRun.step (getWorkerTaskList : String → String) (getBinaryChecksum : String)
    (s : pollerRun) : pollerStep → Option pollerRun
  | .getNextPollRequest =>
      some { wtp := (s.wtp.getNextPollRequest getWorkerTaskList getBinaryChecksum).2,
             outstanding := s.outstanding ++
               [(s.wtp.getNextPollRequest getWorkerTaskList getBinaryChecksum).1.TaskList.Kind] }
  | .release i =>
      match s.outstanding[i]? with
      | none => none
      | some kind => some { wtp := s.wtp.release kind, outstanding := s.outstanding.eraseIdx i }
  | .updateBacklog taskListKind backlogCountHint =>
      some { wtp := s.wtp.updateBacklog taskListKind backlogCountHint,
             outstanding := s.outstanding }

/-- A run: the steps one after the other. -/
def pollerRun.steps (getWorkerTaskList : String → String) (getBinaryChecksum : String) :
    List pollerStep → pollerRun → Option pollerRun
  | [], s => some s
  | step :: rest, s =>
      match s.step getWorkerTaskList getBinaryChecksum step with
      | none => none
      | some s' => pollerRun.steps getWorkerTaskList getBinaryChecksum rest s'

/-- The number of outstanding requests of a kind. -/
def pollerRun.outstandingOf (s : pollerRun) (kind : TaskListKind) : Int :=
  (s.outstanding.count kind : Int)

/-- The invariant of a run. With sticky execution enabled each pending count is the number of
outstanding requests of its kind, and every outstanding request is a sticky or a normal one;
with sticky execution disabled both pending counts are 0 and every outstanding request is a
normal one. -/
def pollerRun.counted (s : pollerRun) : Prop :=
  (s.wtp.disableStickyExecution = false →
    s.wtp.pendingStickyPollCount = s.outstandingOf TASK_LIST_KIND_STICKY ∧
    s.wtp.pendingRegularPollCount = s.outstandingOf TASK_LIST_KIND_NORMAL ∧
    ∀ kind ∈ s.outstanding, kind = TASK_LIST_KIND_STICKY ∨ kind = TASK_LIST_KIND_NORMAL) ∧
  (s.wtp.disableStickyExecution = true →
    s.wtp.pendingStickyPollCount = 0 ∧ s.wtp.pendingRegularPollCount = 0 ∧
    ∀ kind ∈ s.outstanding, kind = TASK_LIST_KIND_NORMAL)

/-- A fresh poller with sticky execution disabled. -/
def pollerFreshDisabled : workflowTaskPoller :=
  { ns := "default", taskListName := "tl", identity := "worker-1", stickyUUID := "uuid-1",
    disableStickyExecution := true, pendingRegularPollCount := 0, pendingStickyPollCount := 0,
    stickyBacklog := 0 }

/-- A fresh poller with sticky execution enabled. -/
def pollerFresh : workflowTaskPoller :=
  { ns := "default", taskListName := "tl", identity := "worker-1", stickyUUID := "uuid-1",
    disableStickyExecution := false, pendingRegularPollCount := 0, pendingStickyPollCount := 0,
    stickyBacklog := 0 }

/-- Three requests are issued, the backlog is reported, the second request is released and a
fourth is issued. -/
def sampleSteps : List pollerStep :=
  [.getNextPollRequest, .getNextPollRequest, .getNextPollRequest,
   .updateBacklog TASK_LIST_KIND_STICKY 5, .release 1, .getNextPollRequest]

/-- An instant (`time.Time`) as a whole number of nanoseconds since the zero time of Go; a
duration (`time.Duration`) is a whole number of nanoseconds as well. Instants are taken on one
clock and far from the ends of the range of `time.Time`, so that `Add` is an addition. -/
abbrev Time := Int

/-- Go's `time.Second`, in nanoseconds. -/
def Second : Int := 1000000000

/-- Go's `Time.Add`. -/
def Time.Add (t : Time) (d : Int) : Time := t + d

/-- Go's `Time.IsZero`. -/
def Time.IsZero (t : Time) : Bool := decide (t = 0)

/-- Go's `Time.Before`. -/
def Time.Before (t u : Time) : Bool := decide (t < u)

/-- Modelled from the spec: the parameters of a local activity (`task.params`, a type declared
outside the file), the fields that `executeLocalActivityTask` reads for the activity's execution.
The two timeouts are `int32` numbers of seconds. -/
structure executeLocalActivityParams where
  ActivityType : String
  InputArgs : List (List Nat)
  ScheduleToCloseTimeoutSeconds : Int
  StartToCloseTimeoutSeconds : Int
  deriving DecidableEq, Repr

/-- The cancel function that `context.WithDeadline` returns, known by the deadline of the
context that it cancels. -/
structure CancelFunc where
  deadline : Time
  deriving DecidableEq, Repr

/-- Modelled from the spec: a local activity task (`localActivityTask`, a type declared outside
the file; §3 "`{params, activityId, attempt, expireTime, canceled, cancelFunc}` guarded by an
internal mutex"). `attempt` is an `int32`; a nil `cancelFunc` is `none`. -/
structure localActivityTask where
  activityID : String
  params : executeLocalActivityParams
  attempt : Int
  expireTime : Time
  canceled : Bool
  cancelFunc : Option CancelFunc
  deriving DecidableEq, Repr

/-- The result of a local activity (`localActivityResult`, lines 137-142). `task` points to the
task; it is embedded as the task as the call leaves it. -/
structure localActivityResult where
  result : Option (List (List Nat))
  err : Option GoError
  task : localActivityTask
  backoff : Int
  deriving DecidableEq, Repr

/-- The errors of the SDK that `executeLocalActivityTask` returns: `ErrCanceled`,
`ErrDeadlineExceeded` and `NewApplicationError("unexpected context done", true, nil)`. They are
defined outside the file and are parameters. -/
structure localActivityErrors where
  ErrCanceled : GoError
  ErrDeadlineExceeded : GoError
  unexpectedContextDone : GoError
  deriving DecidableEq, Repr

/-- What `executeLocalActivityTask` does that is visible from outside, in the order of the
statements: it derives a context with a deadline, records the cancel function on the task,
starts the goroutine that runs the user function, and calls the cancel function (deferred). -/
inductive localActivityEvent
  | contextWithDeadline (deadline : Time)
  | cancelFuncRecorded (cancel : CancelFunc)
  | activityStarted (deadline : Time) (args : List (List Nat))
  | cancelCalled (cancel : CancelFunc)
  deriving DecidableEq, Repr

/-- How the wait at `WaitResult` (lines 556-579) ends: the user function is done (also when the
context is done and the second look at `doneCh` finds the result), or the context is done first
with `context.Canceled`, with `context.DeadlineExceeded`, or with another error. Which one it is
depends on the scheduler and the clock and is a parameter. -/
inductive waitOutcome
  | done
  | contextCanceled
  | contextDeadlineExceeded
  | contextOther
  deriving DecidableEq, Repr

/-- Embedding of lines 512-515 of `executeLocalActivityTask`: the timeout in seconds. -/
def localActivityTimeout (task : localActivityTask) : Int :=
  let timeout := task.params.ScheduleToCloseTimeoutSeconds
  if task.params.StartToCloseTimeoutSeconds ≠ 0 ∧
      task.params.StartToCloseTimeoutSeconds < timeout then
    task.params.StartToCloseTimeoutSeconds
  else timeout

/-- Embedding of lines 516-521 of `executeLocalActivityTask`: the deadline, `now` being what
`time.Now()` returns. The timeout is an `int32`, so its product with `time.Second` is within the
range of a duration. -/
def localActivityDeadline (now : Time) (task : localActivityTask) : Time :=
  let timeoutDuration := localActivityTimeout task * Second
  let deadline := Time.Add now timeoutDuration
  if task.attempt > 0 ∧ ¬ Time.IsZero task.expireTime ∧ Time.Before task.expireTime deadline then
    task.expireTime
  else deadline

/-- Embedding of `localActivityTaskHandler.executeLocalActivityTask` (lines 458-582): the result
and the events in their order. `ExecuteWithActualArgs` is the user function as
`activityExecutor` runs it, with the deadline of its context and the input; it runs in a
goroutine of its own, and its result is read only when the wait ends with `done`. The deferred
panic handler has nothing to catch in the steps embedded here. Metrics, logging and tracing are
not part of the embedding. -/
def localActivityTaskHandler.executeLocalActivityTask (errs : localActivityErrors) (now : Time)
    (ExecuteWithActualArgs : Time → List (List Nat) → Option (List (List Nat)) × Option GoError)
    (wait : waitOutcome) (task : localActivityTask) :
    localActivityResult × List localActivityEvent :=
  let deadline := localActivityDeadline now task
  let cancel : CancelFunc := { deadline := deadline }
  if task.canceled then
    ({ result := none, err := some errs.ErrCanceled, task := task, backoff := 0 },
      [.contextWithDeadline deadline, .cancelCalled cancel])
  else
    let task := { task with cancelFunc := some cancel }
    let events : List localActivityEvent :=
      [.contextWithDeadline deadline, .cancelFuncRecorded cancel,
       .activityStarted deadline task.params.InputArgs, .cancelCalled cancel]
    match wait with
    | .contextCanceled =>
        ({ result := none, err := some errs.ErrCanceled, task := task, backoff := 0 }, events)
    | .contextDeadlineExceeded =>
        ({ result := none, err := some errs.ErrDeadlineExceeded, task := task, backoff := 0 },
          events)
    | .contextOther =>
        ({ result := none, err := some errs.unexpectedContextDone, task := task, backoff := 0 },
          events)
    | .done =>
        let (laResult, err) := ExecuteWithActualArgs deadline task.params.InputArgs
        ({ result := laResult, err := err, task := task, backoff := 0 }, events)

/-- The base of every poller (`basePoller`, lines 70-73): `stopC` tells whether the worker stop
channel has been closed by the time it is looked at. -/
structure basePoller where
  stopC : Bool
  deriving DecidableEq, Repr

/-- Embedding of `basePoller.stopping` (lines 183-190). -/
def basePoller.stopping (bp : basePoller) : Bool :=
  if bp.stopC then true else false

/-- Embedding of `basePoller.doPoll` (lines 194-218). The poll function works on a state `σ`
(what it reads and writes); `stopFirst` tells whether the final `select` leaves through the stop
channel, in which case the poll that was started is abandoned. -/
def basePoller.doPoll {σ α : Type} (bp : basePoller) (stopFirst : Bool)
    (pollFunc : σ → (Option α × Option GoError) × σ) (s : σ) :
    (Option α × Option GoError) × σ :=
  if bp.stopping then ((none, some .errStop), s)
  else
    let (r, s') := pollFunc s
    if stopFirst then ((none, some .errStop), s') else (r, s')

/-- Embedding of `workflowTaskPoller.PollTask` (lines 239-247). The poller embeds its
`basePoller`, which is passed next to it. -/
def workflowTaskPoller.PollTask (getWorkerTaskList : String → String)
    (getBinaryChecksum : String) (service : WorkflowServiceClient) (bp : basePoller)
    (stopFirst : Bool) (wtp : workflowTaskPoller) :
    (Option workflowTask × Option GoError) × workflowTaskPoller :=
  match bp.doPoll stopFirst
      (fun w =>
        match w.poll getWorkerTaskList getBinaryChecksum service with
        | (.ok task, w') => ((some task, none), w')
        | (.error err, w') => ((none, some err), w')) wtp with
  | ((_, some err), w) => ((none, some err), w)
  | ((workflowTask, none), w) => ((workflowTask, none), w)

/-- Modelled from the spec: a request to reset a sticky task list (`resetStickinessTask`, a type
declared outside the file; §4.5 "a side-band task type that issues `ResetStickyTaskList`"), by
the execution it names. -/
structure resetStickinessTask where
  task : WorkflowExecution
  deriving DecidableEq, Repr

/-- The tasks handed to `workflowTaskPoller.ProcessTask` as `interface{}`, by dynamic type. -/
inductive workflowPollerTask
  | workflowTask (task : workflowTask)
  | resetStickinessTask (task : resetStickinessTask)
  | unknown

/-- Embedding of `workflowTaskPoller.ProcessTask` (lines 250-263). `processWorkflowTask` drives
the task handler, which is outside the file, and `processResetStickinessTask` calls the service;
both work on a state `σ` and are parameters. -/
def workflowTaskPoller.ProcessTask {σ : Type} (bp : basePoller)
    (processWorkflowTask : workflowTask → σ → Option GoError × σ)
    (processResetStickinessTask : resetStickinessTask → σ → Option GoError × σ)
    (task : workflowPollerTask) (s : σ) : Except PanicError (Option GoError × σ) :=
  if bp.stopping then .ok (some .errStop, s)
  else
    match task with
    | .workflowTask task => .ok (processWorkflowTask task s)
    | .resetStickinessTask task => .ok (processResetStickinessTask task s)
    | .unknown => .error "unknown task type."

/-- A long-poll request for an activity task (`workflowservice.PollForActivityTaskRequest`);
`MaxTasksPerSecond` is a `float64`. -/
structure PollForActivityTaskRequest (F : Type) where
  Namespace : String
  TaskList : TaskList
  Identity : String
  MaxTasksPerSecond : F

/-- Embedding of `activityTaskPoller.poll` (lines 812-847): the returned `(task, err)` and the
requests sent to the service so far. `PollForActivityTask` is the service's call and
`activitiesPerSecond` the poller's field of that name; `pollStartTime`, metrics and logging are
not part of the embedding. -/
def activityTaskPoller.poll {F : Type}
    (PollForActivityTask :
      PollForActivityTaskRequest F → Except GoError (Option PollForActivityTaskResponse))
    (activitiesPerSecond : F) (atp : activityTaskPoller)
    (calls : List (PollForActivityTaskRequest F)) :
    (Option activityTask × Option GoError) × List (PollForActivityTaskRequest F) :=
  let request : PollForActivityTaskRequest F :=
    { Namespace := atp.ns,
      TaskList := { Name := atp.taskListName, Kind := TASK_LIST_KIND_UNSPECIFIED },
      Identity := atp.identity, MaxTasksPerSecond := activitiesPerSecond }
  match PollForActivityTask request with
  | .error err => ((none, some err), calls ++ [request])
  | .ok response =>
    match response with
    | none => ((some { task := none }, none), calls ++ [request])
    | some response =>
      if response.TaskToken.length = 0 then ((some { task := none }, none), calls ++ [request])
      else ((some { task := some response }, none), calls ++ [request])

/-- Embedding of `activityTaskPoller.PollTask` (lines 851-858). -/
def activityTaskPoller.PollTask {F : Type}
    (PollForActivityTask :
      PollForActivityTaskRequest F → Except GoError (Option PollForActivityTaskResponse))
    (activitiesPerSecond : F) (bp : basePoller) (stopFirst : Bool) (atp : activityTaskPoller)
    (calls : List (PollForActivityTaskRequest F)) :
    (Option activityTask × Option GoError) × List (PollForActivityTaskRequest F) :=
  match bp.doPoll stopFirst (atp.poll PollForActivityTask activitiesPerSecond) calls with
  | ((_, some err), calls') => ((none, some err), calls')
  | ((activityTask, none), calls') => ((activityTask, none), calls')

/-- The tunnel between the workflow side and the local activity poller (`localActivityTunnel`,
lines 144-148): the tasks queued on `taskCh`, oldest first, and whether `stopCh` has been
closed. -/
structure localActivityTunnel where
  taskCh : List localActivityTask
  stopCh : Bool
  deriving DecidableEq, Repr

/-- Embedding of `localActivityTunnel.getTask` (lines 159-166): the task returned (`none` is
`nil`) and the tunnel after the call. With no task queued and the stop channel open the `select`
blocks, and there is no result. With both arms ready Go takes either; `takeStop` tells which. -/
def localActivityTunnel.getTask (lat : localActivityTunnel) (takeStop : Bool) :
    Option (Option localActivityTask × localActivityTunnel) :=
  match lat.taskCh with
  | [] => if lat.stopCh then some (none, lat) else none
  | task :: rest =>
      if lat.stopCh ∧ takeStop then some (none, lat)
      else some (some task, { lat with taskCh := rest })

/-- Embedding of `localActivityTaskPoller.PollTask` (lines 435-437): the returned `(task, err)`
and the tunnel after the call; no result while `getTask` blocks. -/
def localActivityTaskPoller.PollTask (laTunnel : localActivityTunnel) (takeStop : Bool) :
    Option ((Option localActivityTask × Option GoError) × localActivityTunnel) :=
  match laTunnel.getTask takeStop with
  | none => none
  | some (task, laTunnel') => some ((task, none), laTunnel')

/-- Embedding of `localActivityTaskPoller.ProcessTask` (lines 439-456): the returned error, the
events of the execution, and the result sent on `laResultCh` (`none` when nothing is sent).
`receiverDone` tells whether the final `select` leaves through `doneCh`, the result being
dropped. -/
def localActivityTaskPoller.ProcessTask (bp : basePoller) (errs : localActivityErrors)
    (now : Time)
    (ExecuteWithActualArgs : Time → List (List Nat) → Option (List (List Nat)) × Option GoError)
    (wait : waitOutcome) (receiverDone : Bool) (task : localActivityTask) :
    Option GoError × List localActivityEvent × Option localActivityResult :=
  if bp.stopping then (some .errStop, [], none)
  else
    let (result, events) :=
      localActivityTaskHandler.executeLocalActivityTask errs now ExecuteWithActualArgs wait task
    if receiverDone then (none, events, none) else (none, events, some result)

/-- Sample errors of the SDK. -/
def sampleErrors : localActivityErrors :=
  { ErrCanceled := .CanceledError [], ErrDeadlineExceeded := .other "deadline exceeded",
    unexpectedContextDone := .other "unexpected context done" }

/-- A sample user function: it returns its input. -/
def echoActivity : Time → List (List Nat) → Option (List (List Nat)) × Option GoError :=
  fun _ args => (some args, none)

/-- A local activity on its first attempt with a schedule-to-close timeout of 10 s and no
start-to-close timeout. -/
def sampleLocalActivity : localActivityTask :=
  { activityID := "1",
    params := { ActivityType := "act", InputArgs := [[1]], ScheduleToCloseTimeoutSeconds := 10,
                StartToCloseTimeoutSeconds := 0 },
    attempt := 0, expireTime := 0, canceled := false, cancelFunc := none }

/-- A local activity on its second attempt with timeouts of 10 s and 4 s that expires 2 s from
the instant 100 s. -/
def retriedLocalActivity : localActivityTask :=
  { activityID := "2",
    params := { ActivityType := "act", InputArgs := [[1]], ScheduleToCloseTimeoutSeconds := 10,
                StartToCloseTimeoutSeconds := 4 },
    attempt := 1, expireTime := 102000000000, canceled := false, cancelFunc := none }

/-- A local activity that was cancelled before its execution. -/
def canceledLocalActivity : localActivityTask :=
  { sampleLocalActivity with activityID := "3", canceled := true }

/-- A poll function that counts its invocations and brings nothing. -/
def countingPoll : Nat → (Option Nat × Option GoError) × Nat :=
  fun n => ((none, none), n + 1)

/-- A service call for activity tasks that brings the sample task. -/
def sampleActivityPoll :
    PollForActivityTaskRequest Int → Except GoError (Option PollForActivityTaskResponse) :=
  fun _ => .ok (some sampleActivityTask)

end Temporal

/-! ## Part VI — machine integers and floating point -/

namespace Temporal
open TaskListKind

/-- The least value of a Go `int` on a 64-bit platform (`math.MinInt64`). -/
def minInt : Int := -9223372036854775808

/-- The greatest value of a Go `int` on a 64-bit platform (`math.MaxInt64`). -/
def maxInt : Int := 9223372036854775807

/-- The value that Go's `int` arithmetic gives on a 64-bit platform for the exact result `x`:
the result wraps around modulo 2^64. -/
def wrapInt (x : Int) : Int :=
  (x + 9223372036854775808) % 18446744073709551616 - 9223372036854775808

/-- Embedding of `workflowTaskPoller.getNextPollRequest` (lines 615-640) with the two pending
counts as the Go `int`s they are: `pendingStickyPollCount++` and `pendingRegularPollCount++` wrap
around at the greatest `int`. `getNextPollRequest` is the same embedding without the wrap-around;
the two agree for counts below the greatest `int`. -/
def workflowTaskPoller.getNextPollRequestWrapping (getWorkerTaskList : String → String)
    (getBinaryChecksum : String) (wtp : workflowTaskPoller) :
    PollForDecisionTaskRequest × workflowTaskPoller :=
  let taskListName := wtp.taskListName
  let taskListKind := TASK_LIST_KIND_NORMAL
  let (taskListName, taskListKind, wtp') :=
    if ¬ wtp.disableStickyExecution then
      if wtp.stickyBacklog > 0 ∨ wtp.pendingStickyPollCount ≤ wtp.pendingRegularPollCount then
        (getWorkerTaskList wtp.stickyUUID, TASK_LIST_KIND_STICKY,
          { wtp with pendingStickyPollCount := wrapInt (wtp.pendingStickyPollCount + 1) })
      else
        (taskListName, taskListKind,
          { wtp with pendingRegularPollCount := wrapInt (wtp.pendingRegularPollCount + 1) })
    else (taskListName, taskListKind, wtp)
  let taskList : TaskList := { Name := taskListName, Kind := taskListKind }
  ({ Namespace := wtp.ns, TaskList := taskList, Identity := wtp.identity,
     BinaryChecksum := getBinaryChecksum }, wtp')

/-- A poller with sticky execution on, a backlog of one, and the greatest `int` of sticky polls
pending. -/
def pollerStickyAtMax : workflowTaskPoller :=
  { ns := "default", taskListName := "tl", identity := "worker-1", stickyUUID := "uuid-1",
    disableStickyExecution := false, pendingRegularPollCount := 0,
    pendingStickyPollCount := 9223372036854775807, stickyBacklog := 1 }

/-- A poller with sticky execution on, no backlog, and the greatest `int` of sticky and of
regular polls pending. -/
def pollerTieAtMax : workflowTaskPoller :=
  { ns := "default", taskListName := "tl", identity := "worker-1", stickyUUID := "uuid-1",
    disableStickyExecution := false, pendingRegularPollCount := 9223372036854775807,
    pendingStickyPollCount := 9223372036854775807, stickyBacklog := 0 }

/-- The helper after `requestCancelExternalWorkflowExecution` for an external workflow with an
empty cancellation id, on a fresh helper. -/
def emptyIdCancellationHelper : decisionsHelper :=
  { orderedDecisions :=
      [{ id := makeDecisionID decisionType.decisionTypeCancellation "",
         state := decisionState.decisionStateCreated,
         data := .cancelExternalWorkflow
           { Namespace := "ns", WorkflowId := "wf-1", RunId := "run-1", Control := "",
             ChildWorkflowOnly := false },
         seq := 0 }],
    nextSeq := 1, scheduledEventIDToCancellationID := [] }

/-- Rounding of a rational number to a whole number: to the nearest one, and to the even one of
the two at a tie (IEEE 754 `roundTiesToEven`, the rounding of Go's `float64` arithmetic). -/
def roundHalfEven (y : ℚ) : Int :=
  if y - ⌊y⌋ < 1 / 2 then ⌊y⌋
  else if 1 / 2 < y - ⌊y⌋ then ⌊y⌋ + 1
  else if ⌊y⌋ % 2 = 0 then ⌊y⌋ else ⌊y⌋ + 1

/-- The distance between neighbouring `float64` values at a non-zero `q`: a `float64` has a
significand of 53 binary digits. -/
def float64Ulp (q : ℚ) : ℚ := (2 : ℚ) ^ (Int.log 2 |q| - 52)

/-- The `float64` nearest to the number `q`, as the rational number it stands for. Finite
`float64` values are embedded as rational numbers; the numbers met here are far from the
greatest and the least positive `float64`, so the exponent is not bounded. -/
def float64Round (q : ℚ) : ℚ :=
  if q = 0 then 0 else roundHalfEven (q / float64Ulp q) * float64Ulp q

/-- Go's `time.Duration.Seconds`, for a duration `d` in nanoseconds:
`sec := d / Second; nsec := d % Second; return float64(sec) + float64(nsec)/1e9`, each
conversion and operation rounded to a `float64`; the integer division truncates. -/
def Duration.Seconds (d : Int) : ℚ :=
  let sec := d.tdiv 1000000000
  let nsec := d.tmod 1000000000
  float64Round (float64Round sec + float64Round (float64Round nsec / 1000000000))

/-- Go's `math.Ceil` on a finite `float64`: the least whole number not below it. -/
def mathCeil (v : ℚ) : ℚ := ⌈v⌉

/-- Go's conversion of a `float64` to an integer type: the fraction is discarded. The value has
to be within the range of the target type; outside of it Go leaves the result to the
implementation, and the embedding does not say what it is. -/
def float64ToInt (v : ℚ) : Int := if 0 ≤ v then ⌊v⌋ else ⌈v⌉

/-- The operations on `float64` with their meaning in Go. -/
def goFloat64 : float64Ops ℚ :=
  { Seconds := Duration.Seconds, Ceil := mathCeil, toInt32 := float64ToInt,
    toInt64 := float64ToInt }

end Temporal

/-! ## Theorems: decision state machines -/

namespace Temporal
open decisionState decisionType DecisionType decisionsHelper

/-- An entry found under an identity carries that identity. -/
theorem findDecision_id (h : decisionsHelper) (id : decisionID) (d : decisionStateMachine)
    (hfind : h.findDecision id = some d) : d.id = id := by
  have := List.find?_some hfind
  simpa using this

/-- Routing to an unregistered identity panics. -/
theorem route_unknown (h : decisionsHelper) (id : decisionID)
    (event : decisionStateMachine → Except PanicError decisionStateMachine)
    (hfind : h.findDecision id = none) :
    h.route id event = .error ("unknown decision " ++ id.id) := by
  simp [route, hfind]

/-- Routing an event that the entry rejects panics with the entry's message. -/
theorem route_rejected (h : decisionsHelper) (id : decisionID)
    (event : decisionStateMachine → Except PanicError decisionStateMachine)
    (d : decisionStateMachine) (p : PanicError)
    (hfind : h.findDecision id = some d) (hev : event d = .error p) :
    h.route id event = .error p := by
  simp [route, hfind, hev]

/-- Routing an event that the entry accepts: the entry is replaced by its successor, at the back
of the queue, and is found again under its identity. -/
theorem route_accepted (h : decisionsHelper) (id : decisionID)
    (event : decisionStateMachine → Except PanicError decisionStateMachine)
    (d d' : decisionStateMachine)
    (hfind : h.findDecision id = some d) (hev : event d = .ok d') (hid : d'.id = id) :
    h.route id event
        = .ok { h with orderedDecisions := h.orderedDecisions.filter (fun e => e.id ≠ id) ++ [d'] } ∧
    decisionsHelper.findDecision
        { h with orderedDecisions := h.orderedDecisions.filter (fun e => e.id ≠ id) ++ [d'] } id
      = some d' := by
  constructor
  · simp [route, hfind, hev]
  · have hnone : (h.orderedDecisions.filter (fun e => e.id ≠ id)).find? (fun d => d.id = id)
        = none := by
      rw [List.find?_eq_none]
      intro x hx
      have := (List.mem_filter.mp hx).2
      simpa using this
    simp [findDecision, List.find?_append, hnone, hid]

/-- No handler changes the identity or the payload of an entry. -/
theorem handleDecisionSent_id_data (d : decisionStateMachine) :
    d.handleDecisionSent.id = d.id ∧ d.handleDecisionSent.data = d.data := by
  unfold decisionStateMachine.handleDecisionSent
  split <;> simp [decisionStateMachine.moveState]

/-- After a drain with `markAsSent` an entry is found under the identity it had, having received
`emit`. -/
theorem findDecision_getDecisions (h : decisionsHelper) (id : decisionID) :
    (h.getDecisions true).2.findDecision id
      = (h.findDecision id).map decisionStateMachine.handleDecisionSent := by
  simp only [getDecisions, findDecision, if_true]
  induction h.orderedDecisions with
  | nil => rfl
  | cons a l ih =>
    simp only [List.map_cons, List.find?_cons, (handleDecisionSent_id_data a).1]
    by_cases ha : a.id = id
    · simp [ha]
    · simp [ha, ih]

/-- The commands of a drain, split around an entry of the queue. -/
theorem getDecisions_split (h : decisionsHelper) (id : decisionID) (d : decisionStateMachine)
    (markAsSent : Bool) (hfind : h.findDecision id = some d) :
    ∃ pre post, h.orderedDecisions = pre ++ d :: post ∧
      (h.getDecisions markAsSent).1
        = pre.filterMap decisionStateMachine.getDecision ++ d.getDecision.toList ++
          post.filterMap decisionStateMachine.getDecision := by
  obtain ⟨_, pre, post, hsplit, _⟩ := List.find?_eq_some.mp hfind
  refine ⟨pre, post, hsplit, ?_⟩
  simp only [getDecisions, hsplit, List.filterMap_append, List.filterMap_cons]
  cases d.getDecision <;> simp

/-- An entry whose state is no legal source state of a verb rejects the verb. -/
theorem illegal_source_rejected (d : decisionStateMachine) (v : eventVerb)
    (hill : d.state ∉ legalSources d.data.decisionType v) :
    ∃ p, d.on v = .error p := by
  obtain ⟨i, st, data, sq⟩ := d
  cases v <;> cases data <;> cases st <;>
    simp [legalSources, decisionData.decisionType] at hill <;>
    exact ⟨_, rfl⟩

/-- C3. Every `handleXxx` call of the decisions helper raises a panic, and so produces no changed
helper, when the identity the event is for has no registered entry, or when the entry registered
for it is in a state that is no legal source state (§4.1) of the verb the event is routed as. -/
theorem handle_illegal_panics (h : decisionsHelper) (ev : serverEvent)
    (hbad : h.findDecision (ev.target h) = none ∨
      ∃ d, h.findDecision (ev.target h) = some d ∧
        d.state ∉ legalSources d.data.decisionType ev.verb) :
    ∃ p, h.handle ev = .error p := by
  have key : ∀ (id : decisionID) (v : eventVerb) (h' : decisionsHelper),
      h'.orderedDecisions = h.orderedDecisions →
      (h.findDecision id = none ∨
        ∃ d, h.findDecision id = some d ∧ d.state ∉ legalSources d.data.decisionType v) →
      ∃ p, h'.route id (fun d => d.on v) = .error p := by
    intro id v h' hh' hb
    have hf : ∀ x, h'.findDecision x = h.findDecision x := by
      intro x; simp [findDecision, hh']
    rcases hb with hnone | ⟨d, hsome, hill⟩
    · exact ⟨_, route_unknown h' id _ (by rw [hf]; exact hnone)⟩
    · obtain ⟨p, hp⟩ := illegal_source_rejected d v hill
      exact ⟨p, route_rejected h' id _ d p (by rw [hf]; exact hsome) hp⟩
  cases ev with
  | timerStarted t => exact key _ _ h rfl hbad
  | timerClosed t => exact key _ _ h rfl hbad
  | timerCanceled t => exact key _ _ h rfl hbad
  | cancelTimerFailed t => exact key _ _ h rfl hbad
  | activityTaskScheduled s a => exact key _ _ h rfl hbad
  | activityTaskClosed a => exact key _ _ h rfl hbad
  | activityTaskCanceled a => exact key _ _ h rfl hbad
  | startChildWorkflowExecutionInitiated w => exact key _ _ h rfl hbad
  | startChildWorkflowExecutionFailed w => exact key _ _ h rfl hbad
  | childWorkflowExecutionStarted w => exact key _ _ h rfl hbad
  | childWorkflowExecutionClosed w => exact key _ _ h rfl hbad
  | childWorkflowExecutionCanceled w => exact key _ _ h rfl hbad
  | requestCancelExternalWorkflowExecutionInitiated i w c =>
    by_cases hc : c = ""
    · simp only [serverEvent.target, serverEvent.verb, hc, if_true] at hbad
      simp only [handle, handleRequestCancelExternalWorkflowExecutionInitiated, hc, if_true]
      exact key _ _ h rfl hbad
    · simp only [serverEvent.target, serverEvent.verb, hc, if_false] at hbad
      simp only [handle, handleRequestCancelExternalWorkflowExecutionInitiated, hc, if_false]
      exact key _ _ ⟨h.orderedDecisions, h.nextSeq,
        (i, c) :: h.scheduledEventIDToCancellationID.filter (fun p => p.1 ≠ i)⟩ rfl hbad
  | externalWorkflowExecutionCancelRequested i w =>
    simp only [serverEvent.target, serverEvent.verb] at hbad
    simp only [handle, handleExternalWorkflowExecutionCancelRequested]
    cases hl : h.scheduledEventIDToCancellationID.lookup i with
    | none => rw [hl] at hbad; exact key _ _ h rfl hbad
    | some c => rw [hl] at hbad; exact key _ _ h rfl hbad
  | requestCancelExternalWorkflowExecutionFailed i w =>
    simp only [serverEvent.target, serverEvent.verb] at hbad
    simp only [handle, handleRequestCancelExternalWorkflowExecutionFailed]
    cases hl : h.scheduledEventIDToCancellationID.lookup i with
    | none => rw [hl] at hbad; exact key _ _ h rfl hbad
    | some c => rw [hl] at hbad; exact key _ _ h rfl hbad

end Temporal

namespace Temporal
open decisionState decisionType DecisionType decisionsHelper

/-- Witness of C3: the five calls the claim names. A timer that is Completed rejects
`handleCancelTimerFailed`, an activity that is Initiated rejects `handleActivityTaskCanceled`,
`handleActivityTaskClosed` for an unknown activity id panics, a child workflow in DecisionSent
rejects `handleChildWorkflowExecutionClosed`, and one in
CompletedAfterCancellationDecisionSent rejects `handleChildWorkflowExecutionCanceled`. -/
theorem handle_illegal_panics_witness :
    (∃ p, (timerHelper decisionStateCompleted).handle (.cancelTimerFailed "test-timer-1")
        = .error p) ∧
    (∃ p, (activityHelper decisionStateInitiated).handle (.activityTaskCanceled "test-activity-1")
        = .error p) ∧
    (∃ p, (activityHelper decisionStateCreated).handle (.activityTaskClosed "invalid-activity-id")
        = .error p) ∧
    (∃ p, (childHelper decisionStateDecisionSent).handle
        (.childWorkflowExecutionClosed "test-workflow-id") = .error p) ∧
    (∃ p, (childHelper decisionStateCompletedAfterCancellationDecisionSent).handle
        (.childWorkflowExecutionCanceled "test-workflow-id") = .error p) :=
  ⟨handle_illegal_panics (timerHelper decisionStateCompleted) (.cancelTimerFailed "test-timer-1")
      (Or.inr ⟨_, rfl, by decide⟩),
   handle_illegal_panics (activityHelper decisionStateInitiated)
      (.activityTaskCanceled "test-activity-1") (Or.inr ⟨_, rfl, by decide⟩),
   handle_illegal_panics (activityHelper decisionStateCreated)
      (.activityTaskClosed "invalid-activity-id") (Or.inl (by decide)),
   handle_illegal_panics (childHelper decisionStateDecisionSent)
      (.childWorkflowExecutionClosed "test-workflow-id") (Or.inr ⟨_, rfl, by decide⟩),
   handle_illegal_panics (childHelper decisionStateCompletedAfterCancellationDecisionSent)
      (.childWorkflowExecutionCanceled "test-workflow-id") (Or.inr ⟨_, rfl, by decide⟩)⟩

/-- The sample helpers are what the calls of the tests lead to: the timer of
`Test_TimerStateMachine_PanicInvalidStateTransition` is Completed after start, drain, started and
closed. -/
theorem timerHelper_completed_reached :
    ((newDecisionsHelper.startTimer testTimer).bind (fun h =>
      ((h.getDecisions true).2.handleTimerStarted "test-timer-1").bind (fun h =>
        h.handleTimerClosed "test-timer-1"))) = .ok (timerHelper decisionStateCompleted) := by
  rfl

end Temporal

namespace Temporal
open decisionState decisionType DecisionType decisionsHelper

/-- After `emit` no entry is in Created. -/
theorem handleDecisionSent_not_created (d : decisionStateMachine) :
    d.handleDecisionSent.state ≠ decisionStateCreated := by
  obtain ⟨i, st, data, sq⟩ := d
  cases data <;> cases st <;>
    simp [decisionStateMachine.handleDecisionSent, decisionStateMachine.moveState]

/-- An entry in Created has its start command to emit, and `emit` moves it to DecisionSent, or to
Completed when its kind is emit-only. -/
theorem created_entry_emits (d : decisionStateMachine)
    (hcreated : d.state = decisionStateCreated) :
    (∃ c, d.getDecision = some c ∧ c.DecisionType = startCommandType d.data.decisionType) ∧
    d.handleDecisionSent.state = stateAfterEmit d.data.decisionType := by
  obtain ⟨i, st, data, sq⟩ := d
  simp only at hcreated
  subst hcreated
  cases data <;>
    simp [decisionStateMachine.getDecision, decisionStateMachine.handleDecisionSent,
      decisionStateMachine.moveState, startCommandType, stateAfterEmit,
      decisionData.decisionType]

/-- C4. After `getDecisions(true)` no registered entry is in Created; and every entry that was in
Created contributed exactly one command, its start command (RECORD_MARKER for a marker,
UPSERT_WORKFLOW_SEARCH_ATTRIBUTES for search attributes), at its place in the queue, and is
now in DecisionSent, or in Completed when its kind is emit-only. -/
theorem getDecisions_leaves_no_created (h : decisionsHelper) (id : decisionID)
    (d : decisionStateMachine) (hfind : h.findDecision id = some d)
    (hcreated : d.state = decisionStateCreated) :
    (∀ x ∈ (h.getDecisions true).2.orderedDecisions, x.state ≠ decisionStateCreated) ∧
    (∃ c pre post,
      d.getDecision = some c ∧ c.DecisionType = startCommandType d.data.decisionType ∧
      h.orderedDecisions = pre ++ d :: post ∧
      (h.getDecisions true).1
        = pre.filterMap decisionStateMachine.getDecision ++ c ::
          post.filterMap decisionStateMachine.getDecision) ∧
    (∃ d', (h.getDecisions true).2.findDecision id = some d' ∧
      d'.state = stateAfterEmit d.data.decisionType) := by
  refine ⟨?_, ?_, ?_⟩
  · intro x hx
    simp only [getDecisions, if_true, List.mem_map] at hx
    obtain ⟨y, _, rfl⟩ := hx
    exact handleDecisionSent_not_created y
  · obtain ⟨⟨c, hc, hct⟩, _⟩ := created_entry_emits d hcreated
    obtain ⟨pre, post, hsplit, hcmds⟩ := getDecisions_split h id d true hfind
    refine ⟨c, pre, post, hc, hct, hsplit, ?_⟩
    rw [hcmds, hc]
    simp
  · refine ⟨d.handleDecisionSent, ?_, (created_entry_emits d hcreated).2⟩
    rw [findDecision_getDecisions, hfind]
    rfl

/-- Witness of C4 at `mixedHelper`, for its side-effect marker: the drain returns the three start
commands in queue order, the marker, the search attributes and the timer are Completed, Completed
and DecisionSent afterwards. -/
theorem getDecisions_leaves_no_created_witness :
    (∀ x ∈ (mixedHelper.getDecisions true).2.orderedDecisions, x.state ≠ decisionStateCreated) ∧
    (∃ c pre post,
      decisionStateMachine.getDecision
          ⟨makeDecisionID decisionTypeMarker "SideEffect_1", decisionStateCreated,
            .marker ⟨"SideEffect", []⟩, 1⟩ = some c ∧
      c.DecisionType = startCommandType decisionTypeMarker ∧
      mixedHelper.orderedDecisions
        = pre ++ ⟨makeDecisionID decisionTypeMarker "SideEffect_1", decisionStateCreated,
            .marker ⟨"SideEffect", []⟩, 1⟩ :: post ∧
      (mixedHelper.getDecisions true).1
        = pre.filterMap decisionStateMachine.getDecision ++ c ::
          post.filterMap decisionStateMachine.getDecision) ∧
    (∃ d', (mixedHelper.getDecisions true).2.findDecision
        (makeDecisionID decisionTypeMarker "SideEffect_1") = some d' ∧
      d'.state = stateAfterEmit decisionTypeMarker) :=
  getDecisions_leaves_no_created mixedHelper (makeDecisionID decisionTypeMarker "SideEffect_1")
    ⟨makeDecisionID decisionTypeMarker "SideEffect_1", decisionStateCreated,
      .marker ⟨"SideEffect", []⟩, 1⟩ (by decide) rfl

/-- The drain of `mixedHelper`, evaluated: three commands, and the states afterwards. -/
theorem mixedHelper_drain :
    (mixedHelper.getDecisions true).1.map (fun c => c.DecisionType)
      = [DECISION_TYPE_RECORD_MARKER, DECISION_TYPE_UPSERT_WORKFLOW_SEARCH_ATTRIBUTES,
         DECISION_TYPE_START_TIMER] ∧
    (mixedHelper.getDecisions true).2.orderedDecisions.map (fun d => d.state)
      = [decisionStateDecisionSent, decisionStateCompleted, decisionStateCompleted,
         decisionStateDecisionSent] := by
  decide

/-- Creating an entry under an unregistered identity and cancelling it right away: both calls
succeed, the entry is Completed, and the queue is the old queue followed by the entry. -/
theorem create_then_cancel (h : decisionsHelper) (id : decisionID) (data : decisionData)
    (hkind : data.decisionType = decisionTypeTimer ∨ data.decisionType = decisionTypeActivity)
    (hfresh : h.findDecision id = none) :
    ∃ h1 h2, h.addDecision id data = .ok h1 ∧
      h1.route id decisionStateMachine.cancel = .ok h2 ∧
      h2.getState id = some decisionStateCompleted ∧
      (h2.getDecisions true).1 = (h.getDecisions true).1 := by
  have hfilter : h.orderedDecisions.filter (fun e => e.id ≠ id) = h.orderedDecisions := by
    rw [List.filter_eq_self]
    intro a ha
    have := List.find?_eq_none.mp hfresh a ha
    simpa using this
  have hcancel : decisionStateMachine.cancel ⟨id, decisionStateCreated, data, h.nextSeq⟩
      = .ok ⟨id, decisionStateCompleted, data, h.nextSeq⟩ := by
    cases data <;> simp [decisionData.decisionType] at hkind <;> rfl
  have hfind1 : decisionsHelper.findDecision
      { h with orderedDecisions := h.orderedDecisions ++ [⟨id, decisionStateCreated, data, h.nextSeq⟩],
               nextSeq := h.nextSeq + 1 } id
      = some ⟨id, decisionStateCreated, data, h.nextSeq⟩ := by
    have hnone : h.orderedDecisions.find? (fun d => d.id = id) = none := hfresh
    simp [findDecision, List.find?_append, hnone]
  obtain ⟨hroute, hfind2⟩ := route_accepted _ id decisionStateMachine.cancel _ _ hfind1 hcancel rfl
  refine ⟨_, _, ?_, hroute, ?_, ?_⟩
  · simp [addDecision, hfresh]
  · simp only [getState, hfind2]
    rfl
  · have hnocmd : decisionStateMachine.getDecision ⟨id, decisionStateCompleted, data, h.nextSeq⟩
        = none := by
      cases data <;> rfl
    show List.filterMap decisionStateMachine.getDecision
        (List.filter (fun e => e.id ≠ id)
          (h.orderedDecisions ++ [⟨id, decisionStateCreated, data, h.nextSeq⟩]) ++
          [⟨id, decisionStateCompleted, data, h.nextSeq⟩])
      = List.filterMap decisionStateMachine.getDecision h.orderedDecisions
    rw [List.filter_append, hfilter]
    simp [hnocmd]

/-- C2. Creating a timer (`startTimer`) or an activity (`scheduleActivityTask`) under an id that
is not registered and cancelling it (`cancelTimer`, `requestCancelActivityTask`) before any drain
succeeds and puts the entry in Completed; the following `getDecisions(true)` returns exactly the
commands the helper had to emit before the entry was created, so the entry contributes none; on
a fresh helper it returns zero commands. -/
theorem cancel_before_sent_emits_nothing (h : decisionsHelper)
    (timer : StartTimerDecisionAttributes) (scheduleID : Int)
    (activity : ScheduleActivityTaskDecisionAttributes)
    (htimer : h.findDecision (makeDecisionID decisionTypeTimer timer.TimerId) = none)
    (hactivity : h.findDecision (makeDecisionID decisionTypeActivity activity.ActivityId) = none) :
    (∃ h1 h2, h.startTimer timer = .ok h1 ∧ h1.cancelTimer timer.TimerId = .ok h2 ∧
      h2.getState (makeDecisionID decisionTypeTimer timer.TimerId) = some decisionStateCompleted ∧
      (h2.getDecisions true).1 = (h.getDecisions true).1) ∧
    (∃ h1 h2, h.scheduleActivityTask scheduleID activity = .ok h1 ∧
      h1.requestCancelActivityTask activity.ActivityId = .ok h2 ∧
      h2.getState (makeDecisionID decisionTypeActivity activity.ActivityId)
        = some decisionStateCompleted ∧
      (h2.getDecisions true).1 = (h.getDecisions true).1) ∧
    (∃ h1 h2, newDecisionsHelper.startTimer timer = .ok h1 ∧
      h1.cancelTimer timer.TimerId = .ok h2 ∧
      h2.getState (makeDecisionID decisionTypeTimer timer.TimerId) = some decisionStateCompleted ∧
      (h2.getDecisions true).1 = []) ∧
    (∃ h1 h2, newDecisionsHelper.scheduleActivityTask scheduleID activity = .ok h1 ∧
      h1.requestCancelActivityTask activity.ActivityId = .ok h2 ∧
      h2.getState (makeDecisionID decisionTypeActivity activity.ActivityId)
        = some decisionStateCompleted ∧
      (h2.getDecisions true).1 = []) :=
  ⟨create_then_cancel h _ (.timer timer) (Or.inl rfl) htimer,
   create_then_cancel h _ (.activity scheduleID activity) (Or.inr rfl) hactivity,
   create_then_cancel newDecisionsHelper _ (.timer timer) (Or.inl rfl) rfl,
   create_then_cancel newDecisionsHelper _ (.activity scheduleID activity) (Or.inr rfl) rfl⟩

/-- Witness of C2 on the helper of the tests, which is fresh: the test timer and the test activity
are Completed after create and cancel, and the drain returns no command
(`Test_TimerStateMachine_CancelBeforeSent`, `Test_ActivityStateMachine_CancelBeforeSent`). -/
theorem cancel_before_sent_emits_nothing_witness :
    (∃ h1 h2, newDecisionsHelper.startTimer testTimer = .ok h1 ∧
      h1.cancelTimer "test-timer-1" = .ok h2 ∧
      h2.getState (makeDecisionID decisionTypeTimer "test-timer-1")
        = some decisionStateCompleted ∧
      (h2.getDecisions true).1 = []) ∧
    (∃ h1 h2, newDecisionsHelper.scheduleActivityTask 5 testActivity = .ok h1 ∧
      h1.requestCancelActivityTask "test-activity-1" = .ok h2 ∧
      h2.getState (makeDecisionID decisionTypeActivity "test-activity-1")
        = some decisionStateCompleted ∧
      (h2.getDecisions true).1 = []) :=
  (cancel_before_sent_emits_nothing newDecisionsHelper testTimer 5 testActivity rfl rfl).2.2

end Temporal

namespace Temporal
open decisionState decisionType DecisionType decisionsHelper

/-- A row of the shared table determines the table's step. -/
theorem tableStep_of_mem (s s' : decisionState) (e : sharedEvent)
    (hrow : (s, e, s') ∈ sharedTransitions) : tableStep s e = some s' := by
  simp only [sharedTransitions, List.mem_cons, Prod.mk.injEq, List.mem_singleton,
    List.not_mem_nil, or_false] at hrow
  rcases hrow with h | h | h | h | h | h | h | h | h | h <;>
    obtain ⟨rfl, rfl, rfl⟩ := h <;> rfl

/-- A timer or activity entry takes every legal step of the shared table: the handler accepts the
verb and the entry is then in the state the table lists, payload and identity unchanged. -/
theorem onShared_follows_table (d : decisionStateMachine) (e : sharedEvent) (s' : decisionState)
    (hkind : d.data.decisionType = decisionTypeTimer ∨
      d.data.decisionType = decisionTypeActivity)
    (hstep : tableStep d.state e = some s') :
    ∃ d', d.onShared e = .ok d' ∧ d'.state = s' ∧ d'.data = d.data ∧ d'.id = d.id := by
  obtain ⟨i, st, data, sq⟩ := d
  cases data <;> simp [decisionData.decisionType] at hkind <;>
    cases e <;> cases st <;>
      simp [tableStep, sharedTransitions] at hstep <;>
      subst hstep <;>
      exact ⟨_, rfl, rfl, rfl, rfl⟩

/-- What `deliver` does to the entry it is for: the entry receives the verb through its handler
and is found again under its identity. -/
theorem deliver_onShared (k : decisionType) (id : String) (scheduledEventID : Int)
    (e : sharedEvent) (h : decisionsHelper) (d d' : decisionStateMachine)
    (hk : k = decisionTypeTimer ∨ k = decisionTypeActivity)
    (hfind : h.findDecision (makeDecisionID k id) = some d)
    (hev : d.onShared e = .ok d') (hid : d'.id = d.id) :
    ∃ h', deliver k id scheduledEventID e h = .ok h' ∧
      h'.findDecision (makeDecisionID k id) = some d' := by
  have hdid := findDecision_id h _ d hfind
  have hemit : d.onShared .emit = .ok d' →
      (h.getDecisions true).2.findDecision (makeDecisionID k id) = some d' := by
    intro he
    rw [findDecision_getDecisions, hfind]
    simp only [decisionStateMachine.onShared, Except.ok.injEq] at he
    simp [he]
  rcases hk with rfl | rfl <;> cases e
  all_goals first
    | exact ⟨_, rfl, hemit hev⟩
    | exact ⟨_, route_accepted h _ _ d d' hfind hev (hid.trans hdid)⟩

/-- Running legal verbs: invariant form of the second part of C1. -/
theorem deliverAll_follows_table (k : decisionType) (id : String) (scheduledEventID : Int)
    (hk : k = decisionTypeTimer ∨ k = decisionTypeActivity) (es : List sharedEvent) :
    ∀ (h : decisionsHelper) (d : decisionStateMachine) (s' : decisionState),
      h.findDecision (makeDecisionID k id) = some d → d.data.decisionType = k →
      tableRun d.state es = some s' →
      ∃ h', deliverAll k id scheduledEventID es h = .ok h' ∧
        h'.getState (makeDecisionID k id) = some s' := by
  induction es with
  | nil =>
    intro h d s' hfind _ hrun
    simp only [tableRun, Option.some.injEq] at hrun
    exact ⟨h, rfl, by simp [getState, hfind, decisionStateMachine.getState, hrun]⟩
  | cons e es ih =>
    intro h d s' hfind hdata hrun
    simp only [tableRun] at hrun
    cases hstep : tableStep d.state e with
    | none => simp [hstep] at hrun
    | some s1 =>
      simp only [hstep, Option.some_bind] at hrun
      obtain ⟨d1, hev, hs1, hd1, hid1⟩ :=
        onShared_follows_table d e s1 (by rw [hdata]; exact hk) hstep
      obtain ⟨h1, hdel, hfind1⟩ := deliver_onShared k id scheduledEventID e h d d1 hk hfind hev hid1
      obtain ⟨h2, hall, hstate⟩ := ih h1 d1 s' hfind1 (by rw [hd1]; exact hdata) (by rw [hs1]; exact hrun)
      exact ⟨h2, by simp only [deliverAll, hdel, hall], hstate⟩

/-- A timer or activity entry in CanceledAfterInitiated has its cancellation command to emit. -/
theorem canceledAfterInitiated_emits (d : decisionStateMachine)
    (hkind : d.data.decisionType = decisionTypeTimer ∨
      d.data.decisionType = decisionTypeActivity)
    (hstate : d.state = decisionStateCanceledAfterInitiated) :
    ∃ c, d.getDecision = some c ∧ c.DecisionType = cancelCommandType d.data.decisionType := by
  obtain ⟨i, st, data, sq⟩ := d
  simp only at hstate
  subst hstate
  cases data <;> simp [decisionData.decisionType] at hkind <;> exact ⟨_, rfl, rfl⟩

/-- C1. For every timer or activity entry registered in a decisions helper: each verb of the
shared transition table of §4.1, delivered by the helper while the entry is in the listed source
state, is accepted and leaves the entry in the listed target state; hence after any sequence of
verbs that the table allows `getState` is the state the table computes; and the drain in
CanceledAfterInitiated emits, at the entry's place in the queue, exactly one command for it, of
kind CANCEL_TIMER for a timer and REQUEST_CANCEL_ACTIVITY_TASK for an activity. -/
theorem shared_table_timer_activity (k : decisionType) (id : String) (scheduledEventID : Int)
    (h : decisionsHelper) (d : decisionStateMachine)
    (hk : k = decisionTypeTimer ∨ k = decisionTypeActivity)
    (hfind : h.findDecision (makeDecisionID k id) = some d)
    (hdata : d.data.decisionType = k) :
    (∀ s e s', (s, e, s') ∈ sharedTransitions → d.state = s →
      ∃ h', deliver k id scheduledEventID e h = .ok h' ∧
        h'.getState (makeDecisionID k id) = some s') ∧
    (∀ es s', tableRun d.state es = some s' →
      ∃ h', deliverAll k id scheduledEventID es h = .ok h' ∧
        h'.getState (makeDecisionID k id) = some s') ∧
    (d.state = decisionStateCanceledAfterInitiated →
      ∃ c pre post, d.getDecision = some c ∧ c.DecisionType = cancelCommandType k ∧
        h.orderedDecisions = pre ++ d :: post ∧
        (h.getDecisions true).1
          = pre.filterMap decisionStateMachine.getDecision ++ c ::
            post.filterMap decisionStateMachine.getDecision) := by
  refine ⟨?_, ?_, ?_⟩
  · intro s e s' hrow hs
    have hrun : tableRun d.state [e] = some s' := by
      simp [tableRun, hs, tableStep_of_mem s s' e hrow]
    obtain ⟨h', hall, hstate⟩ :=
      deliverAll_follows_table k id scheduledEventID hk [e] h d s' hfind hdata hrun
    refine ⟨h', ?_, hstate⟩
    simp only [deliverAll] at hall
    cases hdel : deliver k id scheduledEventID e h with
    | error p => simp [hdel] at hall
    | ok h1 => simpa [hdel] using hall
  · intro es s' hrun
    exact deliverAll_follows_table k id scheduledEventID hk es h d s' hfind hdata hrun
  · intro hstate
    obtain ⟨c, hc, hct⟩ := canceledAfterInitiated_emits d (by rw [hdata]; exact hk) hstate
    obtain ⟨pre, post, hsplit, hcmds⟩ := getDecisions_split h _ d true hfind
    refine ⟨c, pre, post, hc, by rw [← hdata]; exact hct, hsplit, ?_⟩
    rw [hcmds, hc]
    simp

/-- Witness of C1 on the helper of `Test_TimerStateMachine_CancelAfterInitiated`, a fresh helper
with the test timer just started: emit, initiated, cancel, emit-cancel, canceled lead the timer to
Completed, as the table computes. -/
theorem shared_table_timer_activity_witness :
    tableRun decisionStateCreated [.emit, .initiated, .cancel, .emitCancel, .canceled]
      = some decisionStateCompleted ∧
    ∃ h', deliverAll decisionTypeTimer "test-timer-1" 0
        [.emit, .initiated, .cancel, .emitCancel, .canceled] (timerHelper decisionStateCreated)
        = .ok h' ∧
      h'.getState (makeDecisionID decisionTypeTimer "test-timer-1")
        = some decisionStateCompleted :=
  ⟨by decide,
   (shared_table_timer_activity decisionTypeTimer "test-timer-1" 0
      (timerHelper decisionStateCreated)
      ⟨makeDecisionID decisionTypeTimer "test-timer-1", decisionStateCreated, .timer testTimer, 0⟩
      (Or.inl rfl) (by decide) rfl).2.1
      [.emit, .initiated, .cancel, .emitCancel, .canceled] decisionStateCompleted (by decide)⟩

/-- The runs of the timer and activity tests, evaluated on the helper: after start, drain,
initiated, cancel the drain returns the one cancellation command, and the entry ends Completed
after `canceled` or CompletedAfterCancellationDecisionSent after `closed`. -/
theorem test_runs_evaluated :
    newDecisionsHelper.startTimer testTimer = .ok (timerHelper decisionStateCreated) ∧
    ((timerHelper decisionStateCanceledAfterInitiated).getDecisions true).1
      = [⟨DECISION_TYPE_CANCEL_TIMER, .cancelTimer "test-timer-1"⟩] ∧
    ((activityHelper decisionStateCanceledAfterInitiated).getDecisions true).1
      = [⟨DECISION_TYPE_REQUEST_CANCEL_ACTIVITY_TASK,
          .requestCancelActivityTask "test-activity-1"⟩] ∧
    deliverAll decisionTypeActivity "test-activity-1" 5
        [.emit, .cancel, .initiated, .emitCancel, .closed] (activityHelper decisionStateCreated)
      = .ok (activityHelper decisionStateCompletedAfterCancellationDecisionSent) := by
  refine ⟨rfl, rfl, rfl, rfl⟩

end Temporal

/-! ## Theorems: poll selection -/

namespace Temporal
open TaskListKind workflowTaskPoller

/-- C5. With sticky execution disabled, `getNextPollRequest` returns a request for the NORMAL task
list named `taskListName`, and the poller is left exactly as it was: neither pending count nor
the sticky backlog changes. -/
theorem getNextPollRequest_sticky_disabled (getWorkerTaskList : String → String)
    (getBinaryChecksum : String) (wtp : workflowTaskPoller)
    (hdis : wtp.disableStickyExecution = true) :
    (getNextPollRequest getWorkerTaskList getBinaryChecksum wtp).1.TaskList
        = { Name := wtp.taskListName, Kind := TASK_LIST_KIND_NORMAL } ∧
    (getNextPollRequest getWorkerTaskList getBinaryChecksum wtp).2.pendingStickyPollCount
        = wtp.pendingStickyPollCount ∧
    (getNextPollRequest getWorkerTaskList getBinaryChecksum wtp).2.pendingRegularPollCount
        = wtp.pendingRegularPollCount ∧
    (getNextPollRequest getWorkerTaskList getBinaryChecksum wtp).2.stickyBacklog
        = wtp.stickyBacklog ∧
    (getNextPollRequest getWorkerTaskList getBinaryChecksum wtp).2 = wtp := by
  simp [getNextPollRequest, hdis]

/-- The wrap-around leaves every `int` as it is. -/
theorem wrapInt_of_int (x : Int) (hlo : minInt ≤ x) (hhi : x ≤ maxInt) : wrapInt x = x := by
  unfold wrapInt
  unfold minInt at hlo
  unfold maxInt at hhi
  omega

/-- One more than the greatest `int` wraps around to the least `int`. -/
theorem wrapInt_maxInt_succ : wrapInt (maxInt + 1) = minInt := by
  decide

/-- For counts that are `int`s below the greatest `int`, `getNextPollRequestWrapping` and
`getNextPollRequest` are the same. -/
theorem getNextPollRequestWrapping_eq (getWorkerTaskList : String → String)
    (getBinaryChecksum : String) (wtp : workflowTaskPoller)
    (hsticky : minInt ≤ wtp.pendingStickyPollCount ∧ wtp.pendingStickyPollCount < maxInt)
    (hregular : minInt ≤ wtp.pendingRegularPollCount ∧ wtp.pendingRegularPollCount < maxInt) :
    getNextPollRequestWrapping getWorkerTaskList getBinaryChecksum wtp
      = getNextPollRequest getWorkerTaskList getBinaryChecksum wtp := by
  have h1 : wrapInt (wtp.pendingStickyPollCount + 1) = wtp.pendingStickyPollCount + 1 :=
    wrapInt_of_int _ (by omega) (by omega)
  have h2 : wrapInt (wtp.pendingRegularPollCount + 1) = wtp.pendingRegularPollCount + 1 :=
    wrapInt_of_int _ (by omega) (by omega)
  simp only [getNextPollRequestWrapping, getNextPollRequest, h1, h2]

/-- Counterexample to C6 as stated. Sticky execution is enabled, the backlog is 1 and
`pendingStickyPollCount` is the greatest `int`. `getNextPollRequestWrapping` returns a sticky
request, and `pendingStickyPollCount` is the least `int` afterwards: it has not grown by one. -/
theorem sticky_count_wraps_at_maxInt :
    pollerStickyAtMax.disableStickyExecution = false ∧ pollerStickyAtMax.stickyBacklog = 1 ∧
    pollerStickyAtMax.pendingStickyPollCount = maxInt ∧
    (getNextPollRequestWrapping stickyName "sum" pollerStickyAtMax).1.TaskList
      = { Name := "host:uuid-1", Kind := TASK_LIST_KIND_STICKY } ∧
    (getNextPollRequestWrapping stickyName "sum" pollerStickyAtMax).2.pendingStickyPollCount
      = -9223372036854775808 ∧
    pollerStickyAtMax.pendingStickyPollCount + 1 = 9223372036854775808 := by
  decide

/-- C6, as amended. With sticky execution enabled and a positive sticky backlog, for all values
of the two pending counts `getNextPollRequestWrapping` returns a request for the STICKY task list
named `getWorkerTaskList stickyUUID` and leaves `pendingRegularPollCount` and the backlog
unchanged; and for every `pendingStickyPollCount` that is an `int` below the greatest `int` it
raises `pendingStickyPollCount` by exactly one. -/
theorem getNextPollRequest_sticky_backlog (getWorkerTaskList : String → String)
    (getBinaryChecksum : String) (wtp : workflowTaskPoller)
    (hen : wtp.disableStickyExecution = false) (hback : 0 < wtp.stickyBacklog) :
    (getNextPollRequestWrapping getWorkerTaskList getBinaryChecksum wtp).1.TaskList
        = { Name := getWorkerTaskList wtp.stickyUUID, Kind := TASK_LIST_KIND_STICKY } ∧
    (minInt ≤ wtp.pendingStickyPollCount → wtp.pendingStickyPollCount < maxInt →
      (getNextPollRequestWrapping getWorkerTaskList getBinaryChecksum
          wtp).2.pendingStickyPollCount = wtp.pendingStickyPollCount + 1) ∧
    (getNextPollRequestWrapping getWorkerTaskList getBinaryChecksum wtp).2.pendingRegularPollCount
        = wtp.pendingRegularPollCount ∧
    (getNextPollRequestWrapping getWorkerTaskList getBinaryChecksum wtp).2.stickyBacklog
        = wtp.stickyBacklog := by
  have hnew :
      (getNextPollRequestWrapping getWorkerTaskList getBinaryChecksum
          wtp).2.pendingStickyPollCount = wrapInt (wtp.pendingStickyPollCount + 1) := by
    simp [getNextPollRequestWrapping, hen, hback]
  refine ⟨?_, ?_, ?_, ?_⟩
  · simp [getNextPollRequestWrapping, hen, hback]
  · intro hlo hhi
    rw [hnew]
    exact wrapInt_of_int _ (by omega) (by omega)
  · simp [getNextPollRequestWrapping, hen, hback]
  · simp [getNextPollRequestWrapping, hen, hback]

/-- Counterexample to C7 as stated. Sticky execution is enabled, there is no backlog and both
pending counts are the greatest `int`, a tie. `getNextPollRequestWrapping` polls the sticky task
list, and `pendingStickyPollCount` is the least `int` afterwards: it has not been raised. -/
theorem tie_at_maxInt_wraps :
    pollerTieAtMax.disableStickyExecution = false ∧ pollerTieAtMax.stickyBacklog = 0 ∧
    pollerTieAtMax.pendingStickyPollCount = maxInt ∧
    pollerTieAtMax.pendingRegularPollCount = maxInt ∧
    (getNextPollRequestWrapping stickyName "sum" pollerTieAtMax).1.TaskList.Kind
      = TASK_LIST_KIND_STICKY ∧
    (getNextPollRequestWrapping stickyName "sum" pollerTieAtMax).2.pendingStickyPollCount
      = -9223372036854775808 ∧
    (getNextPollRequestWrapping stickyName "sum" pollerTieAtMax).2.pendingRegularPollCount
      = 9223372036854775807 := by
  decide

/-- C7, as amended. With sticky execution enabled and no sticky backlog,
`getNextPollRequestWrapping` polls the sticky task list exactly when
`pendingStickyPollCount ≤ pendingRegularPollCount` held before the call (so a tie goes to
sticky). A sticky poll leaves the regular count, and raises a sticky count that is an `int` below
the greatest `int` by exactly one. A normal poll is for `taskListName`, leaves the sticky count,
and raises the regular count by exactly one when both counts are `int`s. -/
theorem getNextPollRequest_no_backlog (getWorkerTaskList : String → String)
    (getBinaryChecksum : String) (wtp : workflowTaskPoller)
    (hen : wtp.disableStickyExecution = false) (hback : wtp.stickyBacklog = 0) :
    ((getNextPollRequestWrapping getWorkerTaskList getBinaryChecksum wtp).1.TaskList.Kind
        = TASK_LIST_KIND_STICKY ↔ wtp.pendingStickyPollCount ≤ wtp.pendingRegularPollCount) ∧
    (wtp.pendingStickyPollCount ≤ wtp.pendingRegularPollCount →
      (getNextPollRequestWrapping getWorkerTaskList getBinaryChecksum wtp).1.TaskList
          = { Name := getWorkerTaskList wtp.stickyUUID, Kind := TASK_LIST_KIND_STICKY } ∧
      (minInt ≤ wtp.pendingStickyPollCount → wtp.pendingStickyPollCount < maxInt →
        (getNextPollRequestWrapping getWorkerTaskList getBinaryChecksum
            wtp).2.pendingStickyPollCount = wtp.pendingStickyPollCount + 1) ∧
      (getNextPollRequestWrapping getWorkerTaskList getBinaryChecksum
          wtp).2.pendingRegularPollCount = wtp.pendingRegularPollCount) ∧
    (wtp.pendingRegularPollCount < wtp.pendingStickyPollCount →
      (getNextPollRequestWrapping getWorkerTaskList getBinaryChecksum wtp).1.TaskList
          = { Name := wtp.taskListName, Kind := TASK_LIST_KIND_NORMAL } ∧
      (minInt ≤ wtp.pendingRegularPollCount → wtp.pendingStickyPollCount ≤ maxInt →
        (getNextPollRequestWrapping getWorkerTaskList getBinaryChecksum
            wtp).2.pendingRegularPollCount = wtp.pendingRegularPollCount + 1) ∧
      (getNextPollRequestWrapping getWorkerTaskList getBinaryChecksum
          wtp).2.pendingStickyPollCount = wtp.pendingStickyPollCount) := by
  by_cases hle : wtp.pendingStickyPollCount ≤ wtp.pendingRegularPollCount
  · have hnlt : ¬ wtp.pendingRegularPollCount < wtp.pendingStickyPollCount := not_lt.mpr hle
    have hnew : (getNextPollRequestWrapping getWorkerTaskList getBinaryChecksum
        wtp).2.pendingStickyPollCount = wrapInt (wtp.pendingStickyPollCount + 1) := by
      simp [getNextPollRequestWrapping, hen, hback, hle]
    refine ⟨?_, fun _ => ⟨?_, ?_, ?_⟩, fun h => absurd h hnlt⟩
    · simp [getNextPollRequestWrapping, hen, hback, hle]
    · simp [getNextPollRequestWrapping, hen, hback, hle]
    · intro hlo hhi
      rw [hnew]
      exact wrapInt_of_int _ (by omega) (by omega)
    · simp [getNextPollRequestWrapping, hen, hback, hle]
  · have hlt : wtp.pendingRegularPollCount < wtp.pendingStickyPollCount := not_le.mp hle
    have hnew : (getNextPollRequestWrapping getWorkerTaskList getBinaryChecksum
        wtp).2.pendingRegularPollCount = wrapInt (wtp.pendingRegularPollCount + 1) := by
      simp [getNextPollRequestWrapping, hen, hback, hle]
    refine ⟨?_, fun h => absurd h hle, fun _ => ⟨?_, ?_, ?_⟩⟩
    · simp [getNextPollRequestWrapping, hen, hback, hle]
    · simp [getNextPollRequestWrapping, hen, hback, hle]
    · intro hlo hhi
      rw [hnew]
      exact wrapInt_of_int _ (by omega) (by omega)
    · simp [getNextPollRequestWrapping, hen, hback, hle]

/-- C8. For every poller state, `getNextPollRequest` followed by `release` of the kind that was
requested gives back the poller it started from, so both pending counts are restored; with
sticky execution disabled neither operation touches the poller at all; and neither
`getNextPollRequest` nor `release` (for any kind) changes `stickyBacklog`. -/
theorem getNextPollRequest_release_restores (getWorkerTaskList : String → String)
    (getBinaryChecksum : String) (wtp : workflowTaskPoller) :
    ((getNextPollRequest getWorkerTaskList getBinaryChecksum wtp).2.release
        (getNextPollRequest getWorkerTaskList getBinaryChecksum wtp).1.TaskList.Kind
      = wtp) ∧
    (wtp.disableStickyExecution = true →
      (getNextPollRequest getWorkerTaskList getBinaryChecksum wtp).2 = wtp ∧
      ∀ kind, wtp.release kind = wtp) ∧
    (getNextPollRequest getWorkerTaskList getBinaryChecksum wtp).2.stickyBacklog
        = wtp.stickyBacklog ∧
    (∀ kind, (wtp.release kind).stickyBacklog = wtp.stickyBacklog) := by
  refine ⟨?_, ?_, ?_, ?_⟩
  · obtain ⟨ns, tl, idn, uuid, dis, reg, st, back⟩ := wtp
    cases dis
    · by_cases hsel : back > 0 ∨ st ≤ reg
      · simp [getNextPollRequest, release, hsel]
      · simp [getNextPollRequest, release, hsel]
    · simp [getNextPollRequest, release]
  · intro hdis
    simp [getNextPollRequest, release, hdis]
  · cases hdis : wtp.disableStickyExecution
    · by_cases hsel :
          wtp.stickyBacklog > 0 ∨ wtp.pendingStickyPollCount ≤ wtp.pendingRegularPollCount
      · simp [getNextPollRequest, hdis, hsel]
      · simp [getNextPollRequest, hdis, hsel]
    · simp [getNextPollRequest, hdis]
  · intro kind
    unfold release
    split
    · rfl
    · split <;> rfl

/-- Witness of C5 at `pollerStickyDisabled`. -/
theorem getNextPollRequest_sticky_disabled_witness :
    (getNextPollRequest stickyName "sum" pollerStickyDisabled).1.TaskList
        = { Name := "tl", Kind := TASK_LIST_KIND_NORMAL } ∧
    (getNextPollRequest stickyName "sum" pollerStickyDisabled).2 = pollerStickyDisabled :=
  have h := getNextPollRequest_sticky_disabled stickyName "sum" pollerStickyDisabled rfl
  ⟨h.1, h.2.2.2.2⟩

/-- Witness of C6 as amended at `pollerStickyBacklog`: four sticky polls pending become five. -/
theorem getNextPollRequest_sticky_backlog_witness :
    (getNextPollRequestWrapping stickyName "sum" pollerStickyBacklog).1.TaskList
        = { Name := stickyName "uuid-1", Kind := TASK_LIST_KIND_STICKY } ∧
    (getNextPollRequestWrapping stickyName "sum" pollerStickyBacklog).2.pendingStickyPollCount
        = 4 + 1 ∧
    (getNextPollRequestWrapping stickyName "sum" pollerStickyBacklog).2.pendingRegularPollCount
        = 0 :=
  have h := getNextPollRequest_sticky_backlog stickyName "sum" pollerStickyBacklog rfl
    (by decide)
  ⟨h.1, h.2.1 (by decide) (by decide), h.2.2.1⟩

/-- Witness of C7 as amended at `pollerTie`: the tie is resolved in favour of the sticky task
list, and two sticky polls pending become three. -/
theorem getNextPollRequest_no_backlog_witness :
    (getNextPollRequestWrapping stickyName "sum" pollerTie).1.TaskList
        = { Name := stickyName "uuid-1", Kind := TASK_LIST_KIND_STICKY } ∧
    (getNextPollRequestWrapping stickyName "sum" pollerTie).2.pendingStickyPollCount = 2 + 1 :=
  have h := (getNextPollRequest_no_backlog stickyName "sum" pollerTie rfl rfl).2.1 (by decide)
  ⟨h.1, h.2.1 (by decide) (by decide)⟩

end Temporal

/-! ## Theorems: history paging -/

namespace Temporal
open EventType

/-- In a page with consecutive ids the event at index `i` has id `first + i`. -/
theorem consecutive_getElem? (e0 : HistoryEvent) (rest : List HistoryEvent)
    (hcons : consecutiveEventIds (e0 :: rest) = true) :
    ∀ (i : Nat) (e : HistoryEvent), (e0 :: rest)[i]? = some e → e.EventId = e0.EventId + i := by
  induction rest generalizing e0 with
  | nil =>
    intro i e hi
    cases i with
    | zero => simp at hi; simp [← hi]
    | succ n => simp at hi
  | cons e1 r ih =>
    intro i e hi
    cases i with
    | zero => simp at hi; simp [← hi]
    | succ n =>
      have hc : e1.EventId = e0.EventId + 1 ∧ consecutiveEventIds (e1 :: r) = true := by
        simpa [consecutiveEventIds] using hcons
      have hrec := ih e1 hc.2 n e (by simpa using hi)
      rw [hrec, hc.1]
      push_cast
      ring

/-- In a page with consecutive ids, keeping the events with id at most `m` is the same as keeping
the first `m - first + 1` events. -/
theorem consecutive_filter_eq_take (m : Int) (e0 : HistoryEvent) (rest : List HistoryEvent)
    (hcons : consecutiveEventIds (e0 :: rest) = true) :
    (e0 :: rest).filter (fun e => e.EventId ≤ m) = (e0 :: rest).take (m - e0.EventId + 1).toNat := by
  induction rest generalizing e0 with
  | nil =>
    by_cases h : e0.EventId ≤ m
    · have hk : (m - e0.EventId + 1).toNat = (m - e0.EventId).toNat + 1 := by omega
      simp [h, hk]
    · have hk : (m - e0.EventId + 1).toNat = 0 := by omega
      simp [h, hk]
  | cons e1 r ih =>
    have hc : e1.EventId = e0.EventId + 1 ∧ consecutiveEventIds (e1 :: r) = true := by
      simpa [consecutiveEventIds] using hcons
    have hrec := ih e1 hc.2
    by_cases h : e0.EventId ≤ m
    · have hk : (m - e0.EventId + 1).toNat = (m - e1.EventId + 1).toNat + 1 := by omega
      rw [hk, List.take_succ_cons, List.filter_cons_of_pos (by simpa using h), hrec]
    · have hk : (m - e0.EventId + 1).toNat = 0 := by omega
      have hk1 : (m - e1.EventId + 1).toNat = 0 := by omega
      rw [hk1] at hrec
      rw [hk, List.filter_cons_of_neg (by simpa using h), hrec]
      simp

/-- The truncation branch of the page function, computed: when the terminal event id `m` lies in a
fetched page with consecutive ids, strictly before the page's last id, the page function returns
the events with id at most `m` and no token if the event with id `m` is a DecisionTaskCompleted
event, and the malformed-stream error (without history and token) otherwise. -/
theorem newGetHistoryPageFunc_truncation
    (deserialize : List (List Nat) → Except String History)
    (service : GetWorkflowExecutionHistoryRequest → Except String GetWorkflowExecutionHistoryResponse)
    (ns : String) (execution : WorkflowExecution) (m : Int) (token : Option (List Nat))
    (resp : GetWorkflowExecutionHistoryResponse) (h : History) (first last e : HistoryEvent)
    (hsvc : service { Namespace := ns, Execution := execution, NextPageToken := token } = .ok resp)
    (hpage : fetchedPage deserialize resp h)
    (hcons : consecutiveEventIds h.Events = true)
    (hfirst : h.Events.head? = some first) (hlast : h.Events.getLast? = some last)
    (hm : 0 < m) (hfm : first.EventId ≤ m) (hml : m < last.EventId)
    (he : e ∈ h.Events) (hem : e.EventId = m) :
    newGetHistoryPageFunc deserialize service ns execution m token =
      if e.EventType ≠ EVENT_TYPE_DECISION_TASK_COMPLETED then
        .ok ⟨none, none, some (notDecisionTaskCompletedError m)⟩
      else .ok ⟨some ⟨h.Events.filter (fun x => x.EventId ≤ m)⟩, none, none⟩ := by
  obtain ⟨rest, hev⟩ := List.head?_eq_some_iff.mp hfirst
  have hidx := consecutive_getElem? first rest (hev ▸ hcons)
  rw [← hev] at hidx
  -- the last event
  have hlast' : h.Events[h.Events.length - 1]? = some last := by
    rw [← List.getLast?_eq_getElem?]; exact hlast
  have hlastid := hidx _ _ hlast'
  have hlen : 0 < h.Events.length := by rw [hev]; simp
  have hfirst' : h.Events[0]? = some first := by rw [hev]; simp
  -- the bound
  have hb1 : 1 ≤ m - first.EventId + 1 := by omega
  have hb2 : m - first.EventId + 1 < (h.Events.length : Int) := by omega
  have hbn : (m - first.EventId + 1).toNat < h.Events.length := by omega
  -- the event at the bound
  obtain ⟨j, hj⟩ := List.mem_iff_getElem?.mp he
  have hjid := hidx _ _ hj
  have hjeq : j = (m - first.EventId + 1).toNat - 1 := by omega
  have htl : (h.Events.take (m - first.EventId + 1).toNat).length
      = (m - first.EventId + 1).toNat := by
    rw [List.length_take]; omega
  have hlastTake : (h.Events.take (m - first.EventId + 1).toNat)[
      (h.Events.take (m - first.EventId + 1).toNat).length - 1]? = some e := by
    rw [htl, List.getElem?_take_of_lt (by omega), ← hjeq]; exact hj
  have hfilter : h.Events.filter (fun x => x.EventId ≤ m)
      = h.Events.take (m - first.EventId + 1).toNat := by
    rw [hev]; exact consecutive_filter_eq_take m first rest (hev ▸ hcons)
  have hguard : h.Events.length > 0 ∧ m > 0 ∧ GetEventId h.Events[h.Events.length - 1]? > m := by
    refine ⟨hlen, hm, ?_⟩
    rw [hlast']; simpa [GetEventId] using hml
  have hnb : ¬ (m - GetEventId h.Events[0]? + 1 < 0 ∨
      (h.Events.length : Int) < m - GetEventId h.Events[0]? + 1) := by
    rw [hfirst']; simp only [GetEventId]; omega
  have hdec : (match resp.RawHistory with
      | some raw =>
          match deserialize raw with
          | .error _ => (Except.error () : Except Unit (Option History))
          | .ok h => .ok (some h)
      | none => .ok resp.History) = .ok (some h) := by
    rcases hpage with ⟨hr, hh⟩ | ⟨raw, hr, hd⟩
    · rw [hr, hh]
    · rw [hr]; simp only [hd]
  unfold newGetHistoryPageFunc
  simp only [hsvc, hdec, hguard, hnb, and_self, if_true, if_false, ↓reduceIte]
  rw [hfirst']
  simp only [GetEventId]
  rw [hlastTake]
  simp only [hfilter, notDecisionTaskCompletedError]

/-- When the terminal event id is not exceeded by the page's last id (in particular when it is the
last id), the page function hands the page through whole, with the token the service sent. -/
theorem newGetHistoryPageFunc_passthrough
    (deserialize : List (List Nat) → Except String History)
    (service : GetWorkflowExecutionHistoryRequest → Except String GetWorkflowExecutionHistoryResponse)
    (ns : String) (execution : WorkflowExecution) (m : Int) (token : Option (List Nat))
    (resp : GetWorkflowExecutionHistoryResponse) (h : History) (last : HistoryEvent)
    (hsvc : service { Namespace := ns, Execution := execution, NextPageToken := token } = .ok resp)
    (hpage : fetchedPage deserialize resp h)
    (hlast : h.Events.getLast? = some last) (hml : last.EventId ≤ m) :
    newGetHistoryPageFunc deserialize service ns execution m token =
      .ok ⟨some h, resp.NextPageToken, none⟩ := by
  have hlast' : h.Events[h.Events.length - 1]? = some last := by
    rw [← List.getLast?_eq_getElem?]; exact hlast
  have hguard : ¬ (h.Events.length > 0 ∧ m > 0 ∧
      GetEventId h.Events[h.Events.length - 1]? > m) := by
    rw [hlast']; simp only [GetEventId]; omega
  have hdec : (match resp.RawHistory with
      | some raw =>
          match deserialize raw with
          | .error _ => (Except.error () : Except Unit (Option History))
          | .ok h => .ok (some h)
      | none => .ok resp.History) = .ok (some h) := by
    rcases hpage with ⟨hr, hh⟩ | ⟨raw, hr, hd⟩
    · rw [hr, hh]
    · rw [hr]; simp only [hd]
  unfold newGetHistoryPageFunc
  simp only [hsvc, hdec, hguard, if_false, ↓reduceIte]

end Temporal

namespace Temporal
open EventType historyIteratorImpl

/-- In a page with consecutive ids every id between the first and the last belongs to an event of
the page. -/
theorem consecutive_exists_event (h : History) (first last : HistoryEvent) (m : Int)
    (hcons : consecutiveEventIds h.Events = true)
    (hfirst : h.Events.head? = some first) (hlast : h.Events.getLast? = some last)
    (hfm : first.EventId ≤ m) (hml : m ≤ last.EventId) :
    ∃ e, e ∈ h.Events ∧ e.EventId = m := by
  obtain ⟨rest, hev⟩ := List.head?_eq_some_iff.mp hfirst
  have hidx := consecutive_getElem? first rest (hev ▸ hcons)
  rw [← hev] at hidx
  have hlast' : h.Events[h.Events.length - 1]? = some last := by
    rw [← List.getLast?_eq_getElem?]; exact hlast
  have hlastid := hidx _ _ hlast'
  have hlen : 0 < h.Events.length := by rw [hev]; simp
  have hj : (m - first.EventId).toNat < h.Events.length := by omega
  refine ⟨h.Events[(m - first.EventId).toNat], List.getElem_mem hj, ?_⟩
  have := hidx (m - first.EventId).toNat _ (List.getElem?_eq_getElem hj)
  omega

/-- `GetNextPage` on an iterator that has not built its page function yet, when the page function
returns a page without error: the page is returned and its token stored. -/
theorem GetNextPage_of_page
    (deserialize : List (List Nat) → Except String History)
    (service : GetWorkflowExecutionHistoryRequest → Except String GetWorkflowExecutionHistoryResponse)
    (ns : String) (execution : WorkflowExecution) (m : Int) (token : Option (List Nat))
    (history : Option History) (next : Option (List Nat))
    (hpage : newGetHistoryPageFunc deserialize service ns execution m token
      = .ok ⟨history, next, none⟩) :
    ∃ it, GetNextPage deserialize service ⟨none, execution, token, ns, m⟩
        = .ok ((history, none), it) ∧ it.HasNextPage = next.isSome := by
  refine ⟨{ iteratorFunc := some (newGetHistoryPageFunc deserialize service ns execution m),
            execution := execution, nextPageToken := next, ns := ns, maxEventID := m }, ?_, ?_⟩
  · simp only [GetNextPage, hpage]
  · rfl

/-- C9, as amended. For a fetched page with consecutive event ids that contains the terminal
event id `m > 0`: if `m` lies strictly before the page's last id and the event with id `m` is a
DecisionTaskCompleted event, the page function returns exactly the events with id at most `m`, in
order, and no next-page token, so that after `GetNextPage` the iterator's `HasNextPage` is false;
if `m` is the page's last id, the page is returned whole together with the next-page token of
the service, and `HasNextPage` after `GetNextPage` tells whether the service sent one. -/
theorem getHistoryPage_truncates_before_last
    (deserialize : List (List Nat) → Except String History)
    (service : GetWorkflowExecutionHistoryRequest → Except String GetWorkflowExecutionHistoryResponse)
    (ns : String) (execution : WorkflowExecution) (m : Int) (token : Option (List Nat))
    (resp : GetWorkflowExecutionHistoryResponse) (h : History) (first last : HistoryEvent)
    (hsvc : service { Namespace := ns, Execution := execution, NextPageToken := token } = .ok resp)
    (hpage : fetchedPage deserialize resp h)
    (hcons : consecutiveEventIds h.Events = true)
    (hfirst : h.Events.head? = some first) (hlast : h.Events.getLast? = some last)
    (hm : 0 < m) (hfm : first.EventId ≤ m) (hml : m ≤ last.EventId) :
    (m < last.EventId →
      (∀ e ∈ h.Events, e.EventId = m → e.EventType = EVENT_TYPE_DECISION_TASK_COMPLETED) →
      newGetHistoryPageFunc deserialize service ns execution m token
        = .ok ⟨some ⟨h.Events.filter (fun x => x.EventId ≤ m)⟩, none, none⟩ ∧
      ∃ it, GetNextPage deserialize service ⟨none, execution, token, ns, m⟩
          = .ok ((some ⟨h.Events.filter (fun x => x.EventId ≤ m)⟩, none), it) ∧
        it.HasNextPage = false) ∧
    (m = last.EventId →
      newGetHistoryPageFunc deserialize service ns execution m token
        = .ok ⟨some h, resp.NextPageToken, none⟩ ∧
      ∃ it, GetNextPage deserialize service ⟨none, execution, token, ns, m⟩
          = .ok ((some h, none), it) ∧
        it.HasNextPage = resp.NextPageToken.isSome) := by
  constructor
  · intro hlt hdtc
    obtain ⟨e, he, hem⟩ := consecutive_exists_event h first last m hcons hfirst hlast hfm hml
    have hres := newGetHistoryPageFunc_truncation deserialize service ns execution m token resp h
      first last e hsvc hpage hcons hfirst hlast hm hfm hlt he hem
    simp only [hdtc e he hem, ne_eq, not_true_eq_false, if_false] at hres
    exact ⟨hres, GetNextPage_of_page deserialize service ns execution m token _ _ hres⟩
  · intro heq
    have hres := newGetHistoryPageFunc_passthrough deserialize service ns execution m token resp h
      last hsvc hpage hlast (le_of_eq heq.symm)
    exact ⟨hres, GetNextPage_of_page deserialize service ns execution m token _ _ hres⟩

/-- Witness of C9 as amended, at `pageBeyondTerminal` (ids 5 to 8) with terminal event id 7: the
events 5, 6, 7 are returned without a token. -/
theorem getHistoryPage_truncates_before_last_witness :
    newGetHistoryPageFunc sampleDeserialize serviceBeyondTerminal "ns" sampleExecution 7 none
      = .ok ⟨some ⟨[⟨5, EVENT_TYPE_DECISION_TASK_SCHEDULED⟩, ⟨6, EVENT_TYPE_DECISION_TASK_STARTED⟩,
          ⟨7, EVENT_TYPE_DECISION_TASK_COMPLETED⟩]⟩, none, none⟩ :=
  ((getHistoryPage_truncates_before_last sampleDeserialize serviceBeyondTerminal "ns"
    sampleExecution 7 none
    { History := some pageBeyondTerminal, RawHistory := none, NextPageToken := some [7] }
    pageBeyondTerminal ⟨5, EVENT_TYPE_DECISION_TASK_SCHEDULED⟩ ⟨8, EVENT_TYPE_OTHER 10⟩
    rfl (Or.inl ⟨rfl, rfl⟩) (by decide) rfl rfl (by decide) (by decide) (by decide)).1
      (by decide) (by decide)).1

/-- Counterexample to C9 as stated. The page with ids 1, 2, 3 contains the terminal event id 3
(its last id) and event 3 is a DecisionTaskCompleted event, yet the page function returns the
service's token `[7]` along with the page, and `HasNextPage` is true after `GetNextPage`. -/
theorem getHistoryPage_terminal_last_keeps_token :
    consecutiveEventIds pageEndingCompleted.Events = true ∧
    pageEndingCompleted.Events.head? = some ⟨1, EVENT_TYPE_DECISION_TASK_SCHEDULED⟩ ∧
    pageEndingCompleted.Events.getLast? = some ⟨3, EVENT_TYPE_DECISION_TASK_COMPLETED⟩ ∧
    newGetHistoryPageFunc sampleDeserialize serviceEndingCompleted "ns" sampleExecution 3 none
      = .ok ⟨some pageEndingCompleted, some [7], none⟩ ∧
    (match GetNextPage sampleDeserialize serviceEndingCompleted
        ⟨none, sampleExecution, none, "ns", 3⟩ with
      | .ok (_, it) => it.HasNextPage
      | .error _ => false) = true := by
  refine ⟨by decide, rfl, rfl, rfl, rfl⟩

/-- C10, as amended. For a fetched page with consecutive event ids that contains the terminal
event id `m > 0`, the page function returns (it does not fail); if `m` lies strictly before the
page's last id it returns an error exactly when the event with id `m` is not a
DecisionTaskCompleted event; if `m` is the page's last id it returns no error, whatever the type
of that event; and whenever it returns an error it returns neither a history nor a token. -/
theorem getHistoryPage_error_iff_not_completed
    (deserialize : List (List Nat) → Except String History)
    (service : GetWorkflowExecutionHistoryRequest → Except String GetWorkflowExecutionHistoryResponse)
    (ns : String) (execution : WorkflowExecution) (m : Int) (token : Option (List Nat))
    (resp : GetWorkflowExecutionHistoryResponse) (h : History) (first last e : HistoryEvent)
    (hsvc : service { Namespace := ns, Execution := execution, NextPageToken := token } = .ok resp)
    (hpage : fetchedPage deserialize resp h)
    (hcons : consecutiveEventIds h.Events = true)
    (hfirst : h.Events.head? = some first) (hlast : h.Events.getLast? = some last)
    (hm : 0 < m) (hfm : first.EventId ≤ m) (hml : m ≤ last.EventId)
    (he : e ∈ h.Events) (hem : e.EventId = m) :
    ∃ page, newGetHistoryPageFunc deserialize service ns execution m token = .ok page ∧
      (m < last.EventId →
        (page.err.isSome = true ↔ e.EventType ≠ EVENT_TYPE_DECISION_TASK_COMPLETED)) ∧
      (m = last.EventId → page.err = none) ∧
      (page.err.isSome = true → page.history = none ∧ page.token = none) := by
  rcases lt_or_eq_of_le hml with hlt | heq
  · have hres := newGetHistoryPageFunc_truncation deserialize service ns execution m token resp h
      first last e hsvc hpage hcons hfirst hlast hm hfm hlt he hem
    by_cases ht : e.EventType = EVENT_TYPE_DECISION_TASK_COMPLETED
    · simp only [ht, ne_eq, not_true_eq_false, if_false] at hres
      refine ⟨_, hres, ?_, ?_, ?_⟩
      · intro _; simp [ht]
      · intro _; rfl
      · intro hc; simp at hc
    · simp only [ne_eq, ht, not_false_eq_true, if_true] at hres
      refine ⟨_, hres, ?_, ?_, ?_⟩
      · intro _; simp [ht]
      · intro hc; omega
      · intro _; exact ⟨rfl, rfl⟩
  · have hres := newGetHistoryPageFunc_passthrough deserialize service ns execution m token resp h
      last hsvc hpage hlast (le_of_eq heq.symm)
    refine ⟨_, hres, ?_, ?_, ?_⟩
    · intro hc; omega
    · intro _; rfl
    · intro hc; simp at hc

/-- Witness of C10 as amended, at `pageBeyondTerminal` (ids 5 to 8) with terminal event id 6,
whose event is a DecisionTaskStarted event: the page function returns some triple. -/
theorem getHistoryPage_error_iff_not_completed_witness :
    ∃ page, newGetHistoryPageFunc sampleDeserialize serviceBeyondTerminal "ns" sampleExecution 6
        none = .ok page ∧
      ((6 : Int) < 8 →
        (page.err.isSome = true ↔
          EVENT_TYPE_DECISION_TASK_STARTED ≠ EVENT_TYPE_DECISION_TASK_COMPLETED)) ∧
      ((6 : Int) = 8 → page.err = none) ∧
      (page.err.isSome = true → page.history = none ∧ page.token = none) :=
  getHistoryPage_error_iff_not_completed sampleDeserialize serviceBeyondTerminal "ns"
    sampleExecution 6 none
    { History := some pageBeyondTerminal, RawHistory := none, NextPageToken := some [7] }
    pageBeyondTerminal ⟨5, EVENT_TYPE_DECISION_TASK_SCHEDULED⟩ ⟨8, EVENT_TYPE_OTHER 10⟩
    ⟨6, EVENT_TYPE_DECISION_TASK_STARTED⟩
    rfl (Or.inl ⟨rfl, rfl⟩) (by decide) rfl rfl (by decide) (by decide) (by decide)
    (by decide) rfl

/-- Counterexample to C10 as stated. The page with ids 1, 2 contains the terminal event id 2 (its
last id) and event 2 is a DecisionTaskStarted event, not a DecisionTaskCompleted event, yet the
page function returns the page and the token without an error. -/
theorem getHistoryPage_terminal_last_not_checked :
    consecutiveEventIds pageEndingStarted.Events = true ∧
    pageEndingStarted.Events.head? = some ⟨1, EVENT_TYPE_DECISION_TASK_SCHEDULED⟩ ∧
    pageEndingStarted.Events.getLast? = some ⟨2, EVENT_TYPE_DECISION_TASK_STARTED⟩ ∧
    newGetHistoryPageFunc sampleDeserialize serviceEndingStarted "ns" sampleExecution 2 none
      = .ok ⟨some pageEndingStarted, some [7], none⟩ := by
  refine ⟨by decide, rfl, rfl, rfl⟩

end Temporal

/-! ## Theorems: child workflows, external cancellations, queue order -/

namespace Temporal
open decisionState decisionType DecisionType decisionsHelper

/-- Routing computed: with the entry found, `route` is decided by the entry's handler. -/
theorem route_found (h : decisionsHelper) (id : decisionID)
    (event : decisionStateMachine → Except PanicError decisionStateMachine)
    (d : decisionStateMachine) (hfind : h.findDecision id = some d) :
    h.route id event =
      match event d with
      | .error e => .error e
      | .ok d' =>
          .ok { h with
            orderedDecisions := h.orderedDecisions.filter (fun e => e.id ≠ id) ++ [d'] } := by
  simp only [route, hfind]

/-- Routing changes neither the ordering key source nor the remembered event ids. -/
theorem route_keeps_rest (h h' : decisionsHelper) (id : decisionID)
    (event : decisionStateMachine → Except PanicError decisionStateMachine)
    (hr : h.route id event = .ok h') :
    h'.nextSeq = h.nextSeq ∧
      h'.scheduledEventIDToCancellationID = h.scheduledEventIDToCancellationID ∧
      ∃ d', h'.orderedDecisions = h.orderedDecisions.filter (fun e => e.id ≠ id) ++ [d'] := by
  unfold route at hr
  cases hf : h.findDecision id with
  | none => simp [hf] at hr
  | some d =>
    simp only [hf] at hr
    cases he : event d with
    | error e => simp [he] at hr
    | ok d' =>
      simp only [he, Except.ok.injEq] at hr
      subst hr
      exact ⟨rfl, rfl, d', rfl⟩

/-- Routing an accepted event, observed through `getState`. -/
theorem route_state (h : decisionsHelper) (id : decisionID)
    (event : decisionStateMachine → Except PanicError decisionStateMachine)
    (d d' : decisionStateMachine)
    (hfind : h.findDecision id = some d) (hev : event d = .ok d') (hid : d'.id = d.id) :
    ∃ h', h.route id event = .ok h' ∧ h'.findDecision id = some d' ∧
      h'.getState id = some d'.state := by
  obtain ⟨hr, hf⟩ := route_accepted h id event d d' hfind hev (hid.trans (findDecision_id h id d hfind))
  exact ⟨_, hr, hf, by simp only [getState, hf]; rfl⟩

/-- Registering an entry under an unregistered identity: it is appended to the queue, in Created,
with the next ordering key. -/
theorem addDecision_fresh (h : decisionsHelper) (id : decisionID) (data : decisionData)
    (hfresh : h.findDecision id = none) :
    h.addDecision id data
        = .ok { h with
            orderedDecisions :=
              h.orderedDecisions ++ [⟨id, decisionStateCreated, data, h.nextSeq⟩],
            nextSeq := h.nextSeq + 1 } ∧
    decisionsHelper.findDecision
        { h with
          orderedDecisions := h.orderedDecisions ++ [⟨id, decisionStateCreated, data, h.nextSeq⟩],
          nextSeq := h.nextSeq + 1 } id
      = some ⟨id, decisionStateCreated, data, h.nextSeq⟩ := by
  have hnone : h.orderedDecisions.find? (fun d => d.id = id) = none := hfresh
  constructor
  · simp [addDecision, hfresh]
  · simp [findDecision, List.find?_append, hnone]

/-- Registering under a registered identity panics. -/
theorem addDecision_duplicate (h : decisionsHelper) (id : decisionID) (data : decisionData)
    (d : decisionStateMachine) (hfind : h.findDecision id = some d) :
    h.addDecision id data = .error ("adding duplicate decision " ++ id.id) := by
  simp [addDecision, hfind]

/-- Looking up another identity is not affected by an entry appended to the queue. -/
theorem findDecision_append_other (l : List decisionStateMachine)
    (d0 : decisionStateMachine) (id : decisionID) (n : Nat) (m : List (Int × String))
    (hne : d0.id ≠ id) :
    decisionsHelper.findDecision ⟨l ++ [d0], n, m⟩ id = decisionsHelper.findDecision ⟨l, n, m⟩ id := by
  simp only [findDecision, List.find?_append, List.find?_cons, List.find?_nil]
  simp [hne]

end Temporal

namespace Temporal
open decisionState decisionType DecisionType decisionsHelper

/-- A child workflow entry in CanceledAfterStarted has its cancellation request to emit, and
`emit` moves it to CancellationDecisionSent. -/
theorem child_canceledAfterStarted_emits (d : decisionStateMachine)
    (a : StartChildWorkflowExecutionDecisionAttributes) (hdata : d.data = .childWorkflow a)
    (hstate : d.state = decisionStateCanceledAfterStarted) :
    d.getDecision = some ⟨DECISION_TYPE_REQUEST_CANCEL_EXTERNAL_WORKFLOW_EXECUTION,
        .requestCancelExternalWorkflowExecution ⟨a.Namespace, a.WorkflowId, "", "", true⟩⟩ ∧
    d.handleDecisionSent.state = decisionStateCancellationDecisionSent := by
  obtain ⟨i, st, data, sq⟩ := d
  simp only at hdata hstate
  subst hdata hstate
  exact ⟨rfl, rfl⟩

/-- C15. For every child workflow entry registered in a decisions helper: `initiated` takes it
from DecisionSent to Initiated, `started` from Initiated to Started, `closed` from Initiated or
Started to Completed; `requestCancelExternalWorkflowExecution` with `childWorkflowOnly` takes it
from Started to CanceledAfterStarted; the drain then emits exactly one
REQUEST_CANCEL_EXTERNAL_WORKFLOW_EXECUTION for it and leaves it in CancellationDecisionSent; there
the cancel-initiated and cancel-requested acknowledgements change nothing, `closed` leads to
CompletedAfterCancellationDecisionSent, `canceled` to Completed and `cancelRequestFailed` back to
Started; and `startFailed` is accepted exactly in DecisionSent and Initiated. The
acknowledgements are those of an event id under which no external cancellation is remembered. -/
theorem child_workflow_transitions (h : decisionsHelper) (workflowID ns runID cancellationID : String)
    (initiatedEventID : Int) (d : decisionStateMachine)
    (a : StartChildWorkflowExecutionDecisionAttributes)
    (hfind : h.findDecision (makeDecisionID decisionTypeChildWorkflow workflowID) = some d)
    (hdata : d.data = .childWorkflow a)
    (hmap : h.scheduledEventIDToCancellationID.lookup initiatedEventID = none) :
    (d.state = decisionStateDecisionSent →
      ∃ h', h.handleStartChildWorkflowExecutionInitiated workflowID = .ok h' ∧
        h'.getState (makeDecisionID decisionTypeChildWorkflow workflowID)
          = some decisionStateInitiated) ∧
    (d.state = decisionStateInitiated →
      ∃ h', h.handleChildWorkflowExecutionStarted workflowID = .ok h' ∧
        h'.getState (makeDecisionID decisionTypeChildWorkflow workflowID)
          = some decisionStateStarted) ∧
    (d.state = decisionStateInitiated ∨ d.state = decisionStateStarted →
      ∃ h', h.handleChildWorkflowExecutionClosed workflowID = .ok h' ∧
        h'.getState (makeDecisionID decisionTypeChildWorkflow workflowID)
          = some decisionStateCompleted) ∧
    (d.state = decisionStateStarted →
      ∃ h', h.requestCancelExternalWorkflowExecution ns workflowID runID cancellationID true
          = .ok h' ∧
        h'.getState (makeDecisionID decisionTypeChildWorkflow workflowID)
          = some decisionStateCanceledAfterStarted) ∧
    (d.state = decisionStateCanceledAfterStarted →
      (∃ c pre post, d.getDecision = some c ∧
        c.DecisionType = DECISION_TYPE_REQUEST_CANCEL_EXTERNAL_WORKFLOW_EXECUTION ∧
        h.orderedDecisions = pre ++ d :: post ∧
        (h.getDecisions true).1
          = pre.filterMap decisionStateMachine.getDecision ++ c ::
            post.filterMap decisionStateMachine.getDecision) ∧
      (h.getDecisions true).2.getState (makeDecisionID decisionTypeChildWorkflow workflowID)
        = some decisionStateCancellationDecisionSent) ∧
    (d.state = decisionStateCancellationDecisionSent →
      (∃ h', h.handleRequestCancelExternalWorkflowExecutionInitiated initiatedEventID workflowID ""
          = .ok h' ∧
        h'.getState (makeDecisionID decisionTypeChildWorkflow workflowID)
          = some decisionStateCancellationDecisionSent) ∧
      (∃ h', h.handleExternalWorkflowExecutionCancelRequested initiatedEventID workflowID
          = .ok h' ∧
        h'.getState (makeDecisionID decisionTypeChildWorkflow workflowID)
          = some decisionStateCancellationDecisionSent) ∧
      (∃ h', h.handleChildWorkflowExecutionClosed workflowID = .ok h' ∧
        h'.getState (makeDecisionID decisionTypeChildWorkflow workflowID)
          = some decisionStateCompletedAfterCancellationDecisionSent) ∧
      (∃ h', h.handleChildWorkflowExecutionCanceled workflowID = .ok h' ∧
        h'.getState (makeDecisionID decisionTypeChildWorkflow workflowID)
          = some decisionStateCompleted) ∧
      (∃ h', h.handleRequestCancelExternalWorkflowExecutionFailed initiatedEventID workflowID
          = .ok h' ∧
        h'.getState (makeDecisionID decisionTypeChildWorkflow workflowID)
          = some decisionStateStarted)) ∧
    ((∃ h', h.handleStartChildWorkflowExecutionFailed workflowID = .ok h') ↔
      (d.state = decisionStateDecisionSent ∨ d.state = decisionStateInitiated)) := by
  obtain ⟨i, st, data, sq⟩ := d
  simp only at hdata
  subst hdata
  have step : ∀ (event : decisionStateMachine → Except PanicError decisionStateMachine)
      (s' : decisionState),
      event ⟨i, st, .childWorkflow a, sq⟩ = .ok ⟨i, s', .childWorkflow a, sq⟩ →
      ∃ h', h.route (makeDecisionID decisionTypeChildWorkflow workflowID) event = .ok h' ∧
        h'.getState (makeDecisionID decisionTypeChildWorkflow workflowID) = some s' := by
    intro event s' hev
    obtain ⟨h', hr, _, hs⟩ := route_state h _ event _ _ hfind hev rfl
    exact ⟨h', hr, hs⟩
  refine ⟨?_, ?_, ?_, ?_, ?_, ?_, ?_⟩
  · intro hs; simp only at hs; subst hs
    exact step _ _ rfl
  · intro hs; simp only at hs; subst hs
    exact step _ _ rfl
  · intro hs; simp only at hs
    rcases hs with hs | hs <;> subst hs <;> exact step _ _ rfl
  · intro hs; simp only at hs; subst hs
    simp only [requestCancelExternalWorkflowExecution, if_true]
    exact step _ _ rfl
  · intro hs; simp only at hs; subst hs
    obtain ⟨hc, hst⟩ := child_canceledAfterStarted_emits
      ⟨i, decisionStateCanceledAfterStarted, .childWorkflow a, sq⟩ a rfl rfl
    obtain ⟨pre, post, hsplit, hcmds⟩ := getDecisions_split h _ _ true hfind
    refine ⟨⟨_, pre, post, hc, rfl, hsplit, ?_⟩, ?_⟩
    · rw [hcmds, hc]; simp
    · simp only [getState, findDecision_getDecisions, hfind, Option.map_some']
      exact congrArg some hst
  · intro hs; simp only at hs; subst hs
    refine ⟨?_, ?_, ?_, ?_, ?_⟩
    · simp only [handleRequestCancelExternalWorkflowExecutionInitiated, if_true]
      exact step _ _ rfl
    · simp only [handleExternalWorkflowExecutionCancelRequested, hmap]
      exact step _ _ rfl
    · exact step _ _ rfl
    · exact step _ _ rfl
    · simp only [handleRequestCancelExternalWorkflowExecutionFailed, hmap]
      exact step _ _ rfl
  · simp only [handleStartChildWorkflowExecutionFailed, route_found h _ _ _ hfind]
    cases st <;>
      simp [decisionStateMachine.handleInitiationFailedEvent,
        decisionStateMachine.failStateTransition]

end Temporal

namespace Temporal
open decisionState decisionType DecisionType decisionsHelper

/-- Witness of C15 on the helpers of the child workflow tests: a started child is cancelled, and a
child whose cancellation request was sent is closed, cancelled or has the request fail
(`Test_ChildWorkflowStateMachine_CancelSucceed`, `_InvalidStates`, `_CancelFailed`). -/
theorem child_workflow_transitions_witness :
    (∃ h', (childHelper decisionStateStarted).requestCancelExternalWorkflowExecution
        "test-namespace" "test-workflow-id" "" "" true = .ok h' ∧
      h'.getState (makeDecisionID decisionTypeChildWorkflow "test-workflow-id")
        = some decisionStateCanceledAfterStarted) ∧
    (∃ h', (childHelper decisionStateCancellationDecisionSent).handleChildWorkflowExecutionClosed
        "test-workflow-id" = .ok h' ∧
      h'.getState (makeDecisionID decisionTypeChildWorkflow "test-workflow-id")
        = some decisionStateCompletedAfterCancellationDecisionSent) ∧
    (∃ h', (childHelper decisionStateCancellationDecisionSent
        ).handleRequestCancelExternalWorkflowExecutionFailed 28 "test-workflow-id" = .ok h' ∧
      h'.getState (makeDecisionID decisionTypeChildWorkflow "test-workflow-id")
        = some decisionStateStarted) :=
  ⟨(child_workflow_transitions (childHelper decisionStateStarted) "test-workflow-id"
      "test-namespace" "" "" 28
      ⟨makeDecisionID decisionTypeChildWorkflow "test-workflow-id", decisionStateStarted,
        .childWorkflow testChild, 0⟩ testChild (by decide) rfl rfl).2.2.2.1 rfl,
   ((child_workflow_transitions (childHelper decisionStateCancellationDecisionSent)
      "test-workflow-id" "test-namespace" "" "" 28
      ⟨makeDecisionID decisionTypeChildWorkflow "test-workflow-id",
        decisionStateCancellationDecisionSent, .childWorkflow testChild, 0⟩ testChild
      (by decide) rfl rfl).2.2.2.2.2.1 rfl).2.2.1,
   ((child_workflow_transitions (childHelper decisionStateCancellationDecisionSent)
      "test-workflow-id" "test-namespace" "" "" 28
      ⟨makeDecisionID decisionTypeChildWorkflow "test-workflow-id",
        decisionStateCancellationDecisionSent, .childWorkflow testChild, 0⟩ testChild
      (by decide) rfl rfl).2.2.2.2.2.1 rfl).2.2.2.2⟩

/-- An external cancellation that is Initiated accepts the success and the failure
acknowledgement of its initiated event; either completes it. -/
theorem external_ack_initiated (g : decisionsHelper) (initiatedEventID : Int)
    (workflowID cancellationID : String)
    (attrs : RequestCancelExternalWorkflowExecutionDecisionAttributes) (sq : Nat)
    (hmap : g.scheduledEventIDToCancellationID.lookup initiatedEventID = some cancellationID)
    (hfind : g.findDecision (makeDecisionID decisionTypeCancellation cancellationID)
      = some ⟨makeDecisionID decisionTypeCancellation cancellationID, decisionStateInitiated,
          .cancelExternalWorkflow attrs, sq⟩) :
    (∃ g', g.handleExternalWorkflowExecutionCancelRequested initiatedEventID workflowID = .ok g' ∧
      g'.scheduledEventIDToCancellationID.lookup initiatedEventID = some cancellationID ∧
      g'.findDecision (makeDecisionID decisionTypeCancellation cancellationID)
        = some ⟨makeDecisionID decisionTypeCancellation cancellationID, decisionStateCompleted,
            .cancelExternalWorkflow attrs, sq⟩) ∧
    (∃ g', g.handleRequestCancelExternalWorkflowExecutionFailed initiatedEventID workflowID
        = .ok g' ∧
      g'.scheduledEventIDToCancellationID.lookup initiatedEventID = some cancellationID ∧
      g'.findDecision (makeDecisionID decisionTypeCancellation cancellationID)
        = some ⟨makeDecisionID decisionTypeCancellation cancellationID, decisionStateCompleted,
            .cancelExternalWorkflow attrs, sq⟩) := by
  constructor
  · obtain ⟨g', hr, hf, _⟩ := route_state g _ decisionStateMachine.handleCancelRequestedEvent
      _ ⟨makeDecisionID decisionTypeCancellation cancellationID, decisionStateCompleted,
          .cancelExternalWorkflow attrs, sq⟩ hfind rfl rfl
    refine ⟨g', ?_, ?_, hf⟩
    · simp only [handleExternalWorkflowExecutionCancelRequested, hmap]; exact hr
    · rw [(route_keeps_rest g g' _ _ hr).2.1]; exact hmap
  · obtain ⟨g', hr, hf, _⟩ := route_state g _ decisionStateMachine.handleCancelFailedEvent
      _ ⟨makeDecisionID decisionTypeCancellation cancellationID, decisionStateCompleted,
          .cancelExternalWorkflow attrs, sq⟩ hfind rfl rfl
    refine ⟨g', ?_, ?_, hf⟩
    · simp only [handleRequestCancelExternalWorkflowExecutionFailed, hmap]; exact hr
    · rw [(route_keeps_rest g g' _ _ hr).2.1]; exact hmap

/-- An external cancellation that is Completed rejects both acknowledgements of its initiated
event. -/
theorem external_ack_completed (g : decisionsHelper) (initiatedEventID : Int)
    (workflowID cancellationID : String)
    (attrs : RequestCancelExternalWorkflowExecutionDecisionAttributes) (sq : Nat)
    (hmap : g.scheduledEventIDToCancellationID.lookup initiatedEventID = some cancellationID)
    (hfind : g.findDecision (makeDecisionID decisionTypeCancellation cancellationID)
      = some ⟨makeDecisionID decisionTypeCancellation cancellationID, decisionStateCompleted,
          .cancelExternalWorkflow attrs, sq⟩) :
    (∃ p, g.handleExternalWorkflowExecutionCancelRequested initiatedEventID workflowID
      = .error p) ∧
    (∃ p, g.handleRequestCancelExternalWorkflowExecutionFailed initiatedEventID workflowID
      = .error p) := by
  have h1 := route_rejected g _ decisionStateMachine.handleCancelRequestedEvent _
    ("invalid state transition: attempt to " ++ "handle cancel requested event") hfind rfl
  have h2 := route_rejected g _ decisionStateMachine.handleCancelFailedEvent _
    ("invalid state transition: attempt to " ++ "handle cancel failed event") hfind rfl
  constructor
  · exact ⟨_, by simp only [handleExternalWorkflowExecutionCancelRequested, hmap]; exact h1⟩
  · exact ⟨_, by simp only [handleRequestCancelExternalWorkflowExecutionFailed, hmap]; exact h2⟩

/-- Counterexample to C16 as stated. An external-workflow cancellation is requested under the
empty cancellation id on a fresh helper: the entry is Created and the drain emits its command,
with Control empty and ChildWorkflowOnly false. The initiated event of that request, which
carries the empty cancellation id, is routed to the child workflow "wf-1", which is not
registered, and panics: the entry is not moved to Initiated. -/
theorem external_cancellation_empty_id_not_initiated :
    newDecisionsHelper.requestCancelExternalWorkflowExecution "ns" "wf-1" "run-1" "" false
      = .ok emptyIdCancellationHelper ∧
    emptyIdCancellationHelper.getState (makeDecisionID decisionTypeCancellation "")
      = some decisionStateCreated ∧
    (emptyIdCancellationHelper.getDecisions true).1
      = [⟨DECISION_TYPE_REQUEST_CANCEL_EXTERNAL_WORKFLOW_EXECUTION,
          .requestCancelExternalWorkflowExecution ⟨"ns", "wf-1", "run-1", "", false⟩⟩] ∧
    (emptyIdCancellationHelper.getDecisions true).2.getState
        (makeDecisionID decisionTypeCancellation "") = some decisionStateDecisionSent ∧
    (emptyIdCancellationHelper.getDecisions true).2.handleRequestCancelExternalWorkflowExecutionInitiated
        7 "wf-1" "" = .error "unknown decision wf-1" := by
  refine ⟨rfl, rfl, rfl, rfl, rfl⟩

/-- C16, as amended. For every external-workflow cancellation created by
`requestCancelExternalWorkflowExecution` (not for a child workflow only) under a non-empty
cancellation id that is not registered yet: the entry is Created and not done; the drain returns
the commands that were pending before followed by exactly one
REQUEST_CANCEL_EXTERNAL_WORKFLOW_EXECUTION with the given namespace, workflow id, run id,
Control = cancellation id and ChildWorkflowOnly = false; the initiated event then moves the
entry to Initiated; from there the success and the failure acknowledgement each move it to
Completed; and once it is Completed both acknowledgements of the same initiated event panic. -/
theorem external_cancellation_lifecycle (h : decisionsHelper)
    (ns workflowID runID cancellationID : String) (initiatedEventID : Int)
    (hcid : cancellationID ≠ "")
    (hfresh : h.findDecision (makeDecisionID decisionTypeCancellation cancellationID) = none) :
    ∃ h1 e, h.requestCancelExternalWorkflowExecution ns workflowID runID cancellationID false
        = .ok h1 ∧
      h1.findDecision (makeDecisionID decisionTypeCancellation cancellationID) = some e ∧
      e.state = decisionStateCreated ∧ e.isDone = false ∧
      (h1.getDecisions true).1 = (h.getDecisions true).1 ++
        [⟨DECISION_TYPE_REQUEST_CANCEL_EXTERNAL_WORKFLOW_EXECUTION,
          .requestCancelExternalWorkflowExecution
            ⟨ns, workflowID, runID, cancellationID, false⟩⟩] ∧
      ∃ h3, (h1.getDecisions true).2.handleRequestCancelExternalWorkflowExecutionInitiated
          initiatedEventID workflowID cancellationID = .ok h3 ∧
        h3.getState (makeDecisionID decisionTypeCancellation cancellationID)
          = some decisionStateInitiated ∧
        (∃ h4, h3.handleExternalWorkflowExecutionCancelRequested initiatedEventID workflowID
            = .ok h4 ∧
          h4.getState (makeDecisionID decisionTypeCancellation cancellationID)
            = some decisionStateCompleted ∧
          (∃ p, h4.handleExternalWorkflowExecutionCancelRequested initiatedEventID workflowID
            = .error p) ∧
          (∃ p, h4.handleRequestCancelExternalWorkflowExecutionFailed initiatedEventID workflowID
            = .error p)) ∧
        (∃ h5, h3.handleRequestCancelExternalWorkflowExecutionFailed initiatedEventID workflowID
            = .ok h5 ∧
          h5.getState (makeDecisionID decisionTypeCancellation cancellationID)
            = some decisionStateCompleted ∧
          (∃ p, h5.handleExternalWorkflowExecutionCancelRequested initiatedEventID workflowID
            = .error p) ∧
          (∃ p, h5.handleRequestCancelExternalWorkflowExecutionFailed initiatedEventID workflowID
            = .error p)) := by
  obtain ⟨hadd, hfind1⟩ := addDecision_fresh h _
    (.cancelExternalWorkflow ⟨ns, workflowID, runID, cancellationID, false⟩) hfresh
  refine ⟨_, _, ?_, hfind1, rfl, rfl, ?_, ?_⟩
  · simp only [requestCancelExternalWorkflowExecution, Bool.false_eq_true, if_false]
    exact hadd
  · simp only [getDecisions, List.filterMap_append]
    rfl
  · have hfind2 := findDecision_getDecisions
      { h with
        orderedDecisions := h.orderedDecisions ++
          [⟨makeDecisionID decisionTypeCancellation cancellationID, decisionStateCreated,
            .cancelExternalWorkflow ⟨ns, workflowID, runID, cancellationID, false⟩, h.nextSeq⟩],
        nextSeq := h.nextSeq + 1 }
      (makeDecisionID decisionTypeCancellation cancellationID)
    rw [hfind1] at hfind2
    obtain ⟨h3, hr3, hf3, hs3⟩ := route_state
      { (decisionsHelper.getDecisions
          { h with
            orderedDecisions := h.orderedDecisions ++
              [⟨makeDecisionID decisionTypeCancellation cancellationID, decisionStateCreated,
                .cancelExternalWorkflow ⟨ns, workflowID, runID, cancellationID, false⟩,
                h.nextSeq⟩],
            nextSeq := h.nextSeq + 1 } true).2 with
        scheduledEventIDToCancellationID :=
          (initiatedEventID, cancellationID) ::
            (decisionsHelper.getDecisions
              { h with
                orderedDecisions := h.orderedDecisions ++
                  [⟨makeDecisionID decisionTypeCancellation cancellationID, decisionStateCreated,
                    .cancelExternalWorkflow ⟨ns, workflowID, runID, cancellationID, false⟩,
                    h.nextSeq⟩],
                nextSeq := h.nextSeq + 1 } true).2.scheduledEventIDToCancellationID.filter
              (fun p => p.1 ≠ initiatedEventID) }
      (makeDecisionID decisionTypeCancellation cancellationID)
      decisionStateMachine.handleInitiatedEvent _
      ⟨makeDecisionID decisionTypeCancellation cancellationID, decisionStateInitiated,
        .cancelExternalWorkflow ⟨ns, workflowID, runID, cancellationID, false⟩, h.nextSeq⟩
      hfind2 rfl rfl
    have hmap3 : h3.scheduledEventIDToCancellationID.lookup initiatedEventID
        = some cancellationID := by
      rw [(route_keeps_rest _ h3 _ _ hr3).2.1]
      simp [List.lookup]
    refine ⟨h3, ?_, hs3, ?_, ?_⟩
    · simp only [handleRequestCancelExternalWorkflowExecutionInitiated, hcid, if_false]
      exact hr3
    · obtain ⟨⟨h4, hr4, hmap4, hf4⟩, _⟩ :=
        external_ack_initiated h3 initiatedEventID workflowID cancellationID _ _ hmap3 hf3
      refine ⟨h4, hr4, by simp only [getState, hf4]; rfl, ?_⟩
      exact external_ack_completed h4 initiatedEventID workflowID cancellationID _ _ hmap4 hf4
    · obtain ⟨_, ⟨h5, hr5, hmap5, hf5⟩⟩ :=
        external_ack_initiated h3 initiatedEventID workflowID cancellationID _ _ hmap3 hf3
      refine ⟨h5, hr5, by simp only [getState, hf5]; rfl, ?_⟩
      exact external_ack_completed h5 initiatedEventID workflowID cancellationID _ _ hmap5 hf5

/-- Witness of C16 on the fresh helper of `Test_CancelExternalWorkflowStateMachine_Succeed`:
cancellation id "1", initiated event 28. -/
theorem external_cancellation_lifecycle_witness :
    ∃ h1 e, newDecisionsHelper.requestCancelExternalWorkflowExecution "test-namespace"
        "test-workflow-id" "test-run-id" "1" false = .ok h1 ∧
      h1.findDecision (makeDecisionID decisionTypeCancellation "1") = some e ∧
      e.state = decisionStateCreated ∧ e.isDone = false ∧
      (h1.getDecisions true).1 = (newDecisionsHelper.getDecisions true).1 ++
        [⟨DECISION_TYPE_REQUEST_CANCEL_EXTERNAL_WORKFLOW_EXECUTION,
          .requestCancelExternalWorkflowExecution
            ⟨"test-namespace", "test-workflow-id", "test-run-id", "1", false⟩⟩] ∧
      ∃ h3, (h1.getDecisions true).2.handleRequestCancelExternalWorkflowExecutionInitiated
          28 "test-workflow-id" "1" = .ok h3 ∧
        h3.getState (makeDecisionID decisionTypeCancellation "1")
          = some decisionStateInitiated ∧
        (∃ h4, h3.handleExternalWorkflowExecutionCancelRequested 28 "test-workflow-id"
            = .ok h4 ∧
          h4.getState (makeDecisionID decisionTypeCancellation "1")
            = some decisionStateCompleted ∧
          (∃ p, h4.handleExternalWorkflowExecutionCancelRequested 28 "test-workflow-id"
            = .error p) ∧
          (∃ p, h4.handleRequestCancelExternalWorkflowExecutionFailed 28 "test-workflow-id"
            = .error p)) ∧
        (∃ h5, h3.handleRequestCancelExternalWorkflowExecutionFailed 28 "test-workflow-id"
            = .ok h5 ∧
          h5.getState (makeDecisionID decisionTypeCancellation "1")
            = some decisionStateCompleted ∧
          (∃ p, h5.handleExternalWorkflowExecutionCancelRequested 28 "test-workflow-id"
            = .error p) ∧
          (∃ p, h5.handleRequestCancelExternalWorkflowExecutionFailed 28 "test-workflow-id"
            = .error p)) :=
  external_cancellation_lifecycle newDecisionsHelper "test-namespace" "test-workflow-id"
    "test-run-id" "1" 28 (by decide) rfl

end Temporal

namespace Temporal
open decisionState decisionType DecisionType decisionsHelper

/-- Entries without a command to emit stay so when some of them are dropped. -/
theorem filterMap_filter_nil (l : List decisionStateMachine) (p : decisionStateMachine → Bool)
    (hquiet : l.filterMap decisionStateMachine.getDecision = []) :
    (l.filter p).filterMap decisionStateMachine.getDecision = [] := by
  rw [List.filterMap_eq_nil_iff] at hquiet ⊢
  intro a ha
  exact hquiet a (List.mem_filter.mp ha).1

/-- C17. For every timer that has been emitted and initiated, in a helper with no command pending:
when a local-activity marker is recorded (under a marker id not yet registered) and the timer is
then cancelled, both calls succeed and the next `getDecisions(true)` returns exactly two commands,
the marker's RECORD_MARKER first and the timer's CANCEL_TIMER second, although the timer's
creation key is smaller than the marker's. -/
theorem marker_precedes_timer_cancel (h : decisionsHelper) (timerID activityID : String)
    (details : List Nat) (d : decisionStateMachine) (a : StartTimerDecisionAttributes)
    (hfind : h.findDecision (makeDecisionID decisionTypeTimer timerID) = some d)
    (hdata : d.data = .timer a) (hstate : d.state = decisionStateInitiated)
    (hseq : d.seq < h.nextSeq)
    (hfresh : h.findDecision
      (makeDecisionID decisionTypeMarker (localActivityMarkerName ++ "_" ++ activityID)) = none)
    (hquiet : (h.getDecisions false).1 = []) :
    ∃ h1 h2 m t, h.recordLocalActivityMarker activityID details = .ok h1 ∧
      h1.cancelTimer timerID = .ok h2 ∧
      (h2.getDecisions true).1
        = [⟨DECISION_TYPE_RECORD_MARKER, .recordMarker ⟨localActivityMarkerName, details⟩⟩,
           ⟨DECISION_TYPE_CANCEL_TIMER, .cancelTimer a.TimerId⟩] ∧
      h2.findDecision
        (makeDecisionID decisionTypeMarker (localActivityMarkerName ++ "_" ++ activityID))
          = some m ∧
      h2.findDecision (makeDecisionID decisionTypeTimer timerID) = some t ∧
      t.state = decisionStateCanceledAfterInitiated ∧ t.seq < m.seq := by
  obtain ⟨i, st, data, sq⟩ := d
  simp only at hdata hstate hseq
  subst hdata hstate
  have hi : i = makeDecisionID decisionTypeTimer timerID := findDecision_id h _ _ hfind
  subst hi
  obtain ⟨hadd, _⟩ := addDecision_fresh h _ (.marker ⟨localActivityMarkerName, details⟩) hfresh
  have hne : (makeDecisionID decisionTypeMarker (localActivityMarkerName ++ "_" ++ activityID))
      ≠ makeDecisionID decisionTypeTimer timerID := by
    simp [makeDecisionID]
  have hfind1 : decisionsHelper.findDecision
      ⟨h.orderedDecisions ++
        [⟨makeDecisionID decisionTypeMarker (localActivityMarkerName ++ "_" ++ activityID),
          decisionStateCreated, .marker ⟨localActivityMarkerName, details⟩, h.nextSeq⟩],
        h.nextSeq + 1, h.scheduledEventIDToCancellationID⟩
      (makeDecisionID decisionTypeTimer timerID)
      = some ⟨makeDecisionID decisionTypeTimer timerID, decisionStateInitiated, .timer a, sq⟩ := by
    rw [findDecision_append_other _ _ _ _ _ hne]
    exact hfind
  obtain ⟨hroute, hfind2⟩ := route_accepted _ _ decisionStateMachine.cancel _
    ⟨makeDecisionID decisionTypeTimer timerID, decisionStateCanceledAfterInitiated, .timer a, sq⟩
    hfind1 rfl rfl
  have hq : h.orderedDecisions.filterMap decisionStateMachine.getDecision = [] := hquiet
  have hq' := filterMap_filter_nil h.orderedDecisions
    (fun e => e.id ≠ makeDecisionID decisionTypeTimer timerID) hq
  refine ⟨_, _, ⟨makeDecisionID decisionTypeMarker (localActivityMarkerName ++ "_" ++ activityID),
      decisionStateCreated, .marker ⟨localActivityMarkerName, details⟩, h.nextSeq⟩,
    _, hadd, hroute, ?_, ?_, hfind2, rfl, hseq⟩
  · show List.filterMap decisionStateMachine.getDecision
        (List.filter (fun e => e.id ≠ makeDecisionID decisionTypeTimer timerID)
          (h.orderedDecisions ++
            [⟨makeDecisionID decisionTypeMarker (localActivityMarkerName ++ "_" ++ activityID),
              decisionStateCreated, .marker ⟨localActivityMarkerName, details⟩, h.nextSeq⟩]) ++
          [⟨makeDecisionID decisionTypeTimer timerID, decisionStateCanceledAfterInitiated,
            .timer a, sq⟩]) = _
    rw [List.filter_append, List.filterMap_append, List.filterMap_append, hq']
    have hkeep : List.filter (fun e => e.id ≠ makeDecisionID decisionTypeTimer timerID)
        [(⟨makeDecisionID decisionTypeMarker (localActivityMarkerName ++ "_" ++ activityID),
          decisionStateCreated, .marker ⟨localActivityMarkerName, details⟩, h.nextSeq⟩ :
            decisionStateMachine)]
        = [⟨makeDecisionID decisionTypeMarker (localActivityMarkerName ++ "_" ++ activityID),
          decisionStateCreated, .marker ⟨localActivityMarkerName, details⟩, h.nextSeq⟩] := by
      simp [hne]
    rw [hkeep]
    rfl
  · have hne' : (makeDecisionID decisionTypeTimer timerID)
        ≠ makeDecisionID decisionTypeMarker (localActivityMarkerName ++ "_" ++ activityID) :=
      fun e => hne e.symm
    show List.find? _
        (List.filter (fun e => e.id ≠ makeDecisionID decisionTypeTimer timerID)
          (h.orderedDecisions ++
            [⟨makeDecisionID decisionTypeMarker (localActivityMarkerName ++ "_" ++ activityID),
              decisionStateCreated, .marker ⟨localActivityMarkerName, details⟩, h.nextSeq⟩]) ++
          [⟨makeDecisionID decisionTypeTimer timerID, decisionStateCanceledAfterInitiated,
            .timer a, sq⟩]) = _
    have hnone : (h.orderedDecisions.filter
        (fun e => e.id ≠ makeDecisionID decisionTypeTimer timerID)).find?
        (fun d => d.id =
          makeDecisionID decisionTypeMarker (localActivityMarkerName ++ "_" ++ activityID))
        = none := by
      rw [List.find?_eq_none]
      intro x hx
      have := List.find?_eq_none.mp hfresh x (List.mem_filter.mp hx).1
      simpa using this
    rw [List.filter_append, List.find?_append, List.find?_append, hnone]
    simp [hne]

/-- Witness of C17 on the helper of `Test_TimerCancelEventOrdering`: the test timer, started,
drained and initiated on a fresh helper, then the marker "test-activity-1" and the cancel. -/
theorem marker_precedes_timer_cancel_witness :
    ∃ h1 h2 m t,
      (timerHelper decisionStateInitiated).recordLocalActivityMarker "test-activity-1" []
        = .ok h1 ∧
      h1.cancelTimer "test-timer-1" = .ok h2 ∧
      (h2.getDecisions true).1
        = [⟨DECISION_TYPE_RECORD_MARKER, .recordMarker ⟨localActivityMarkerName, []⟩⟩,
           ⟨DECISION_TYPE_CANCEL_TIMER, .cancelTimer testTimer.TimerId⟩] ∧
      h2.findDecision
        (makeDecisionID decisionTypeMarker (localActivityMarkerName ++ "_" ++ "test-activity-1"))
          = some m ∧
      h2.findDecision (makeDecisionID decisionTypeTimer "test-timer-1") = some t ∧
      t.state = decisionStateCanceledAfterInitiated ∧ t.seq < m.seq :=
  marker_precedes_timer_cancel (timerHelper decisionStateInitiated) "test-timer-1"
    "test-activity-1" []
    ⟨makeDecisionID decisionTypeTimer "test-timer-1", decisionStateInitiated, .timer testTimer, 0⟩
    testTimer (by decide) rfl rfl (by decide) (by decide) (by decide)

end Temporal

namespace Temporal
open decisionState decisionType DecisionType decisionsHelper

/-- Every creating call registers its entry through `addDecision`. -/
theorem create_eq_addDecision (h : decisionsHelper) (c : creation) :
    h.create c = h.addDecision c.id c.data := by
  cases c <;> rfl

/-- An entry just created has the command of its creating call to emit. -/
theorem created_entry_command (c : creation) (n : Nat) :
    decisionStateMachine.getDecision ⟨c.id, decisionStateCreated, c.data, n⟩ = some c.command := by
  cases c <;> rfl

/-- A creating call that succeeds appends its entry to the queue; it succeeds only under an
identity that was not registered. -/
theorem create_ok (h h1 : decisionsHelper) (c : creation) (hc : h.create c = .ok h1) :
    h.findDecision c.id = none ∧
    h1 = ⟨h.orderedDecisions ++ [⟨c.id, decisionStateCreated, c.data, h.nextSeq⟩],
      h.nextSeq + 1, h.scheduledEventIDToCancellationID⟩ := by
  rw [create_eq_addDecision] at hc
  cases hf : h.findDecision c.id with
  | some d => rw [addDecision_duplicate h _ _ d hf] at hc; cases hc
  | none =>
    rw [(addDecision_fresh h _ c.data hf).1] at hc
    simp only [Except.ok.injEq] at hc
    exact ⟨rfl, hc.symm⟩

/-- A creating call that succeeds puts the command of the new entry behind the commands that were
pending. -/
theorem create_commands (h h1 : decisionsHelper) (c : creation) (markAsSent : Bool)
    (hc : h.create c = .ok h1) :
    (h1.getDecisions markAsSent).1 = (h.getDecisions markAsSent).1 ++ [c.command] := by
  obtain ⟨_, rfl⟩ := create_ok h h1 c hc
  simp only [getDecisions, List.filterMap_append, List.filterMap_cons, created_entry_command,
    List.filterMap_nil]

/-- Creating calls in a row: the commands of the new entries follow the pending ones, in the order
of the calls. -/
theorem createAll_commands (cs : List creation) :
    ∀ (h h' : decisionsHelper) (markAsSent : Bool), h.createAll cs = .ok h' →
      (h'.getDecisions markAsSent).1
        = (h.getDecisions markAsSent).1 ++ cs.map creation.command := by
  induction cs with
  | nil =>
    intro h h' m hrun
    simp only [createAll, Except.ok.injEq] at hrun
    subst hrun
    simp
  | cons c cs ih =>
    intro h h' m hrun
    simp only [createAll] at hrun
    cases hc : h.create c with
    | error p => simp [hc] at hrun
    | ok h1 =>
      simp only [hc] at hrun
      rw [ih h1 h' m hrun, create_commands h h1 c m hc]
      simp

/-- Creating calls in a row succeed when their identities are pairwise different and none of them
is registered. -/
theorem createAll_succeeds (cs : List creation) :
    ∀ (h : decisionsHelper), (∀ c ∈ cs, h.findDecision c.id = none) →
      (cs.map creation.id).Nodup → ∃ h', h.createAll cs = .ok h' := by
  induction cs with
  | nil => intro h _ _; exact ⟨h, rfl⟩
  | cons c cs ih =>
    intro h hfresh hnodup
    have hc0 := hfresh c (List.mem_cons_self _ _)
    obtain ⟨hadd, _⟩ := addDecision_fresh h c.id c.data hc0
    rw [← create_eq_addDecision] at hadd
    simp only [List.map_cons, List.nodup_cons] at hnodup
    have hrest : ∀ c' ∈ cs, decisionsHelper.findDecision
        { h with
          orderedDecisions := h.orderedDecisions ++ [⟨c.id, decisionStateCreated, c.data, h.nextSeq⟩],
          nextSeq := h.nextSeq + 1 } c'.id = none := by
      intro c' hc'
      have hne : c.id ≠ c'.id := by
        intro heq
        exact hnodup.1 (List.mem_map.mpr ⟨c', hc', heq.symm⟩)
      have := findDecision_append_other h.orderedDecisions
        ⟨c.id, decisionStateCreated, c.data, h.nextSeq⟩ c'.id (h.nextSeq + 1)
        h.scheduledEventIDToCancellationID hne
      rw [this]
      have h0 := hfresh c' (List.mem_cons_of_mem _ hc')
      simpa [findDecision] using h0
    obtain ⟨h', hrun⟩ := ih _ hrest hnodup.2
    exact ⟨h', by simp only [createAll, hadd]; exact hrun⟩

/-- C19. For creating calls e1..en with pairwise different identities, made in that order on a
fresh decisions helper with no other operation in between: all calls succeed, and the first
`getDecisions(true)` returns exactly n commands, the i-th being the command of ei. -/
theorem first_drain_in_creation_order (cs : List creation)
    (hnodup : (cs.map creation.id).Nodup) :
    ∃ h, newDecisionsHelper.createAll cs = .ok h ∧
      (h.getDecisions true).1 = cs.map creation.command ∧
      (h.getDecisions true).1.length = cs.length ∧
      ∀ i : Nat, (h.getDecisions true).1[i]? = (cs[i]?).map creation.command := by
  obtain ⟨h, hrun⟩ := createAll_succeeds cs newDecisionsHelper (fun _ _ => rfl) hnodup
  have hcmds := createAll_commands cs newDecisionsHelper h true hrun
  have hcmds' : (h.getDecisions true).1 = cs.map creation.command := by
    rw [hcmds]; rfl
  refine ⟨h, hrun, hcmds', ?_, ?_⟩
  · rw [hcmds', List.length_map]
  · intro i
    rw [hcmds', List.getElem?_map]

/-- Witness of C19 at `sampleCreations`: an activity, a side-effect marker, a timer and an
external cancellation, emitted in that order. -/
theorem first_drain_in_creation_order_witness :
    ∃ h, newDecisionsHelper.createAll sampleCreations = .ok h ∧
      (h.getDecisions true).1 = sampleCreations.map creation.command ∧
      (h.getDecisions true).1.length = sampleCreations.length ∧
      ∀ i : Nat, (h.getDecisions true).1[i]? = (sampleCreations[i]?).map creation.command :=
  first_drain_in_creation_order sampleCreations (by decide)

/-- The commands of `sampleCreations`, evaluated. -/
theorem sampleCreations_commands :
    (sampleCreations.map creation.command).map (fun c => c.DecisionType)
      = [DECISION_TYPE_SCHEDULE_ACTIVITY_TASK, DECISION_TYPE_RECORD_MARKER,
         DECISION_TYPE_START_TIMER, DECISION_TYPE_REQUEST_CANCEL_EXTERNAL_WORKFLOW_EXECUTION] := by
  decide

/-- Counterexample to C18 as stated. The calls of `Test_TimerCancelEventOrdering` (start the
timer, drain, timer started, record the marker, cancel the timer) lead to
`timerCancelOrderingHelper`; its drain returns RECORD_MARKER before CANCEL_TIMER, and the creation
keys of the entries these commands belong to are 1 and 0, in that order: not increasing. -/
theorem drain_not_in_creation_order :
    ((newDecisionsHelper.startTimer testTimer).bind (fun h =>
      ((h.getDecisions true).2.handleTimerStarted "test-timer-1").bind (fun h =>
        (h.recordLocalActivityMarker "test-activity-1" []).bind (fun h =>
          h.cancelTimer "test-timer-1")))) = .ok timerCancelOrderingHelper ∧
    (timerCancelOrderingHelper.getDecisions true).1.map (fun c => c.DecisionType)
      = [DECISION_TYPE_RECORD_MARKER, DECISION_TYPE_CANCEL_TIMER] ∧
    timerCancelOrderingHelper.pendingSeqs = [1, 0] := by
  refine ⟨rfl, rfl, rfl⟩

/-- Dropping from a queue the entries of an identity whose entries have nothing to emit does
not change the commands of the drain. -/
theorem filterMap_filter_quiet (l : List decisionStateMachine) (id : decisionID)
    (hq : ∀ e ∈ l, e.id = id → e.getDecision = none) :
    (l.filter (fun e => e.id ≠ id)).filterMap decisionStateMachine.getDecision
      = l.filterMap decisionStateMachine.getDecision := by
  induction l with
  | nil => rfl
  | cons e rest ih =>
      have ih' := ih (fun x hx => hq x (List.mem_cons_of_mem _ hx))
      by_cases he : e.id = id
      · have hnone := hq e (List.mem_cons_self _ _) he
        rw [List.filter_cons_of_neg (by simp [he]), List.filterMap_cons_none hnone]
        exact ih'
      · rw [List.filter_cons_of_pos (by simp [he]), List.filterMap_cons, List.filterMap_cons, ih']

/-- In a registry without two entries of one identity, the entry found under an identity is the
only entry of that identity. -/
theorem findDecision_unique (h : decisionsHelper) (id : decisionID) (d : decisionStateMachine)
    (hnodup : (h.orderedDecisions.map decisionStateMachine.id).Nodup)
    (hfind : h.findDecision id = some d) :
    ∀ e ∈ h.orderedDecisions, e.id = id → e = d := by
  intro e he heid
  have hd : d ∈ h.orderedDecisions := List.mem_of_find?_eq_some hfind
  have hdid : d.id = id := findDecision_id h id d hfind
  exact List.inj_on_of_nodup_map hnodup he hd (heid.trans hdid.symm)

/-- A cancel routed to an entry that has nothing to emit and then has the command `c` to emit:
the drain after the cancel is the drain before it followed by `c`. -/
theorem cancel_appends_command (h : decisionsHelper) (id : decisionID)
    (d d' : decisionStateMachine) (c : Decision) (markAsSent : Bool)
    (hnodup : (h.orderedDecisions.map decisionStateMachine.id).Nodup)
    (hfind : h.findDecision id = some d) (hquiet : d.getDecision = none)
    (hcancel : d.cancel = .ok d') (hcmd : d'.getDecision = some c) :
    ∃ h2, h.route id decisionStateMachine.cancel = .ok h2 ∧
      (h2.getDecisions markAsSent).1 = (h.getDecisions markAsSent).1 ++ [c] := by
  refine ⟨_, by rw [route_found h id _ d hfind, hcancel], ?_⟩
  have hq : ∀ e ∈ h.orderedDecisions, e.id = id → e.getDecision = none := by
    intro e he heid
    rw [findDecision_unique h id d hnodup hfind e he heid]
    exact hquiet
  simp only [getDecisions, List.filterMap_append, List.filterMap_cons, List.filterMap_nil, hcmd,
    filterMap_filter_quiet h.orderedDecisions id hq]

/-- The empty registry has no two entries of one identity. -/
theorem newDecisionsHelper_nodup :
    (newDecisionsHelper.orderedDecisions.map decisionStateMachine.id).Nodup := by
  simp [newDecisionsHelper]

/-- Registering an entry keeps the registry without two entries of one identity. -/
theorem addDecision_nodup (h h1 : decisionsHelper) (id : decisionID) (data : decisionData)
    (hnodup : (h.orderedDecisions.map decisionStateMachine.id).Nodup)
    (hadd : h.addDecision id data = .ok h1) :
    (h1.orderedDecisions.map decisionStateMachine.id).Nodup := by
  unfold addDecision at hadd
  cases hfind : h.findDecision id with
  | some d => rw [hfind] at hadd; cases hadd
  | none =>
      rw [hfind] at hadd
      injection hadd with hadd
      subst hadd
      have hnot : ∀ e ∈ h.orderedDecisions, ¬ e.id = id := by
        intro e he
        have := List.find?_eq_none.mp hfind e he
        simpa using this
      simp only [List.map_append, List.map_cons, List.map_nil]
      refine List.Nodup.append hnodup (List.nodup_singleton _) ?_
      intro x hx hx'
      obtain ⟨e, he, rfl⟩ := List.mem_map.mp hx
      exact hnot e he (List.mem_singleton.mp hx')

/-- Routing an event whose handler keeps the identity of the entry keeps the registry without
two entries of one identity. -/
theorem route_nodup (h h2 : decisionsHelper) (id : decisionID)
    (event : decisionStateMachine → Except PanicError decisionStateMachine)
    (hid : ∀ d d', event d = .ok d' → d'.id = d.id)
    (hnodup : (h.orderedDecisions.map decisionStateMachine.id).Nodup)
    (hroute : h.route id event = .ok h2) :
    (h2.orderedDecisions.map decisionStateMachine.id).Nodup := by
  cases hfind : h.findDecision id with
  | none => simp [route, hfind] at hroute
  | some d =>
      rw [route_found h id event d hfind] at hroute
      cases hev : event d with
      | error e => simp [hev] at hroute
      | ok d' =>
          simp only [hev] at hroute
          injection hroute with hroute
          subst hroute
          have hdid : d'.id = id := (hid d d' hev).trans (findDecision_id h id d hfind)
          simp only [List.map_append, List.map_cons, List.map_nil]
          refine List.Nodup.append ?_ (List.nodup_singleton _) ?_
          · exact (List.Nodup.sublist (List.Sublist.map _ (List.filter_sublist _)) hnodup)
          · intro x hx hx'
            obtain ⟨e, he, rfl⟩ := List.mem_map.mp hx
            have hne : ¬ e.id = id := by simpa using (List.mem_filter.mp he).2
            exact hne ((List.mem_singleton.mp hx').trans hdid)

/-- C18, as amended. In a registry without two entries of one identity, the commands of a drain
appear in the order of the calls that made them pending, not in the order of the creation keys:
a creating call puts the command of the new entry behind all commands that are pending, and
`cancelTimer` and `requestCancelActivityTask` on an initiated entry put the cancellation command
of that entry behind all commands that are pending; the commands that were pending keep their
order. -/
theorem drain_order_follows_calls (h : decisionsHelper) (markAsSent : Bool)
    (hnodup : (h.orderedDecisions.map decisionStateMachine.id).Nodup) :
    (∀ c h1, h.create c = .ok h1 →
      (h1.getDecisions markAsSent).1 = (h.getDecisions markAsSent).1 ++ [c.command]) ∧
    (∀ timerID d a,
      h.findDecision (makeDecisionID decisionTypeTimer timerID) = some d →
      d.data = .timer a → d.state = decisionStateInitiated →
      ∃ h2, h.cancelTimer timerID = .ok h2 ∧
        (h2.getDecisions markAsSent).1 = (h.getDecisions markAsSent).1 ++
          [⟨DECISION_TYPE_CANCEL_TIMER, .cancelTimer a.TimerId⟩]) ∧
    (∀ activityID d scheduleID a,
      h.findDecision (makeDecisionID decisionTypeActivity activityID) = some d →
      d.data = .activity scheduleID a → d.state = decisionStateInitiated →
      ∃ h2, h.requestCancelActivityTask activityID = .ok h2 ∧
        (h2.getDecisions markAsSent).1 = (h.getDecisions markAsSent).1 ++
          [⟨DECISION_TYPE_REQUEST_CANCEL_ACTIVITY_TASK,
            .requestCancelActivityTask a.ActivityId⟩]) := by
  refine ⟨fun c h1 hc => create_commands h h1 c markAsSent hc, ?_, ?_⟩
  · intro timerID d a hfind hdata hstate
    obtain ⟨i, st, data, sq⟩ := d
    simp only at hdata hstate
    subst hdata hstate
    exact cancel_appends_command h _ _
      ⟨i, decisionStateCanceledAfterInitiated, .timer a, sq⟩ _ markAsSent hnodup hfind rfl rfl rfl
  · intro activityID d scheduleID a hfind hdata hstate
    obtain ⟨i, st, data, sq⟩ := d
    simp only at hdata hstate
    subst hdata hstate
    exact cancel_appends_command h _ _
      ⟨i, decisionStateCanceledAfterInitiated, .activity scheduleID a, sq⟩ _ markAsSent hnodup
      hfind rfl rfl rfl

/-- Witness of C18 as amended, on the helper of `Test_TimerCancelEventOrdering` before the
cancel: the timer is initiated and the marker is pending; the cancel puts CANCEL_TIMER behind the
marker's command. -/
theorem drain_order_follows_calls_witness :
    ∃ h2, timerAndMarkerHelper.cancelTimer "test-timer-1" = .ok h2 ∧
      (h2.getDecisions true).1 = (timerAndMarkerHelper.getDecisions true).1 ++
        [⟨DECISION_TYPE_CANCEL_TIMER, .cancelTimer testTimer.TimerId⟩] :=
  (drain_order_follows_calls timerAndMarkerHelper true (by decide)).2.1 "test-timer-1"
    ⟨makeDecisionID decisionTypeTimer "test-timer-1", decisionStateInitiated, .timer testTimer, 0⟩
    testTimer (by decide) rfl rfl

end Temporal

/-! ## Theorems: activity results, completion responses, backlog -/

namespace Temporal
open TaskListKind

/-- `errors.As` for `*CanceledError` finds the first typed cancellation of the chain. -/
theorem errorsAsCanceledError_eq_chain (e : GoError) :
    errorsAsCanceledError e
      = (errorChain e).findSome? (fun x =>
          match x with
          | .CanceledError details => some details
          | _ => none) := by
  induction e with
  | wrapped message cause ih => simp [errorsAsCanceledError, errorChain, ih]
  | _ => simp [errorsAsCanceledError, errorChain]

/-- `errors.Is` for `context.Canceled` holds exactly when the chain contains it. -/
theorem errorsIsContextCanceled_iff_chain (e : GoError) :
    errorsIsContextCanceled e = true ↔ GoError.contextCanceled ∈ errorChain e := by
  induction e with
  | wrapped message cause ih => simp [errorsIsContextCanceled, errorChain, ih]
  | _ => simp [errorsIsContextCanceled, errorChain]

/-- C11. For every result and every error other than the pending sentinel,
`convertActivityResultToRespondRequest` returns the report that the four-way classification has
for them: a completion with the given token, result and identity when there is no error; a
cancellation with the converted details of the typed cancellation in the error's chain; else a
cancellation without details when the chain contains `context.Canceled`; else a failure carrying
`convertErrorToFailure(err)`. `convertActivityResultToRespondRequestByID` returns the by-id report
of the same classification. -/
theorem convertActivityResult_classifies
    (convertErrDetailsToPayloads : List (List Nat) → Option (List (List Nat)))
    (convertErrorToFailure : GoError → Failure)
    (identity ns workflowID runID activityID : String) (taskToken : List Nat)
    (result : Option (List (List Nat))) (err : Option GoError)
    (hnotPending : err ≠ some .ErrActivityResultPending) :
    convertActivityResultToRespondRequest convertErrDetailsToPayloads convertErrorToFailure
        identity taskToken result err
      = reportFor convertErrDetailsToPayloads convertErrorToFailure identity taskToken result err
          (classifyActivityResult err) ∧
    convertActivityResultToRespondRequestByID convertErrDetailsToPayloads convertErrorToFailure
        identity ns workflowID runID activityID result err
      = some (reportByIdFor convertErrDetailsToPayloads convertErrorToFailure identity ns
          workflowID runID activityID result err (classifyActivityResult err)) := by
  cases err with
  | none =>
    simp [convertActivityResultToRespondRequest, convertActivityResultToRespondRequestByID,
      classifyActivityResult, reportFor, reportByIdFor]
  | some e =>
    simp only [convertActivityResultToRespondRequest, convertActivityResultToRespondRequestByID,
      classifyActivityResult, hnotPending, if_false, ← errorsAsCanceledError_eq_chain]
    cases has : errorsAsCanceledError e with
    | some details => simp [reportFor, reportByIdFor]
    | none =>
      by_cases hc : errorsIsContextCanceled e = true
      · have hmem := (errorsIsContextCanceled_iff_chain e).mp hc
        simp [hc, hmem, reportFor, reportByIdFor]
      · have hmem : GoError.contextCanceled ∉ errorChain e :=
          fun h => hc ((errorsIsContextCanceled_iff_chain e).mpr h)
        simp [hc, hmem, reportFor, reportByIdFor]

end Temporal

namespace Temporal
open TaskListKind

/-- Witness of C11: an error that wraps a typed cancellation with details `[[1, 2]]`. -/
theorem convertActivityResult_classifies_witness :
    convertActivityResultToRespondRequest sampleDetailsToPayloads sampleErrorToFailure
        "worker-1" [7] none (some (.wrapped "activity" (.CanceledError [[1, 2]])))
      = reportFor sampleDetailsToPayloads sampleErrorToFailure "worker-1" [7] none
          (some (.wrapped "activity" (.CanceledError [[1, 2]])))
          (classifyActivityResult (some (.wrapped "activity" (.CanceledError [[1, 2]])))) ∧
    convertActivityResultToRespondRequestByID sampleDetailsToPayloads sampleErrorToFailure
        "worker-1" "default" "wf-1" "run-1" "a1" none
        (some (.wrapped "activity" (.CanceledError [[1, 2]])))
      = some (reportByIdFor sampleDetailsToPayloads sampleErrorToFailure "worker-1" "default"
          "wf-1" "run-1" "a1" none (some (.wrapped "activity" (.CanceledError [[1, 2]])))
          (classifyActivityResult (some (.wrapped "activity" (.CanceledError [[1, 2]]))))) :=
  convertActivityResult_classifies sampleDetailsToPayloads sampleErrorToFailure "worker-1"
    "default" "wf-1" "run-1" "a1" [7] none
    (some (.wrapped "activity" (.CanceledError [[1, 2]]))) (by decide)

/-- The four kinds of report, evaluated on sample errors. -/
theorem convertActivityResult_evaluated :
    convertActivityResultToRespondRequest sampleDetailsToPayloads sampleErrorToFailure
        "worker-1" [7] (some [[5]]) none
      = .RespondActivityTaskCompletedRequest ⟨[7], some [[5]], "worker-1"⟩ ∧
    convertActivityResultToRespondRequest sampleDetailsToPayloads sampleErrorToFailure
        "worker-1" [7] none (some (.wrapped "activity" (.CanceledError [[1, 2]])))
      = .RespondActivityTaskCanceledRequest ⟨[7], some [[1, 2]], "worker-1"⟩ ∧
    convertActivityResultToRespondRequest sampleDetailsToPayloads sampleErrorToFailure
        "worker-1" [7] none (some (.wrapped "activity" .contextCanceled))
      = .RespondActivityTaskCanceledRequest ⟨[7], none, "worker-1"⟩ ∧
    convertActivityResultToRespondRequest sampleDetailsToPayloads sampleErrorToFailure
        "worker-1" [7] none (some (.other "boom"))
      = .RespondActivityTaskFailedRequest ⟨[7], ⟨"failed", "GoSDK"⟩, "worker-1"⟩ := by
  decide

/-- C12. When the activity outcome is the pending sentinel nothing is reported:
`convertActivityResultToRespondRequest` returns the sentinel whatever the result,
`convertActivityResultToRespondRequestByID` returns nil, `reportActivityComplete` and
`reportActivityCompleteByID` return nil for a nil request without issuing a call, and
`ProcessTask`, when the task handler returns the sentinel, returns nil without issuing a call. -/
theorem pending_reports_nothing
    (convertErrDetailsToPayloads : List (List Nat) → Option (List (List Nat)))
    (convertErrorToFailure : GoError → Failure)
    (isServiceTransientError : GoError → Bool) (maxRetries : Nat)
    (service : WorkflowServiceClient)
    (Execute : String → PollForActivityTaskResponse →
      Option activityRespondRequest × Option GoError)
    (stoppingBeforeReport : Bool) (atp : activityTaskPoller) (task : PollForActivityTaskResponse)
    (identity ns workflowID runID activityID : String) (taskToken : List Nat)
    (hpending : Execute atp.taskListName task = (some .ErrActivityResultPending, none)) :
    (∀ result, convertActivityResultToRespondRequest convertErrDetailsToPayloads
        convertErrorToFailure identity taskToken result (some .ErrActivityResultPending)
      = .ErrActivityResultPending) ∧
    (∀ result, convertActivityResultToRespondRequestByID convertErrDetailsToPayloads
        convertErrorToFailure identity ns workflowID runID activityID result
        (some .ErrActivityResultPending) = none) ∧
    reportActivityComplete isServiceTransientError maxRetries service none = .ok (none, []) ∧
    reportActivityCompleteByID isServiceTransientError maxRetries service none
      = .ok (none, []) ∧
    atp.ProcessTask isServiceTransientError maxRetries service Execute false
        stoppingBeforeReport { task := some task } = .ok (none, []) := by
  refine ⟨?_, ?_, rfl, rfl, ?_⟩
  · intro result; simp [convertActivityResultToRespondRequest]
  · intro result; simp [convertActivityResultToRespondRequestByID]
  · simp [activityTaskPoller.ProcessTask, hpending]

/-- Witness of C12 with a task handler whose activity completes asynchronously. -/
theorem pending_reports_nothing_witness :
    sampleActivityPoller.ProcessTask (fun _ => true) 3 sampleService pendingExecute false false
      { task := some sampleActivityTask } = .ok (none, []) :=
  (pending_reports_nothing sampleDetailsToPayloads sampleErrorToFailure (fun _ => true) 3
    sampleService pendingExecute false sampleActivityPoller sampleActivityTask "worker-1"
    "default" "wf-1" "run-1" "a1" [7] rfl).2.2.2.2

/-- What a successful poll returns and leaves, in terms of `getNextPollRequest`,
`updateBacklog`, `toWorkflowTask` and `release`. -/
theorem poll_success (getWorkerTaskList : String → String)
    (getBinaryChecksum : String) (service : WorkflowServiceClient) (wtp : workflowTaskPoller)
    (response : PollForDecisionTaskResponse)
    (hpoll : service.PollForDecisionTask
      (wtp.getNextPollRequest getWorkerTaskList getBinaryChecksum).1 = .ok (some response))
    (htoken : response.TaskToken.length ≠ 0) :
    wtp.poll getWorkerTaskList getBinaryChecksum service
      = (.ok (((wtp.getNextPollRequest getWorkerTaskList getBinaryChecksum).2.updateBacklog
            (wtp.getNextPollRequest getWorkerTaskList getBinaryChecksum).1.TaskList.Kind
            response.BacklogCountHint).toWorkflowTask response),
         ((wtp.getNextPollRequest getWorkerTaskList getBinaryChecksum).2.updateBacklog
            (wtp.getNextPollRequest getWorkerTaskList getBinaryChecksum).1.TaskList.Kind
            response.BacklogCountHint).release
            (wtp.getNextPollRequest getWorkerTaskList getBinaryChecksum).1.TaskList.Kind) := by
  unfold workflowTaskPoller.poll
  generalize wtp.getNextPollRequest getWorkerTaskList getBinaryChecksum = p at hpoll ⊢
  obtain ⟨req, w1⟩ := p
  simp only at hpoll ⊢
  rw [hpoll]
  simp [htoken]

/-- Counterexample to C20 as stated. `pollerNormalNext` (sticky enabled, no backlog, four sticky
and no regular polls pending) polls the normal task list; the poll succeeds with a task token and
a backlog hint of 9, and `stickyBacklog` is 0 afterwards, as before, not 9. -/
theorem poll_normal_keeps_backlog :
    (workflowTaskPoller.getNextPollRequest stickyName "sum" pollerNormalNext).1.TaskList.Kind
      = TASK_LIST_KIND_NORMAL ∧
    sampleService.PollForDecisionTask
        (workflowTaskPoller.getNextPollRequest stickyName "sum" pollerNormalNext).1
      = .ok (some sampleTask) ∧
    sampleTask.TaskToken = [1] ∧ sampleTask.BacklogCountHint = 9 ∧
    pollerNormalNext.stickyBacklog = 0 ∧
    (pollerNormalNext.poll stickyName "sum" sampleService).2.stickyBacklog = 0 :=
  ⟨by decide, rfl, rfl, rfl, rfl, by decide⟩

/-- C20, as amended. After a successful poll (the response carries a task token): if the sticky
task list was polled, `stickyBacklog` equals the response's `BacklogCountHint`; if the normal task
list was polled, which is so for every poll with sticky execution disabled, `stickyBacklog` is
what it was before the poll. In both cases the task is returned and the pending counts are what
they were. -/
theorem poll_updates_sticky_backlog (getWorkerTaskList : String → String)
    (getBinaryChecksum : String) (service : WorkflowServiceClient) (wtp : workflowTaskPoller)
    (response : PollForDecisionTaskResponse)
    (hpoll : service.PollForDecisionTask
      (wtp.getNextPollRequest getWorkerTaskList getBinaryChecksum).1 = .ok (some response))
    (htoken : response.TaskToken.length ≠ 0) :
    ((wtp.getNextPollRequest getWorkerTaskList getBinaryChecksum).1.TaskList.Kind
        = TASK_LIST_KIND_STICKY →
      (wtp.poll getWorkerTaskList getBinaryChecksum service).2.stickyBacklog
        = response.BacklogCountHint) ∧
    ((wtp.getNextPollRequest getWorkerTaskList getBinaryChecksum).1.TaskList.Kind
        = TASK_LIST_KIND_NORMAL →
      (wtp.poll getWorkerTaskList getBinaryChecksum service).2.stickyBacklog
        = wtp.stickyBacklog) ∧
    (wtp.disableStickyExecution = true →
      (wtp.getNextPollRequest getWorkerTaskList getBinaryChecksum).1.TaskList.Kind
        = TASK_LIST_KIND_NORMAL) ∧
    (∃ t, (wtp.poll getWorkerTaskList getBinaryChecksum service).1 = .ok t ∧
      t.task = some response) ∧
    (wtp.poll getWorkerTaskList getBinaryChecksum service).2.pendingStickyPollCount
      = wtp.pendingStickyPollCount ∧
    (wtp.poll getWorkerTaskList getBinaryChecksum service).2.pendingRegularPollCount
      = wtp.pendingRegularPollCount := by
  rw [poll_success getWorkerTaskList getBinaryChecksum service wtp response hpoll htoken]
  clear hpoll
  obtain ⟨ns, tl, idn, uuid, dis, reg, st, back⟩ := wtp
  cases dis
  · by_cases hsel : back > 0 ∨ st ≤ reg
    · simp [workflowTaskPoller.getNextPollRequest, hsel,
        workflowTaskPoller.updateBacklog, workflowTaskPoller.release,
        workflowTaskPoller.toWorkflowTask]
    · simp [workflowTaskPoller.getNextPollRequest, hsel,
        workflowTaskPoller.updateBacklog, workflowTaskPoller.release,
        workflowTaskPoller.toWorkflowTask]
  · simp [workflowTaskPoller.getNextPollRequest,
      workflowTaskPoller.updateBacklog, workflowTaskPoller.release,
      workflowTaskPoller.toWorkflowTask]

/-- Witness of C20 as amended at `pollerStickyBacklog`, whose next poll is sticky: the backlog
becomes the hint 9 of `sampleTask`. -/
theorem poll_updates_sticky_backlog_witness :
    (pollerStickyBacklog.poll stickyName "sum" sampleService).2.stickyBacklog
      = sampleTask.BacklogCountHint :=
  (poll_updates_sticky_backlog stickyName "sum" sampleService pollerStickyBacklog sampleTask
    rfl (by decide)).1 (by decide)

end Temporal

namespace Temporal
open TaskListKind

/-- With a failure report and a task past its first attempt the closure does nothing. -/
theorem respondFailed_later_attempt {F : Type} (getWorkerTaskList : String → String)
    (ops : float64Ops F) (isServiceTransientError : GoError → Bool) (maxRetries : Nat)
    (service : WorkflowServiceClient) (wtp : workflowTaskPoller)
    (StickyScheduleToStartTimeout : Int) (request : RespondDecisionTaskFailedRequest)
    (task : Option PollForDecisionTaskResponse) (hattempt : GetAttempt task ≠ 0) :
    wtp.RespondTaskCompleted getWorkerTaskList ops isServiceTransientError maxRetries service
        StickyScheduleToStartTimeout (.RespondDecisionTaskFailedRequest request) task
      = .ok (none, { completedRequest := .RespondDecisionTaskFailedRequest request,
                     response := none, calls := [] }) := by
  cases maxRetries <;>
    simp [workflowTaskPoller.RespondTaskCompleted, Retry, respondTaskCompletedOperation, hattempt]

/-- With a failure report and a task on its first attempt every invocation of the closure issues
`RespondDecisionTaskFailed` with the report; the retries end with at least one call issued. -/
theorem respondFailed_first_attempt_retry {F : Type} (getWorkerTaskList : String → String)
    (ops : float64Ops F) (isServiceTransientError : GoError → Bool)
    (service : WorkflowServiceClient) (wtp : workflowTaskPoller)
    (StickyScheduleToStartTimeout : Int) (request : RespondDecisionTaskFailedRequest)
    (task : Option PollForDecisionTaskResponse) (hattempt : GetAttempt task = 0)
    (maxRetries : Nat) :
    ∀ s : respondState, s.completedRequest = .RespondDecisionTaskFailedRequest request →
      ∃ err st k, Retry isServiceTransientError maxRetries
          (respondTaskCompletedOperation getWorkerTaskList ops service wtp
            StickyScheduleToStartTimeout task) s = .ok (err, st) ∧
        st.response = s.response ∧
        st.calls = s.calls ++ List.replicate (k + 1) (.RespondDecisionTaskFailed request) ∧
        k ≤ maxRetries := by
  induction maxRetries with
  | zero =>
      intro s hs
      refine ⟨service.RespondDecisionTaskFailed s.calls.length request,
        { s with calls := s.calls ++ [.RespondDecisionTaskFailed request] }, 0, ?_, rfl, rfl,
        le_refl _⟩
      simp only [Retry, respondTaskCompletedOperation, hs, hattempt, if_true]
  | succ n ih =>
      intro s hs
      have hop : respondTaskCompletedOperation getWorkerTaskList ops service wtp
          StickyScheduleToStartTimeout task s
          = .ok (service.RespondDecisionTaskFailed s.calls.length request,
              { s with calls := s.calls ++ [.RespondDecisionTaskFailed request] }) := by
        simp only [respondTaskCompletedOperation, hs, hattempt, if_true]
      cases herr : service.RespondDecisionTaskFailed s.calls.length request with
      | none =>
          refine ⟨none, { s with calls := s.calls ++ [.RespondDecisionTaskFailed request] }, 0,
            ?_, rfl, rfl, Nat.zero_le _⟩
          simp only [Retry, hop, herr]
      | some e =>
          by_cases hretry : isServiceTransientError e = true
          · obtain ⟨err, st, k, hrun, hresp, hcalls, hk⟩ :=
              ih { s with calls := s.calls ++ [.RespondDecisionTaskFailed request] } hs
            refine ⟨err, st, k + 1, ?_, hresp, ?_, Nat.succ_le_succ hk⟩
            · simp only [Retry, hop, herr, hretry, if_true]
              exact hrun
            · rw [hcalls]
              simp [List.replicate_succ]
          · refine ⟨some e, { s with calls := s.calls ++ [.RespondDecisionTaskFailed request] },
              0, ?_, rfl, rfl, Nat.zero_le _⟩
            simp only [Retry, hop, herr, hretry]
            simp

end Temporal

namespace Temporal
open TaskListKind

/-- C13. In `RespondTaskCompleted` with a `RespondDecisionTaskFailedRequest` the call returns,
every call issued is `RespondDecisionTaskFailed` with that request, a call is issued if and only
if the task's attempt is 0, the response is nil, and for an attempt other than 0 the error is nil
as well. -/
theorem respondFailed_only_on_first_attempt {F : Type} (getWorkerTaskList : String → String)
    (ops : float64Ops F) (isServiceTransientError : GoError → Bool) (maxRetries : Nat)
    (service : WorkflowServiceClient) (wtp : workflowTaskPoller)
    (StickyScheduleToStartTimeout : Int) (request : RespondDecisionTaskFailedRequest)
    (task : Option PollForDecisionTaskResponse) :
    ∃ err st, wtp.RespondTaskCompleted getWorkerTaskList ops isServiceTransientError maxRetries
        service StickyScheduleToStartTimeout (.RespondDecisionTaskFailedRequest request) task
          = .ok (err, st) ∧
      st.response = none ∧
      (∀ c ∈ st.calls, c = .RespondDecisionTaskFailed request) ∧
      (st.calls ≠ [] ↔ GetAttempt task = 0) ∧
      (GetAttempt task ≠ 0 → err = none ∧ st.calls = []) := by
  by_cases hattempt : GetAttempt task = 0
  · obtain ⟨err, st, k, hrun, hresp, hcalls, -⟩ :=
      respondFailed_first_attempt_retry getWorkerTaskList ops isServiceTransientError service wtp
        StickyScheduleToStartTimeout request task hattempt maxRetries
        { completedRequest := .RespondDecisionTaskFailedRequest request, response := none,
          calls := [] } rfl
    refine ⟨err, st, hrun, hresp, ?_, ?_, fun h => absurd hattempt h⟩
    · intro c hc
      rw [hcalls] at hc
      simp only [List.nil_append] at hc
      exact List.eq_of_mem_replicate hc
    · rw [hcalls]
      simp [List.replicate_succ, hattempt]
  · refine ⟨none, _, respondFailed_later_attempt getWorkerTaskList ops isServiceTransientError
      maxRetries service wtp StickyScheduleToStartTimeout request task hattempt, rfl, ?_, ?_,
      fun _ => ⟨rfl, rfl⟩⟩
    · intro c hc
      simp at hc
    · simp [hattempt]

/-- Witness of C13: the failure report for a task on its third attempt is not sent. -/
theorem respondFailed_only_on_first_attempt_witness :
    ∃ err st, pollerTie.RespondTaskCompleted stickyName sampleFloatOps (fun _ => true) 3
        sampleService 5000000000 (.RespondDecisionTaskFailedRequest sampleFailedRequest)
        (some retriedTask) = .ok (err, st) ∧
      st.response = none ∧
      (∀ c ∈ st.calls, c = .RespondDecisionTaskFailed sampleFailedRequest) ∧
      (st.calls ≠ [] ↔ GetAttempt (some retriedTask) = 0) ∧
      (GetAttempt (some retriedTask) ≠ 0 → err = none ∧ st.calls = []) :=
  respondFailed_only_on_first_attempt stickyName sampleFloatOps (fun _ => true) 3 sampleService
    pollerTie 5000000000 sampleFailedRequest (some retriedTask)

/-- Failure reports evaluated: none is sent on a third attempt; on a first attempt one is sent,
and sent again after a transient error. -/
theorem respondFailed_evaluated :
    pollerTie.RespondTaskCompleted stickyName sampleFloatOps (fun _ => true) 3 sampleService
        5000000000 (.RespondDecisionTaskFailedRequest sampleFailedRequest) (some retriedTask)
      = .ok (none, { completedRequest := .RespondDecisionTaskFailedRequest sampleFailedRequest,
                     response := none, calls := [] }) ∧
    pollerTie.RespondTaskCompleted stickyName sampleFloatOps (fun _ => true) 3 sampleService
        5000000000 (.RespondDecisionTaskFailedRequest sampleFailedRequest) (some sampleTask)
      = .ok (none, { completedRequest := .RespondDecisionTaskFailedRequest sampleFailedRequest,
                     response := none,
                     calls := [.RespondDecisionTaskFailed sampleFailedRequest] }) ∧
    pollerTie.RespondTaskCompleted stickyName sampleFloatOps (fun _ => true) 3 flakyService
        5000000000 (.RespondDecisionTaskFailedRequest sampleFailedRequest) none
      = .ok (none, { completedRequest := .RespondDecisionTaskFailedRequest sampleFailedRequest,
                     response := none,
                     calls := [.RespondDecisionTaskFailed sampleFailedRequest,
                               .RespondDecisionTaskFailed sampleFailedRequest] }) :=
  ⟨rfl, rfl, rfl⟩

/-- Preparing a request leaves its sticky attributes in place when it has some or sticky
execution is disabled, and clears the flag. -/
theorem prepareCompletedRequest_settled {F : Type} (getWorkerTaskList : String → String)
    (ops : float64Ops F) (wtp : workflowTaskPoller) (StickyScheduleToStartTimeout : Int)
    (request : RespondDecisionTaskCompletedRequest)
    (h : request.StickyAttributes ≠ none ∨ wtp.disableStickyExecution = true) :
    prepareCompletedRequest getWorkerTaskList ops wtp StickyScheduleToStartTimeout request
      = { request with ReturnNewDecisionTask := false } := by
  unfold prepareCompletedRequest
  rw [if_neg]
  rintro ⟨h1, h2⟩
  rcases h with h | h
  · exact h h1
  · exact h2 h

/-- A prepared request has sticky attributes or sticky execution is disabled. -/
theorem prepareCompletedRequest_has_attributes {F : Type} (getWorkerTaskList : String → String)
    (ops : float64Ops F) (wtp : workflowTaskPoller) (StickyScheduleToStartTimeout : Int)
    (request : RespondDecisionTaskCompletedRequest) :
    (prepareCompletedRequest getWorkerTaskList ops wtp StickyScheduleToStartTimeout
        request).StickyAttributes ≠ none ∨ wtp.disableStickyExecution = true := by
  unfold prepareCompletedRequest
  by_cases hc : request.StickyAttributes = none ∧ ¬ wtp.disableStickyExecution = true
  · rw [if_pos hc]
    left
    simp
  · rw [if_neg hc]
    by_cases h1 : request.StickyAttributes = none
    · right
      by_contra h2
      exact hc ⟨h1, h2⟩
    · left
      exact h1

/-- One invocation of the closure on a completion request: the prepared request is sent and
kept. -/
theorem respondCompleted_operation {F : Type} (getWorkerTaskList : String → String)
    (ops : float64Ops F) (service : WorkflowServiceClient) (wtp : workflowTaskPoller)
    (StickyScheduleToStartTimeout : Int) (task : Option PollForDecisionTaskResponse)
    (request : RespondDecisionTaskCompletedRequest) (s : respondState)
    (hs : s.completedRequest = .RespondDecisionTaskCompletedRequest request) :
    ∃ err st, respondTaskCompletedOperation getWorkerTaskList ops service wtp
        StickyScheduleToStartTimeout task s = .ok (err, st) ∧
      st.completedRequest = .RespondDecisionTaskCompletedRequest
        (prepareCompletedRequest getWorkerTaskList ops wtp StickyScheduleToStartTimeout
          request) ∧
      st.calls = s.calls ++ [.RespondDecisionTaskCompleted
        (prepareCompletedRequest getWorkerTaskList ops wtp StickyScheduleToStartTimeout
          request)] := by
  cases hcall : service.RespondDecisionTaskCompleted s.calls.length
      (prepareCompletedRequest getWorkerTaskList ops wtp StickyScheduleToStartTimeout request) with
  | ok response =>
      exact ⟨none,
        { completedRequest := .RespondDecisionTaskCompletedRequest
            (prepareCompletedRequest getWorkerTaskList ops wtp StickyScheduleToStartTimeout
              request),
          response := some response,
          calls := s.calls ++ [.RespondDecisionTaskCompleted
            (prepareCompletedRequest getWorkerTaskList ops wtp StickyScheduleToStartTimeout
              request)] },
        by simp only [respondTaskCompletedOperation, hs, hcall], rfl, rfl⟩
  | error e =>
      exact ⟨some e,
        { completedRequest := .RespondDecisionTaskCompletedRequest
            (prepareCompletedRequest getWorkerTaskList ops wtp StickyScheduleToStartTimeout
              request),
          response := none,
          calls := s.calls ++ [.RespondDecisionTaskCompleted
            (prepareCompletedRequest getWorkerTaskList ops wtp StickyScheduleToStartTimeout
              request)] },
        by simp only [respondTaskCompletedOperation, hs, hcall], rfl, rfl⟩

/-- Once the request has sticky attributes or sticky execution is disabled, every invocation of
the closure sends the request with the flag cleared; the retries end with at least one call
issued. -/
theorem respondCompleted_settled_retry {F : Type} (getWorkerTaskList : String → String)
    (ops : float64Ops F) (isServiceTransientError : GoError → Bool)
    (service : WorkflowServiceClient) (wtp : workflowTaskPoller)
    (StickyScheduleToStartTimeout : Int) (task : Option PollForDecisionTaskResponse)
    (maxRetries : Nat) :
    ∀ (s : respondState) (request : RespondDecisionTaskCompletedRequest),
      s.completedRequest = .RespondDecisionTaskCompletedRequest request →
      (request.StickyAttributes ≠ none ∨ wtp.disableStickyExecution = true) →
      ∃ err st k, Retry isServiceTransientError maxRetries
          (respondTaskCompletedOperation getWorkerTaskList ops service wtp
            StickyScheduleToStartTimeout task) s = .ok (err, st) ∧
        st.calls = s.calls ++ List.replicate (k + 1)
          (.RespondDecisionTaskCompleted { request with ReturnNewDecisionTask := false }) ∧
        k ≤ maxRetries := by
  induction maxRetries with
  | zero =>
      intro s request hs hsettled
      obtain ⟨err, st, hop, -, hcalls⟩ := respondCompleted_operation getWorkerTaskList ops
        service wtp StickyScheduleToStartTimeout task request s hs
      rw [prepareCompletedRequest_settled getWorkerTaskList ops wtp
        StickyScheduleToStartTimeout request hsettled] at hcalls
      exact ⟨err, st, 0, by simp only [Retry, hop], hcalls, le_refl _⟩
  | succ n ih =>
      intro s request hs hsettled
      obtain ⟨err, st, hop, hreq, hcalls⟩ := respondCompleted_operation getWorkerTaskList ops
        service wtp StickyScheduleToStartTimeout task request s hs
      rw [prepareCompletedRequest_settled getWorkerTaskList ops wtp
        StickyScheduleToStartTimeout request hsettled] at hcalls hreq
      cases err with
      | none => exact ⟨none, st, 0, by simp only [Retry, hop], hcalls, Nat.zero_le _⟩
      | some e =>
          by_cases hretry : isServiceTransientError e = true
          · obtain ⟨err', st', k, hrun, hcalls', hk⟩ :=
              ih st { request with ReturnNewDecisionTask := false } hreq hsettled
            refine ⟨err', st', k + 1, ?_, ?_, Nat.succ_le_succ hk⟩
            · simp only [Retry, hop, hretry, if_true]
              exact hrun
            · rw [hcalls', hcalls]
              simp [List.replicate_succ]
          · refine ⟨some e, st, 0, ?_, hcalls, Nat.zero_le _⟩
            simp only [Retry, hop, hretry]
            simp

/-- The calls `RespondTaskCompleted` issues for a completion request: the prepared request
first, and after each transient error the same request with the flag cleared. -/
theorem respondCompleted_calls {F : Type} (getWorkerTaskList : String → String)
    (ops : float64Ops F) (isServiceTransientError : GoError → Bool) (maxRetries : Nat)
    (service : WorkflowServiceClient) (wtp : workflowTaskPoller)
    (StickyScheduleToStartTimeout : Int) (request : RespondDecisionTaskCompletedRequest)
    (task : Option PollForDecisionTaskResponse) :
    ∃ err st k, wtp.RespondTaskCompleted getWorkerTaskList ops isServiceTransientError
        maxRetries service StickyScheduleToStartTimeout
        (.RespondDecisionTaskCompletedRequest request) task = .ok (err, st) ∧
      st.calls = .RespondDecisionTaskCompleted
          (prepareCompletedRequest getWorkerTaskList ops wtp StickyScheduleToStartTimeout
            request) ::
        List.replicate k (.RespondDecisionTaskCompleted
          { prepareCompletedRequest getWorkerTaskList ops wtp StickyScheduleToStartTimeout
              request with ReturnNewDecisionTask := false }) ∧
      k ≤ maxRetries := by
  obtain ⟨err, st, hop, hreq, hcalls⟩ := respondCompleted_operation getWorkerTaskList ops
    service wtp StickyScheduleToStartTimeout task request
    { completedRequest := .RespondDecisionTaskCompletedRequest request, response := none,
      calls := [] } rfl
  simp only [List.nil_append] at hcalls
  unfold workflowTaskPoller.RespondTaskCompleted
  cases maxRetries with
  | zero => exact ⟨err, st, 0, by simp only [Retry, hop], by simpa using hcalls, le_refl _⟩
  | succ n =>
      cases err with
      | none =>
          exact ⟨none, st, 0, by simp only [Retry, hop], by simpa using hcalls, Nat.zero_le _⟩
      | some e =>
          by_cases hretry : isServiceTransientError e = true
          · obtain ⟨err', st', k, hrun, hcalls', hk⟩ :=
              respondCompleted_settled_retry getWorkerTaskList ops isServiceTransientError
                service wtp StickyScheduleToStartTimeout task n st _ hreq
                (prepareCompletedRequest_has_attributes getWorkerTaskList ops wtp
                  StickyScheduleToStartTimeout request)
            refine ⟨err', st', k + 1, ?_, ?_, Nat.succ_le_succ hk⟩
            · simp only [Retry, hop, hretry, if_true]
              exact hrun
            · rw [hcalls', hcalls]
              simp
          · refine ⟨some e, st, 0, ?_, by simpa using hcalls, Nat.zero_le _⟩
            simp only [Retry, hop, hretry]
            simp

end Temporal

namespace Temporal
open TaskListKind

/-- Counterexample to C14 as stated. Sticky execution is enabled on `pollerTie`, and the request
passed already carries sticky attributes, for the task list "elsewhere", with
`ReturnNewDecisionTask` set. The one request sent keeps the attributes it came with, not the
worker's task list "host:uuid-1", and its flag is false, not as it was set. -/
theorem respondCompleted_preset_attributes_kept :
    pollerTie.disableStickyExecution = false ∧
    presetStickyRequest.ReturnNewDecisionTask = true ∧
    stickyName pollerTie.stickyUUID = "host:uuid-1" ∧
    pollerTie.RespondTaskCompleted stickyName sampleFloatOps (fun _ => true) 3 sampleService
        5000000000 (.RespondDecisionTaskCompletedRequest presetStickyRequest) (some sampleTask)
      = .ok (none,
          { completedRequest := .RespondDecisionTaskCompletedRequest
              { TaskToken := [1], Decisions := [], Identity := "worker-1",
                StickyAttributes := some
                  { WorkerTaskList :=
                      some { Name := "elsewhere", Kind := TASK_LIST_KIND_UNSPECIFIED },
                    ScheduleToStartTimeoutSeconds := 1 },
                ReturnNewDecisionTask := false, ForceCreateNewDecisionTask := false },
            response := some { DecisionTask := none },
            calls := [.RespondDecisionTaskCompleted
              { TaskToken := [1], Decisions := [], Identity := "worker-1",
                StickyAttributes := some
                  { WorkerTaskList :=
                      some { Name := "elsewhere", Kind := TASK_LIST_KIND_UNSPECIFIED },
                    ScheduleToStartTimeoutSeconds := 1 },
                ReturnNewDecisionTask := false, ForceCreateNewDecisionTask := false }] }) :=
  ⟨rfl, rfl, by decide, rfl⟩

/-- The first request that `RespondTaskCompleted` sends for a completion request, for every
meaning of the operations on `float64`: it differs from the request passed in `StickyAttributes`
and `ReturnNewDecisionTask` at most; with sticky execution enabled and no sticky attributes
passed it carries the worker's sticky attributes and the flag as passed; sticky attributes that
are passed are sent as they are; with sticky execution disabled the flag sent is false. -/
theorem respondCompleted_first_request {F : Type} (getWorkerTaskList : String → String)
    (ops : float64Ops F) (isServiceTransientError : GoError → Bool) (maxRetries : Nat)
    (service : WorkflowServiceClient) (wtp : workflowTaskPoller)
    (StickyScheduleToStartTimeout : Int) (request : RespondDecisionTaskCompletedRequest)
    (task : Option PollForDecisionTaskResponse) :
    ∃ err st first rest, wtp.RespondTaskCompleted getWorkerTaskList ops isServiceTransientError
        maxRetries service StickyScheduleToStartTimeout
        (.RespondDecisionTaskCompletedRequest request) task = .ok (err, st) ∧
      st.calls = .RespondDecisionTaskCompleted first :: rest ∧
      first.TaskToken = request.TaskToken ∧ first.Decisions = request.Decisions ∧
      first.Identity = request.Identity ∧
      first.ForceCreateNewDecisionTask = request.ForceCreateNewDecisionTask ∧
      (wtp.disableStickyExecution = false → request.StickyAttributes = none →
        first.StickyAttributes = some
          { WorkerTaskList := some { Name := getWorkerTaskList wtp.stickyUUID,
                                     Kind := TASK_LIST_KIND_UNSPECIFIED },
            ScheduleToStartTimeoutSeconds :=
              ops.toInt32 (ops.Ceil (ops.Seconds StickyScheduleToStartTimeout)) } ∧
        first.ReturnNewDecisionTask = request.ReturnNewDecisionTask) ∧
      (request.StickyAttributes ≠ none → first.StickyAttributes = request.StickyAttributes) ∧
      (wtp.disableStickyExecution = true →
        first.StickyAttributes = request.StickyAttributes ∧
        first.ReturnNewDecisionTask = false) := by
  obtain ⟨err, st, k, hrun, hcalls, -⟩ := respondCompleted_calls getWorkerTaskList ops
    isServiceTransientError maxRetries service wtp StickyScheduleToStartTimeout request task
  refine ⟨err, st, _, _, hrun, hcalls, ?_, ?_, ?_, ?_, ?_, ?_, ?_⟩
  · unfold prepareCompletedRequest; split <;> rfl
  · unfold prepareCompletedRequest; split <;> rfl
  · unfold prepareCompletedRequest; split <;> rfl
  · unfold prepareCompletedRequest; split <;> rfl
  · intro hdis hnone
    simp [prepareCompletedRequest, hdis, hnone, Int32Ceil]
  · intro h
    rw [prepareCompletedRequest_settled getWorkerTaskList ops wtp StickyScheduleToStartTimeout
      request (Or.inl h)]
  · intro h
    rw [prepareCompletedRequest_settled getWorkerTaskList ops wtp StickyScheduleToStartTimeout
      request (Or.inr h)]
    exact ⟨rfl, rfl⟩

/-- Completion requests evaluated with a timeout of 4.2 s. With sticky execution enabled the
request sent carries the worker's sticky attributes with a timeout of 5 and the flag as set, and
the request sent again after a transient error has the flag false; with sticky execution disabled
the request carries no sticky attributes and the flag is false. -/
theorem respondCompleted_evaluated :
    pollerTie.RespondTaskCompleted stickyName sampleFloatOps (fun _ => true) 3 flakyService
        4200000000 (.RespondDecisionTaskCompletedRequest handlerRequest) (some sampleTask)
      = .ok (none,
          { completedRequest := .RespondDecisionTaskCompletedRequest
              { TaskToken := [1], Decisions := [], Identity := "worker-1",
                StickyAttributes := some
                  { WorkerTaskList :=
                      some { Name := "host:uuid-1", Kind := TASK_LIST_KIND_UNSPECIFIED },
                    ScheduleToStartTimeoutSeconds := 5 },
                ReturnNewDecisionTask := false, ForceCreateNewDecisionTask := false },
            response := some { DecisionTask := none },
            calls := [.RespondDecisionTaskCompleted
              { TaskToken := [1], Decisions := [], Identity := "worker-1",
                StickyAttributes := some
                  { WorkerTaskList :=
                      some { Name := "host:uuid-1", Kind := TASK_LIST_KIND_UNSPECIFIED },
                    ScheduleToStartTimeoutSeconds := 5 },
                ReturnNewDecisionTask := true, ForceCreateNewDecisionTask := false },
              .RespondDecisionTaskCompleted
              { TaskToken := [1], Decisions := [], Identity := "worker-1",
                StickyAttributes := some
                  { WorkerTaskList :=
                      some { Name := "host:uuid-1", Kind := TASK_LIST_KIND_UNSPECIFIED },
                    ScheduleToStartTimeoutSeconds := 5 },
                ReturnNewDecisionTask := false, ForceCreateNewDecisionTask := false }] }) ∧
    pollerStickyDisabled.RespondTaskCompleted stickyName sampleFloatOps (fun _ => true) 3
        sampleService 4200000000 (.RespondDecisionTaskCompletedRequest handlerRequest)
        (some sampleTask)
      = .ok (none,
          { completedRequest := .RespondDecisionTaskCompletedRequest
              { TaskToken := [1], Decisions := [], Identity := "worker-1",
                StickyAttributes := none,
                ReturnNewDecisionTask := false, ForceCreateNewDecisionTask := false },
            response := some { DecisionTask := none },
            calls := [.RespondDecisionTaskCompleted
              { TaskToken := [1], Decisions := [], Identity := "worker-1",
                StickyAttributes := none,
                ReturnNewDecisionTask := false, ForceCreateNewDecisionTask := false }] }) :=
  ⟨rfl, rfl⟩

end Temporal

namespace Temporal
open TaskListKind EventType

/-- C27. For all `a` and `b`, `MinInt64`, `MinInt32` and `MinInt` return one of their two
arguments that is at most both, `MaxInt64` and `MaxInt` one that is at least both, and each of
the five returns the common value when the arguments are equal. -/
theorem min_max_helpers (a b : Int) :
    ((MinInt64 a b = a ∨ MinInt64 a b = b) ∧ MinInt64 a b ≤ a ∧ MinInt64 a b ≤ b ∧
      MinInt64 a a = a) ∧
    ((MinInt32 a b = a ∨ MinInt32 a b = b) ∧ MinInt32 a b ≤ a ∧ MinInt32 a b ≤ b ∧
      MinInt32 a a = a) ∧
    ((MinInt a b = a ∨ MinInt a b = b) ∧ MinInt a b ≤ a ∧ MinInt a b ≤ b ∧ MinInt a a = a) ∧
    ((MaxInt64 a b = a ∨ MaxInt64 a b = b) ∧ a ≤ MaxInt64 a b ∧ b ≤ MaxInt64 a b ∧
      MaxInt64 a a = a) ∧
    ((MaxInt a b = a ∨ MaxInt a b = b) ∧ a ≤ MaxInt a b ∧ b ≤ MaxInt a b ∧ MaxInt a a = a) := by
  unfold MinInt64 MinInt32 MinInt MaxInt64 MaxInt
  refine ⟨?_, ?_, ?_, ?_, ?_⟩ <;>
    (by_cases h : a < b
     · have h' : ¬ a > b := not_lt.mpr (le_of_lt h)
       simp [h, h', le_of_lt h]
     · by_cases h'' : a > b
       · simp [h, h'', le_of_lt h'']
       · have hab : a = b := le_antisymm (not_lt.mp h'') (not_lt.mp h)
         simp [hab])

/-- The helpers agree with the minimum and maximum of the integers. -/
theorem helpers_agree_with_min_max (a b : Int) :
    MinInt64 a b = min a b ∧ MinInt32 a b = min a b ∧ MinInt a b = min a b ∧
    MaxInt64 a b = max a b ∧ MaxInt a b = max a b := by
  unfold MinInt64 MinInt32 MinInt MaxInt64 MaxInt
  refine ⟨?_, ?_, ?_, ?_, ?_⟩ <;> (split <;> omega)

end Temporal

namespace Temporal
open TaskListKind EventType historyIteratorImpl

/-- What `GetNextPage` does with the page that the page function in use returns without an
error: the history is returned and the page's token stored. -/
theorem GetNextPage_stores_token
    (deserialize : List (List Nat) → Except String History)
    (service : GetWorkflowExecutionHistoryRequest → Except String GetWorkflowExecutionHistoryResponse)
    (h : historyIteratorImpl) (page : HistoryPage)
    (hpage : (h.iteratorFunc.getD
        (newGetHistoryPageFunc deserialize service h.ns h.execution h.maxEventID))
          h.nextPageToken = .ok page)
    (herr : page.err = none) :
    GetNextPage deserialize service h
      = .ok ((page.history, none),
          { h with
            iteratorFunc := some (h.iteratorFunc.getD
              (newGetHistoryPageFunc deserialize service h.ns h.execution h.maxEventID)),
            nextPageToken := page.token }) := by
  obtain ⟨f, ex, tok, ns, m⟩ := h
  cases f with
  | none =>
      simp only [Option.getD_none] at hpage
      simp only [GetNextPage, hpage, herr, Option.getD_none]
  | some f =>
      simp only [Option.getD_some] at hpage
      simp only [GetNextPage, hpage, herr, Option.getD_some]

/-- C25. For the history iterator: `HasNextPage` is true exactly when the stored page token is
non-nil; `Reset` makes `HasNextPage` false and changes no other field; `GetNextPage` after `Reset`
hands the nil token to the page function, which asks the service for the page without a token, so
that the answer does not depend on what the service would answer to any other request; and a
`GetNextPage` whose page function returns without an error stores the token that the page
function returned. -/
theorem iterator_reset_and_token
    (deserialize : List (List Nat) → Except String History)
    (service : GetWorkflowExecutionHistoryRequest → Except String GetWorkflowExecutionHistoryResponse)
    (h : historyIteratorImpl) :
    (h.HasNextPage = true ↔ h.nextPageToken ≠ none) ∧
    (h.Reset.HasNextPage = false ∧ h.Reset.nextPageToken = none ∧
      h.Reset.iteratorFunc = h.iteratorFunc ∧ h.Reset.execution = h.execution ∧
      h.Reset.ns = h.ns ∧ h.Reset.maxEventID = h.maxEventID) ∧
    (∀ page : HistoryPage,
      (h.iteratorFunc.getD
        (newGetHistoryPageFunc deserialize service h.ns h.execution h.maxEventID)) none
          = .ok page →
      page.err = none →
      GetNextPage deserialize service h.Reset
        = .ok ((page.history, none),
            { h with
              iteratorFunc := some (h.iteratorFunc.getD
                (newGetHistoryPageFunc deserialize service h.ns h.execution h.maxEventID)),
              nextPageToken := page.token })) ∧
    (∀ service' : GetWorkflowExecutionHistoryRequest →
        Except String GetWorkflowExecutionHistoryResponse,
      service' { Namespace := h.ns, Execution := h.execution, NextPageToken := none }
        = service { Namespace := h.ns, Execution := h.execution, NextPageToken := none } →
      newGetHistoryPageFunc deserialize service' h.ns h.execution h.maxEventID none
        = newGetHistoryPageFunc deserialize service h.ns h.execution h.maxEventID none) ∧
    (∀ page : HistoryPage,
      (h.iteratorFunc.getD
        (newGetHistoryPageFunc deserialize service h.ns h.execution h.maxEventID))
          h.nextPageToken = .ok page →
      page.err = none →
      ∃ it, GetNextPage deserialize service h = .ok ((page.history, none), it) ∧
        it.nextPageToken = page.token ∧ it.HasNextPage = page.token.isSome) := by
  refine ⟨?_, ⟨rfl, rfl, rfl, rfl, rfl, rfl⟩, ?_, ?_, ?_⟩
  · cases htok : h.nextPageToken <;> simp [HasNextPage, htok]
  · intro page hpage herr
    exact GetNextPage_stores_token deserialize service h.Reset page hpage herr
  · intro service' hsame
    simp only [newGetHistoryPageFunc, hsame]
  · intro page hpage herr
    exact ⟨_, GetNextPage_stores_token deserialize service h page hpage herr, rfl, rfl⟩

/-- Witness of C25: an iterator that stores the token `[4]` and a service that serves the first
page only. After `Reset` the first page is fetched and its token `[7]` stored. -/
theorem iterator_reset_and_token_witness :
    GetNextPage sampleDeserialize serviceFirstPageOnly iteratorMidway.Reset
      = .ok ((some pageEndingCompleted, none),
          { iteratorMidway with
            iteratorFunc := some (iteratorMidway.iteratorFunc.getD
              (newGetHistoryPageFunc sampleDeserialize serviceFirstPageOnly iteratorMidway.ns
                iteratorMidway.execution iteratorMidway.maxEventID)),
            nextPageToken := some [7] }) :=
  (iterator_reset_and_token sampleDeserialize serviceFirstPageOnly iteratorMidway).2.2.1
    ⟨some pageEndingCompleted, some [7], none⟩ rfl rfl

/-- C26. When the service answers with a `RawHistory` that fails to decode, the page function
returns no error, a nil history and a nil token; `GetNextPage` returns a nil error together with
that nil history, which has no events, and the iterator's page token is cleared, so that
`HasNextPage` is false. -/
theorem raw_history_decode_failure_swallowed
    (deserialize : List (List Nat) → Except String History)
    (service : GetWorkflowExecutionHistoryRequest → Except String GetWorkflowExecutionHistoryResponse)
    (h : historyIteratorImpl) (resp : GetWorkflowExecutionHistoryResponse)
    (raw : List (List Nat)) (decodeErr : String)
    (hfunc : h.iteratorFunc = none ∨ h.iteratorFunc
      = some (newGetHistoryPageFunc deserialize service h.ns h.execution h.maxEventID))
    (hsvc :
      service { Namespace := h.ns, Execution := h.execution, NextPageToken := h.nextPageToken }
        = .ok resp)
    (hraw : resp.RawHistory = some raw) (hdecode : deserialize raw = .error decodeErr) :
    newGetHistoryPageFunc deserialize service h.ns h.execution h.maxEventID h.nextPageToken
      = .ok ⟨none, none, none⟩ ∧
    ∃ history it, GetNextPage deserialize service h = .ok ((history, none), it) ∧
      GetEvents history = [] ∧ history = none ∧
      it.nextPageToken = none ∧ it.HasNextPage = false := by
  have hpage : newGetHistoryPageFunc deserialize service h.ns h.execution h.maxEventID
      h.nextPageToken = .ok ⟨none, none, none⟩ := by
    simp only [newGetHistoryPageFunc, hsvc, hraw, hdecode]
  refine ⟨hpage, none, _, GetNextPage_stores_token deserialize service h ⟨none, none, none⟩ ?_ rfl,
    rfl, rfl, rfl, rfl⟩
  rcases hfunc with hf | hf <;> rw [hf] <;> exact hpage

/-- Witness of C26: raw blobs that the sample decoder rejects, fetched by an iterator that stores
a page token. -/
theorem raw_history_decode_failure_swallowed_witness :
    newGetHistoryPageFunc sampleDeserialize serviceRawHistory iteratorMidway.ns
        iteratorMidway.execution iteratorMidway.maxEventID iteratorMidway.nextPageToken
      = .ok ⟨none, none, none⟩ ∧
    ∃ history it, GetNextPage sampleDeserialize serviceRawHistory iteratorMidway
        = .ok ((history, none), it) ∧
      GetEvents history = [] ∧ history = none ∧
      it.nextPageToken = none ∧ it.HasNextPage = false :=
  raw_history_decode_failure_swallowed sampleDeserialize serviceRawHistory iteratorMidway
    { History := none, RawHistory := some [[1, 2]], NextPageToken := some [9] } [[1, 2]]
    "corrupt blob" (Or.inl rfl) rfl rfl rfl

/-- C29, the failing inputs. The pages have consecutive ids, are not empty, and the terminal
event id 3 is positive. A page with ids 5, 6, 7 gives the slice bound `3 - 5 + 1 = -1` and the
page function fails at the slice expression; a page with ids 4, 5, 6 gives the bound 0 and the
page function fails at the index expression that follows. The second page is reached through the
iterator: the first `GetNextPage` returns the page with ids 1, 2, 3 and leaves `HasNextPage` true,
and the second `GetNextPage` fails. -/
theorem page_function_out_of_range :
    consecutiveEventIds pageFarAfterTerminal.Events = true ∧
    consecutiveEventIds pageAfterTerminal.Events = true ∧
    newGetHistoryPageFunc sampleDeserialize serviceFarAfterTerminal "default" sampleExecution 3
        none = .error "slice bounds out of range" ∧
    newGetHistoryPageFunc sampleDeserialize serviceAfterTerminal "default" sampleExecution 3
        none = .error "index out of range [-1]" ∧
    (∃ it, GetNextPage sampleDeserialize serviceTwoPages iteratorFresh
        = .ok ((some pageEndingCompleted, none), it) ∧ it.HasNextPage = true ∧
      GetNextPage sampleDeserialize serviceTwoPages it = .error "index out of range [-1]") := by
  refine ⟨rfl, rfl, rfl, rfl, ?_⟩
  refine ⟨{ iteratorFresh with
      iteratorFunc := some (newGetHistoryPageFunc sampleDeserialize serviceTwoPages
        iteratorFresh.ns iteratorFresh.execution iteratorFresh.maxEventID),
      nextPageToken := some [7] }, ?_, rfl, ?_⟩
  · rfl
  · rfl

end Temporal

namespace Temporal
open TaskListKind

/-- C30, the failing input. Sticky execution is enabled and the request carries no sticky
attributes and has `ReturnNewDecisionTask` set. Prepared once, the request has the flag set;
prepared twice, it has the flag cleared, while the sticky attributes are those of the first
preparation. With a service whose first answer is a transient error, `RespondTaskCompleted`
sends the request twice: with the flag set, then with the flag cleared. -/
theorem prepare_twice_clears_flag :
    pollerTie.disableStickyExecution = false ∧ handlerRequest.StickyAttributes = none ∧
    handlerRequest.ReturnNewDecisionTask = true ∧
    (prepareCompletedRequest stickyName sampleFloatOps pollerTie 5000000000
      handlerRequest).ReturnNewDecisionTask = true ∧
    (prepareCompletedRequest stickyName sampleFloatOps pollerTie 5000000000
      (prepareCompletedRequest stickyName sampleFloatOps pollerTie 5000000000
        handlerRequest)).ReturnNewDecisionTask = false ∧
    (prepareCompletedRequest stickyName sampleFloatOps pollerTie 5000000000
      (prepareCompletedRequest stickyName sampleFloatOps pollerTie 5000000000
        handlerRequest)).StickyAttributes
      = (prepareCompletedRequest stickyName sampleFloatOps pollerTie 5000000000
          handlerRequest).StickyAttributes ∧
    pollerTie.RespondTaskCompleted stickyName sampleFloatOps (fun _ => true) 3 flakyService
        5000000000 (.RespondDecisionTaskCompletedRequest handlerRequest) (some sampleTask)
      = .ok (none,
          { completedRequest := .RespondDecisionTaskCompletedRequest
              { prepareCompletedRequest stickyName sampleFloatOps pollerTie 5000000000
                  handlerRequest with ReturnNewDecisionTask := false },
            response := some { DecisionTask := none },
            calls := [.RespondDecisionTaskCompleted
                (prepareCompletedRequest stickyName sampleFloatOps pollerTie 5000000000
                  handlerRequest),
              .RespondDecisionTaskCompleted
                { prepareCompletedRequest stickyName sampleFloatOps pollerTie 5000000000
                    handlerRequest with ReturnNewDecisionTask := false }] }) :=
  ⟨rfl, rfl, rfl, rfl, rfl, rfl, rfl⟩

/-- Preparing a request a second time clears the flag and changes nothing else, so the
preparation is idempotent on a request exactly when the first preparation leaves the flag
cleared. -/
theorem prepareCompletedRequest_twice {F : Type} (getWorkerTaskList : String → String)
    (ops : float64Ops F) (wtp : workflowTaskPoller) (StickyScheduleToStartTimeout : Int)
    (request : RespondDecisionTaskCompletedRequest) :
    prepareCompletedRequest getWorkerTaskList ops wtp StickyScheduleToStartTimeout
        (prepareCompletedRequest getWorkerTaskList ops wtp StickyScheduleToStartTimeout request)
      = { prepareCompletedRequest getWorkerTaskList ops wtp StickyScheduleToStartTimeout
            request with ReturnNewDecisionTask := false } :=
  prepareCompletedRequest_settled getWorkerTaskList ops wtp StickyScheduleToStartTimeout _
    (prepareCompletedRequest_has_attributes getWorkerTaskList ops wtp
      StickyScheduleToStartTimeout request)

/-- Erasing the request at a position lowers the count of its kind by one. -/
theorem count_eraseIdx_self (l : List TaskListKind) (i : Nat) (kind : TaskListKind)
    (h : l[i]? = some kind) : (l.eraseIdx i).count kind + 1 = l.count kind := by
  induction l generalizing i with
  | nil => simp at h
  | cons a rest ih =>
      cases i with
      | zero =>
          simp only [List.getElem?_cons_zero, Option.some.injEq] at h
          subst h
          simp
      | succ j =>
          simp only [List.getElem?_cons_succ] at h
          simp only [List.eraseIdx_cons_succ, List.count_cons]
          have := ih j h
          omega

/-- Erasing the request at a position leaves the counts of the other kinds. -/
theorem count_eraseIdx_other (l : List TaskListKind) (i : Nat) (kind other : TaskListKind)
    (h : l[i]? = some kind) (hne : other ≠ kind) :
    (l.eraseIdx i).count other = l.count other := by
  induction l generalizing i with
  | nil => simp at h
  | cons a rest ih =>
      cases i with
      | zero =>
          simp only [List.getElem?_cons_zero, Option.some.injEq] at h
          subst h
          simp [List.count_cons, hne.symm]
      | succ j =>
          simp only [List.getElem?_cons_succ] at h
          simp only [List.eraseIdx_cons_succ, List.count_cons]
          rw [ih j h]

end Temporal

namespace Temporal
open TaskListKind

/-- A step of a run keeps the invariant and the sticky setting. -/
theorem pollerRun_step_counted (getWorkerTaskList : String → String)
    (getBinaryChecksum : String) (s s' : pollerRun) (step : pollerStep)
    (hinv : s.counted) (hstep : s.step getWorkerTaskList getBinaryChecksum step = some s') :
    s'.counted ∧ s'.wtp.disableStickyExecution = s.wtp.disableStickyExecution := by
  obtain ⟨⟨ns, tl, idn, uuid, dis, reg, st, back⟩, out⟩ := s
  cases dis
  · -- sticky execution enabled
    obtain ⟨hst, hreg, hkinds⟩ := hinv.1 rfl
    simp only [pollerRun.outstandingOf] at hst hreg hkinds
    cases step with
    | getNextPollRequest =>
        by_cases hsel : back > 0 ∨ st ≤ reg
        · simp only [pollerRun.step, workflowTaskPoller.getNextPollRequest, hsel,
            Option.some.injEq] at hstep
          subst hstep
          refine ⟨⟨fun _ => ⟨?_, ?_, ?_⟩, fun h => ?_⟩, ?_⟩
          · simp [pollerRun.outstandingOf, List.count_append, hst]
          · simp [pollerRun.outstandingOf, List.count_append, hreg]
          · intro kind hk
            simp at hk
            rcases hk with hk | hk
            · exact hkinds kind hk
            · exact Or.inl hk
          · simp at h
          · simp
        · simp only [pollerRun.step, workflowTaskPoller.getNextPollRequest, hsel,
            Option.some.injEq] at hstep
          subst hstep
          refine ⟨⟨fun _ => ⟨?_, ?_, ?_⟩, fun h => ?_⟩, ?_⟩
          · simp [pollerRun.outstandingOf, List.count_append, hst]
          · simp [pollerRun.outstandingOf, List.count_append, hreg]
          · intro kind hk
            simp at hk
            rcases hk with hk | hk
            · exact hkinds kind hk
            · exact Or.inr hk
          · simp at h
          · simp
    | release i =>
        simp only [pollerRun.step] at hstep
        cases hget : out[i]? with
        | none => simp [hget] at hstep
        | some kind =>
            simp only [hget, Option.some.injEq] at hstep
            subst hstep
            have hmem : kind ∈ out := List.mem_iff_getElem?.mpr ⟨i, hget⟩
            have hsub : ∀ k ∈ out.eraseIdx i, k = TASK_LIST_KIND_STICKY ∨ k = TASK_LIST_KIND_NORMAL :=
              fun k hk => hkinds k (List.mem_of_mem_eraseIdx hk)
            rcases hkinds kind hmem with hkind | hkind
            · subst hkind
              have h1 := count_eraseIdx_self out i _ hget
              have h2 := count_eraseIdx_other out i TASK_LIST_KIND_STICKY TASK_LIST_KIND_NORMAL
                hget (by decide)
              refine ⟨⟨fun _ => ⟨?_, ?_, hsub⟩, fun h => ?_⟩, ?_⟩
              · simp only [workflowTaskPoller.release, pollerRun.outstandingOf]
                simp
                omega
              · simp only [workflowTaskPoller.release, pollerRun.outstandingOf]
                simp
                omega
              · simp [workflowTaskPoller.release] at h
              · simp [workflowTaskPoller.release]
            · subst hkind
              have h1 := count_eraseIdx_self out i _ hget
              have h2 := count_eraseIdx_other out i TASK_LIST_KIND_NORMAL TASK_LIST_KIND_STICKY
                hget (by decide)
              refine ⟨⟨fun _ => ⟨?_, ?_, hsub⟩, fun h => ?_⟩, ?_⟩
              · simp only [workflowTaskPoller.release, pollerRun.outstandingOf]
                simp
                omega
              · simp only [workflowTaskPoller.release, pollerRun.outstandingOf]
                simp
                omega
              · simp [workflowTaskPoller.release] at h
              · simp [workflowTaskPoller.release]
    | updateBacklog taskListKind backlogCountHint =>
        simp only [pollerRun.step, Option.some.injEq] at hstep
        subst hstep
        by_cases hk : taskListKind = TASK_LIST_KIND_NORMAL
        · simp only [workflowTaskPoller.updateBacklog, hk]
          simp only [pollerRun.counted, pollerRun.outstandingOf]
          simp
          exact ⟨hst, hreg, hkinds⟩
        · simp only [workflowTaskPoller.updateBacklog, hk]
          simp only [pollerRun.counted, pollerRun.outstandingOf]
          simp
          exact ⟨hst, hreg, hkinds⟩
  · -- sticky execution disabled
    obtain ⟨hst, hreg, hkinds⟩ := hinv.2 rfl
    simp only at hst hreg hkinds
    cases step with
    | getNextPollRequest =>
        simp only [pollerRun.step, workflowTaskPoller.getNextPollRequest, Option.some.injEq]
          at hstep
        subst hstep
        simp only [pollerRun.counted]
        simp only [hst, hreg]
        simp
        intro kind hk
        rcases hk with hk | hk
        · exact hkinds kind hk
        · exact hk
    | release i =>
        simp only [pollerRun.step] at hstep
        cases hget : out[i]? with
        | none => simp [hget] at hstep
        | some kind =>
            simp only [hget, Option.some.injEq] at hstep
            subst hstep
            simp only [pollerRun.counted, workflowTaskPoller.release]
            simp only [hst, hreg]
            simp
            exact fun k hk => hkinds k (List.mem_of_mem_eraseIdx hk)
    | updateBacklog taskListKind backlogCountHint =>
        simp only [pollerRun.step, Option.some.injEq] at hstep
        subst hstep
        simp only [pollerRun.counted, workflowTaskPoller.updateBacklog]
        simp only [hst, hreg]
        simp
        exact hkinds

/-- A run keeps the invariant and the sticky setting. -/
theorem pollerRun_steps_counted (getWorkerTaskList : String → String)
    (getBinaryChecksum : String) (steps : List pollerStep) :
    ∀ s s' : pollerRun, s.counted →
      pollerRun.steps getWorkerTaskList getBinaryChecksum steps s = some s' →
      s'.counted ∧ s'.wtp.disableStickyExecution = s.wtp.disableStickyExecution := by
  induction steps with
  | nil =>
      intro s s' hinv hrun
      simp only [pollerRun.steps, Option.some.injEq] at hrun
      subst hrun
      exact ⟨hinv, rfl⟩
  | cons step rest ih =>
      intro s s' hinv hrun
      simp only [pollerRun.steps] at hrun
      cases hstep : s.step getWorkerTaskList getBinaryChecksum step with
      | none => simp [hstep] at hrun
      | some s1 =>
          simp only [hstep] at hrun
          obtain ⟨hinv1, hdis1⟩ :=
            pollerRun_step_counted getWorkerTaskList getBinaryChecksum s s1 step hinv hstep
          obtain ⟨hinv', hdis'⟩ := ih s1 s' hinv1 hrun
          exact ⟨hinv', hdis'.trans hdis1⟩

/-- Counterexample to C28 as stated. A fresh poller with sticky execution disabled issues one
request: the request is a normal one and is outstanding, and `pendingRegularPollCount` is 0, not
the number 1 of outstanding normal requests. -/
theorem disabled_poller_does_not_count :
    pollerFreshDisabled.pendingStickyPollCount = 0 ∧
    pollerFreshDisabled.pendingRegularPollCount = 0 ∧
    pollerRun.steps stickyName "sum" [.getNextPollRequest]
        { wtp := pollerFreshDisabled, outstanding := [] }
      = some { wtp := pollerFreshDisabled, outstanding := [TASK_LIST_KIND_NORMAL] } ∧
    pollerRun.outstandingOf { wtp := pollerFreshDisabled, outstanding := [TASK_LIST_KIND_NORMAL] }
      TASK_LIST_KIND_NORMAL = 1 ∧
    (pollerRun.mk pollerFreshDisabled [TASK_LIST_KIND_NORMAL]).wtp.pendingRegularPollCount = 0 := by
  decide

/-- C28, as amended. In every state reached from a poller with both pending counts 0 by a run of
`getNextPollRequest`, `updateBacklog` and `release` steps, each `release` for a request issued
and not yet released: with sticky execution enabled `pendingStickyPollCount` is the number of
outstanding sticky requests and `pendingRegularPollCount` the number of outstanding normal
requests; with sticky execution disabled both counts are 0, and every outstanding request is a
normal one; in both cases neither count is negative. -/
theorem pending_counts_track_outstanding (getWorkerTaskList : String → String)
    (getBinaryChecksum : String) (wtp : workflowTaskPoller) (steps : List pollerStep)
    (s : pollerRun)
    (hsticky : wtp.pendingStickyPollCount = 0) (hregular : wtp.pendingRegularPollCount = 0)
    (hrun : pollerRun.steps getWorkerTaskList getBinaryChecksum steps
      { wtp := wtp, outstanding := [] } = some s) :
    (wtp.disableStickyExecution = false →
      s.wtp.pendingStickyPollCount = s.outstandingOf TASK_LIST_KIND_STICKY ∧
      s.wtp.pendingRegularPollCount = s.outstandingOf TASK_LIST_KIND_NORMAL) ∧
    (wtp.disableStickyExecution = true →
      s.wtp.pendingStickyPollCount = 0 ∧ s.wtp.pendingRegularPollCount = 0 ∧
      s.outstandingOf TASK_LIST_KIND_NORMAL = s.outstanding.length) ∧
    0 ≤ s.wtp.pendingStickyPollCount ∧ 0 ≤ s.wtp.pendingRegularPollCount := by
  have hinit : (pollerRun.mk wtp []).counted := by
    simp [pollerRun.counted, pollerRun.outstandingOf, hsticky, hregular]
  obtain ⟨hinv, hdis⟩ := pollerRun_steps_counted getWorkerTaskList getBinaryChecksum steps
    { wtp := wtp, outstanding := [] } s hinit hrun
  simp only at hdis
  have hen : wtp.disableStickyExecution = false →
      s.wtp.pendingStickyPollCount = s.outstandingOf TASK_LIST_KIND_STICKY ∧
      s.wtp.pendingRegularPollCount = s.outstandingOf TASK_LIST_KIND_NORMAL := by
    intro h
    obtain ⟨h1, h2, -⟩ := hinv.1 (hdis.trans h)
    exact ⟨h1, h2⟩
  have hoff : wtp.disableStickyExecution = true →
      s.wtp.pendingStickyPollCount = 0 ∧ s.wtp.pendingRegularPollCount = 0 ∧
      s.outstandingOf TASK_LIST_KIND_NORMAL = s.outstanding.length := by
    intro h
    obtain ⟨h1, h2, h3⟩ := hinv.2 (hdis.trans h)
    refine ⟨h1, h2, ?_⟩
    simp only [pollerRun.outstandingOf]
    rw [List.count_eq_length.mpr (fun k hk => (h3 k hk).symm)]
  refine ⟨hen, hoff, ?_, ?_⟩
  · cases h : wtp.disableStickyExecution
    · rw [(hen h).1]; simp [pollerRun.outstandingOf]
    · rw [(hoff h).1]
  · cases h : wtp.disableStickyExecution
    · rw [(hen h).2]; simp [pollerRun.outstandingOf]
    · rw [(hoff h).2.1]

/-- Witness of C28 as amended: a fresh poller with sticky execution enabled issues three
requests, learns of a backlog, releases its normal request and issues a fourth request. Three
sticky requests are outstanding then and no normal one. -/
theorem pending_counts_track_outstanding_witness :
    (pollerRun.mk
        { pollerFresh with pendingStickyPollCount := 3, stickyBacklog := 5 }
        [TASK_LIST_KIND_STICKY, TASK_LIST_KIND_STICKY, TASK_LIST_KIND_STICKY]
      ).wtp.pendingStickyPollCount
      = pollerRun.outstandingOf
          (pollerRun.mk
            { pollerFresh with pendingStickyPollCount := 3, stickyBacklog := 5 }
            [TASK_LIST_KIND_STICKY, TASK_LIST_KIND_STICKY, TASK_LIST_KIND_STICKY])
          TASK_LIST_KIND_STICKY :=
  ((pending_counts_track_outstanding stickyName "sum" pollerFresh sampleSteps
    (pollerRun.mk
      { pollerFresh with pendingStickyPollCount := 3, stickyBacklog := 5 }
      [TASK_LIST_KIND_STICKY, TASK_LIST_KIND_STICKY, TASK_LIST_KIND_STICKY])
    rfl rfl (by decide)).1 rfl).1

/-- The sample run, evaluated. -/
theorem sampleSteps_evaluated :
    pollerRun.steps stickyName "sum" sampleSteps { wtp := pollerFresh, outstanding := [] }
      = some
          { wtp := { pollerFresh with pendingStickyPollCount := 3, stickyBacklog := 5 },
            outstanding :=
              [TASK_LIST_KIND_STICKY, TASK_LIST_KIND_STICKY, TASK_LIST_KIND_STICKY] } ∧
    pollerRun.steps stickyName "sum" [.getNextPollRequest, .release 1]
        { wtp := pollerFresh, outstanding := [] } = none := by
  decide

end Temporal

namespace Temporal
open TaskListKind

/-- Counterexample to C21 as stated. With a schedule-to-close timeout of 10 s and a
start-to-close timeout of 0 the timeout applied is 10 s, not the minimum 0 of the two. -/
theorem zero_startToClose_timeout_ignored :
    sampleLocalActivity.params.ScheduleToCloseTimeoutSeconds = 10 ∧
    sampleLocalActivity.params.StartToCloseTimeoutSeconds = 0 ∧
    localActivityTimeout sampleLocalActivity = 10 ∧
    min sampleLocalActivity.params.ScheduleToCloseTimeoutSeconds
      sampleLocalActivity.params.StartToCloseTimeoutSeconds = 0 ∧
    localActivityDeadline 100000000000 sampleLocalActivity = 110000000000 := by
  decide

/-- C21, as amended. The timeout that `executeLocalActivityTask` applies is the minimum of
`ScheduleToCloseTimeoutSeconds` and `StartToCloseTimeoutSeconds` when the latter is not 0, and
`ScheduleToCloseTimeoutSeconds` when it is 0. The deadline of the context that is derived, the
first step of the execution, is `now` plus that timeout in seconds, or else `expireTime`; it is
`now` plus the timeout whenever the task is not a retry, has a zero `expireTime`, or expires no
earlier than that. -/
theorem localActivity_timeout (errs : localActivityErrors) (now : Time)
    (ExecuteWithActualArgs : Time → List (List Nat) → Option (List (List Nat)) × Option GoError)
    (wait : waitOutcome) (task : localActivityTask) :
    (task.params.StartToCloseTimeoutSeconds ≠ 0 →
      localActivityTimeout task
        = min task.params.ScheduleToCloseTimeoutSeconds
            task.params.StartToCloseTimeoutSeconds) ∧
    (task.params.StartToCloseTimeoutSeconds = 0 →
      localActivityTimeout task = task.params.ScheduleToCloseTimeoutSeconds) ∧
    (localActivityDeadline now task = now + localActivityTimeout task * Second ∨
      localActivityDeadline now task = task.expireTime) ∧
    (task.attempt ≤ 0 ∨ task.expireTime = 0 ∨
        now + localActivityTimeout task * Second ≤ task.expireTime →
      localActivityDeadline now task = now + localActivityTimeout task * Second) ∧
    (localActivityTaskHandler.executeLocalActivityTask errs now ExecuteWithActualArgs wait
        task).2.head? = some (.contextWithDeadline (localActivityDeadline now task)) := by
  refine ⟨?_, ?_, ?_, ?_, ?_⟩
  · intro hne
    unfold localActivityTimeout
    simp only [hne, ne_eq, not_false_eq_true, true_and]
    split <;> omega
  · intro hz
    simp [localActivityTimeout, hz]
  · unfold localActivityDeadline Time.Add
    simp only
    split
    · exact Or.inr rfl
    · exact Or.inl rfl
  · intro h
    unfold localActivityDeadline Time.Add Time.IsZero Time.Before
    simp only
    rw [if_neg]
    simp only [decide_eq_true_eq, not_and, not_not, not_lt]
    intro hattempt hexp
    rcases h with h | h | h
    · omega
    · exact absurd h hexp
    · exact h
  · unfold localActivityTaskHandler.executeLocalActivityTask
    simp only
    split
    · rfl
    · cases wait <;> rfl

/-- Witness of C21 as amended: timeouts of 10 s and 4 s give 4 s. -/
theorem localActivity_timeout_witness :
    localActivityTimeout retriedLocalActivity
      = min retriedLocalActivity.params.ScheduleToCloseTimeoutSeconds
          retriedLocalActivity.params.StartToCloseTimeoutSeconds :=
  (localActivity_timeout sampleErrors 100000000000 echoActivity .done retriedLocalActivity).1
    (by decide)

/-- C22. In `executeLocalActivityTask` the deadline is the earlier of `now` plus the timeout and
the task's `expireTime` when the task is a retry (`attempt > 0`) and `expireTime` is not zero; it
is `now` plus the timeout on the first attempt and with a zero `expireTime`. So the deadline is
never later than `now` plus the timeout, and on a retry with a set `expireTime` never later than
`expireTime`. -/
theorem localActivity_deadline (now : Time) (task : localActivityTask) :
    (task.attempt > 0 → task.expireTime ≠ 0 →
      localActivityDeadline now task
        = min (now + localActivityTimeout task * Second) task.expireTime) ∧
    (task.attempt = 0 ∨ task.expireTime = 0 →
      localActivityDeadline now task = now + localActivityTimeout task * Second) ∧
    localActivityDeadline now task ≤ now + localActivityTimeout task * Second ∧
    (task.attempt > 0 → task.expireTime ≠ 0 →
      localActivityDeadline now task ≤ task.expireTime) := by
  unfold localActivityDeadline Time.Add Time.IsZero Time.Before
  simp only [decide_eq_true_eq]
  refine ⟨?_, ?_, ?_, ?_⟩
  · intro hattempt hexp
    split
    · rename_i h; rw [min_eq_right (le_of_lt h.2.2)]
    · rename_i h
      have : ¬ task.expireTime < now + localActivityTimeout task * Second :=
        fun hlt => h ⟨hattempt, hexp, hlt⟩
      rw [min_eq_left (not_lt.mp this)]
  · intro h
    rw [if_neg]
    rintro ⟨hattempt, hexp, -⟩
    rcases h with h | h
    · omega
    · exact hexp h
  · split
    · rename_i h; exact le_of_lt h.2.2
    · exact le_refl _
  · intro hattempt hexp
    split
    · exact le_refl _
    · rename_i h
      exact not_lt.mp (fun hlt => h ⟨hattempt, hexp, hlt⟩)

/-- Witness of C22: a second attempt at the instant 100 s with a timeout of 4 s that expires at
102 s has the deadline 102 s. -/
theorem localActivity_deadline_witness :
    localActivityDeadline 100000000000 retriedLocalActivity
      = min (100000000000 + localActivityTimeout retriedLocalActivity * Second)
          retriedLocalActivity.expireTime :=
  (localActivity_deadline 100000000000 retriedLocalActivity).1 (by decide) (by decide)

/-- Timeouts and deadlines evaluated on the sample tasks. -/
theorem deadline_samples_evaluated :
    localActivityTimeout retriedLocalActivity = 4 ∧
    localActivityDeadline 100000000000 retriedLocalActivity = 102000000000 ∧
    localActivityDeadline 95000000000 retriedLocalActivity = 99000000000 ∧
    localActivityDeadline 100000000000 { retriedLocalActivity with attempt := 0 }
      = 104000000000 := by
  decide

end Temporal

namespace Temporal
open TaskListKind

/-- C23. For a local activity task whose `canceled` flag is set when `executeLocalActivityTask`
reaches its locked check, the result has the error `ErrCanceled`, a nil payload and the task as
it was, so that `cancelFunc` is unchanged; the user function is not started, and the result does
not depend on the user function nor on how a wait would end. For a task whose flag is not set,
the cancel function of the context is recorded on the task, and it is recorded before the user
function is started. -/
theorem localActivity_canceled_check (errs : localActivityErrors) (now : Time)
    (ExecuteWithActualArgs : Time → List (List Nat) → Option (List (List Nat)) × Option GoError)
    (wait : waitOutcome) (task : localActivityTask) :
    (task.canceled = true →
      (localActivityTaskHandler.executeLocalActivityTask errs now ExecuteWithActualArgs wait
          task).1
        = { result := none, err := some errs.ErrCanceled, task := task, backoff := 0 } ∧
      (localActivityTaskHandler.executeLocalActivityTask errs now ExecuteWithActualArgs wait
          task).1.task.cancelFunc = task.cancelFunc ∧
      (∀ deadline args, localActivityEvent.activityStarted deadline args ∉
        (localActivityTaskHandler.executeLocalActivityTask errs now ExecuteWithActualArgs wait
          task).2) ∧
      (∀ cancel, localActivityEvent.cancelFuncRecorded cancel ∉
        (localActivityTaskHandler.executeLocalActivityTask errs now ExecuteWithActualArgs wait
          task).2) ∧
      (∀ otherFunction otherWait,
        localActivityTaskHandler.executeLocalActivityTask errs now otherFunction otherWait task
          = localActivityTaskHandler.executeLocalActivityTask errs now ExecuteWithActualArgs
              wait task)) ∧
    (task.canceled = false →
      (localActivityTaskHandler.executeLocalActivityTask errs now ExecuteWithActualArgs wait
          task).1.task
        = { task with cancelFunc := some { deadline := localActivityDeadline now task } } ∧
      (localActivityTaskHandler.executeLocalActivityTask errs now ExecuteWithActualArgs wait
          task).2
        = [.contextWithDeadline (localActivityDeadline now task),
           .cancelFuncRecorded { deadline := localActivityDeadline now task },
           .activityStarted (localActivityDeadline now task) task.params.InputArgs,
           .cancelCalled { deadline := localActivityDeadline now task }]) := by
  constructor
  · intro hc
    simp [localActivityTaskHandler.executeLocalActivityTask, hc]
  · intro hc
    unfold localActivityTaskHandler.executeLocalActivityTask
    simp only [hc]
    cases wait <;> simp

/-- Witness of C23: a task cancelled before its execution. -/
theorem localActivity_canceled_check_witness :
    (localActivityTaskHandler.executeLocalActivityTask sampleErrors 100000000000 echoActivity
        .done canceledLocalActivity).1
      = { result := none, err := some sampleErrors.ErrCanceled, task := canceledLocalActivity,
          backoff := 0 } :=
  ((localActivity_canceled_check sampleErrors 100000000000 echoActivity .done
    canceledLocalActivity).1 rfl).1

/-- Local activities evaluated: a task that is not cancelled runs and returns the result of the
user function; a cancelled task does not run. -/
theorem localActivity_evaluated :
    localActivityTaskHandler.executeLocalActivityTask sampleErrors 100000000000 echoActivity
        .done sampleLocalActivity
      = ({ result := some [[1]], err := none,
           task := { sampleLocalActivity with cancelFunc := some { deadline := 110000000000 } },
           backoff := 0 },
         [.contextWithDeadline 110000000000, .cancelFuncRecorded { deadline := 110000000000 },
          .activityStarted 110000000000 [[1]], .cancelCalled { deadline := 110000000000 }]) ∧
    localActivityTaskHandler.executeLocalActivityTask sampleErrors 100000000000 echoActivity
        .done canceledLocalActivity
      = ({ result := none, err := some (.CanceledError []), task := canceledLocalActivity,
           backoff := 0 },
         [.contextWithDeadline 110000000000, .cancelCalled { deadline := 110000000000 }]) := by
  decide

/-- Counterexample to C24 as stated. The stop channel has fired. `PollTask` of the local
activity poller returns a nil task and a nil error, not `errStop`, when no task is queued; and
when a task is queued and the `select` takes it, it returns the task and a nil error. -/
theorem localActivity_PollTask_no_errStop :
    localActivityTaskPoller.PollTask { taskCh := [], stopCh := true } false
      = some ((none, none), { taskCh := [], stopCh := true }) ∧
    localActivityTaskPoller.PollTask { taskCh := [sampleLocalActivity], stopCh := true } false
      = some ((some sampleLocalActivity, none), { taskCh := [], stopCh := true }) := by
  decide

/-- C24, as amended. When the worker stop channel has fired: `doPoll` returns `errStop` without
invoking the poll function, whatever it is, and so do `PollTask` of the workflow poller and of
the activity poller, whose poller state and requests sent are what they were; `ProcessTask` of
the workflow poller, of the activity poller and of the local activity poller return `errStop`
without invoking the task handler: no state is changed, no call is issued, no step of a local
activity is taken and no result is sent. `PollTask` of the local activity poller returns a nil
error whenever it returns, and a nil task when no task is queued. -/
theorem stop_returns_errStop {σ α τ F : Type} (stopFirst : Bool)
    (pollFunc : σ → (Option α × Option GoError) × σ) (s : σ)
    (getWorkerTaskList : String → String) (getBinaryChecksum : String)
    (service : WorkflowServiceClient) (wtp : workflowTaskPoller)
    (PollForActivityTask :
      PollForActivityTaskRequest F → Except GoError (Option PollForActivityTaskResponse))
    (activitiesPerSecond : F) (atp : activityTaskPoller)
    (calls : List (PollForActivityTaskRequest F))
    (processWorkflowTask : workflowTask → τ → Option GoError × τ)
    (processResetStickinessTask : resetStickinessTask → τ → Option GoError × τ)
    (workflowTask : workflowPollerTask) (t : τ)
    (isServiceTransientError : GoError → Bool) (maxRetries : Nat)
    (Execute : String → PollForActivityTaskResponse →
      Option activityRespondRequest × Option GoError)
    (stoppingBeforeReport : Bool) (activityTask : activityTask)
    (errs : localActivityErrors) (now : Time)
    (ExecuteWithActualArgs : Time → List (List Nat) → Option (List (List Nat)) × Option GoError)
    (wait : waitOutcome) (receiverDone : Bool) (localActivityTask : localActivityTask)
    (laTunnel : localActivityTunnel) (takeStop : Bool) :
    basePoller.doPoll { stopC := true } stopFirst pollFunc s = ((none, some .errStop), s) ∧
    wtp.PollTask getWorkerTaskList getBinaryChecksum service { stopC := true } stopFirst
      = ((none, some .errStop), wtp) ∧
    atp.PollTask PollForActivityTask activitiesPerSecond { stopC := true } stopFirst calls
      = ((none, some .errStop), calls) ∧
    workflowTaskPoller.ProcessTask { stopC := true } processWorkflowTask
        processResetStickinessTask workflowTask t = .ok (some .errStop, t) ∧
    atp.ProcessTask isServiceTransientError maxRetries service Execute true stoppingBeforeReport
        activityTask = .ok (some .errStop, []) ∧
    localActivityTaskPoller.ProcessTask { stopC := true } errs now ExecuteWithActualArgs wait
        receiverDone localActivityTask = (some .errStop, [], none) ∧
    (∀ result, localActivityTaskPoller.PollTask laTunnel takeStop = some result →
      result.1.2 = none) ∧
    (laTunnel.stopCh = true → laTunnel.taskCh = [] →
      localActivityTaskPoller.PollTask laTunnel takeStop = some ((none, none), laTunnel)) := by
  refine ⟨rfl, rfl, rfl, rfl, rfl, rfl, ?_, ?_⟩
  · intro result hres
    unfold localActivityTaskPoller.PollTask at hres
    cases hget : laTunnel.getTask takeStop with
    | none => simp [hget] at hres
    | some r =>
        obtain ⟨task, tunnel⟩ := r
        simp only [hget, Option.some.injEq] at hres
        rw [← hres]
  · intro hstop hempty
    simp [localActivityTaskPoller.PollTask, localActivityTunnel.getTask, hstop, hempty]

/-- Witness of C24 as amended: a poll function that counts its invocations is not invoked, and
`PollTask` of the local activity poller with no task queued returns a nil task and a nil
error. -/
theorem stop_returns_errStop_witness :
    basePoller.doPoll { stopC := true } false countingPoll 0 = ((none, some .errStop), 0) ∧
    localActivityTaskPoller.PollTask { taskCh := [], stopCh := true } false
      = some ((none, none), { taskCh := [], stopCh := true }) :=
  ⟨(stop_returns_errStop false countingPoll 0 stickyName "sum" sampleService pollerTie
      sampleActivityPoll 10 sampleActivityPoller [] (fun _ (n : Nat) => (none, n + 1))
      (fun _ (n : Nat) => (none, n + 1)) .unknown 0 (fun _ => true) 3 pendingExecute false
      { task := some sampleActivityTask } sampleErrors 100000000000 echoActivity .done false
      sampleLocalActivity { taskCh := [], stopCh := true } false).1,
   (stop_returns_errStop false countingPoll 0 stickyName "sum" sampleService pollerTie
      sampleActivityPoll 10 sampleActivityPoller [] (fun _ (n : Nat) => (none, n + 1))
      (fun _ (n : Nat) => (none, n + 1)) .unknown 0 (fun _ => true) 3 pendingExecute false
      { task := some sampleActivityTask } sampleErrors 100000000000 echoActivity .done false
      sampleLocalActivity { taskCh := [], stopCh := true } false).2.2.2.2.2.2.2 rfl rfl⟩

/-- Polling evaluated with the stop channel open: the poll function is invoked, and `errStop`
is returned only when the stop channel fires during the poll. -/
theorem doPoll_evaluated :
    basePoller.doPoll { stopC := false } false countingPoll 0 = ((none, none), 1) ∧
    basePoller.doPoll { stopC := false } true countingPoll 0 = ((none, some .errStop), 1) ∧
    sampleActivityPoller.PollTask sampleActivityPoll 10 { stopC := false } false []
      = ((some { task := some sampleActivityTask }, none),
         [{ Namespace := "default",
            TaskList := { Name := "tl", Kind := TASK_LIST_KIND_UNSPECIFIED },
            Identity := "worker-1", MaxTasksPerSecond := 10 }]) :=
  ⟨rfl, rfl, rfl⟩

end Temporal

/-! ## Theorems: the sticky timeout in whole seconds -/

namespace Temporal
open TaskListKind

/-- A whole number is rounded to itself. -/
theorem roundHalfEven_intCast (n : Int) : roundHalfEven (n : ℚ) = n := by
  simp [roundHalfEven]

/-- Rounding does not pass a whole number from below. -/
theorem roundHalfEven_le (y : ℚ) (N : Int) (h : y ≤ N) : roundHalfEven y ≤ N := by
  have hfl : ⌊y⌋ ≤ N := by
    have : (⌊y⌋ : ℚ) ≤ N := le_trans (Int.floor_le y) h
    exact_mod_cast this
  have hstep : 0 < y - ⌊y⌋ → ⌊y⌋ + 1 ≤ N := by
    intro hpos
    have : (⌊y⌋ : ℚ) < N := by linarith
    have : ⌊y⌋ < N := by exact_mod_cast this
    omega
  unfold roundHalfEven
  split
  · exact hfl
  · rename_i h1
    split
    · rename_i h2
      exact hstep (by linarith)
    · split
      · exact hfl
      · exact hstep (by linarith)

/-- A number more than a half above a whole number is rounded above that whole number. -/
theorem lt_roundHalfEven (y : ℚ) (M : Int) (h : (M : ℚ) + 1 / 2 < y) :
    M + 1 ≤ roundHalfEven y := by
  have hy := Int.lt_floor_add_one y
  have hM : M ≤ ⌊y⌋ := Int.le_floor.mpr (by linarith)
  have hlow : y - ⌊y⌋ ≤ 1 / 2 → M + 1 ≤ ⌊y⌋ := by
    intro hfrac
    have : (M : ℚ) < ⌊y⌋ := by linarith
    have : M < ⌊y⌋ := by exact_mod_cast this
    omega
  unfold roundHalfEven
  split
  · rename_i h1
    exact hlow (le_of_lt h1)
  · rename_i h1
    split
    · omega
    · rename_i h2
      split
      · exact hlow (le_of_not_lt h2)
      · omega

/-- Rounding lowers a number by a half at most. -/
theorem sub_half_le_roundHalfEven (y : ℚ) : y - 1 / 2 ≤ roundHalfEven y := by
  have hy := Int.lt_floor_add_one y
  have hy' := Int.floor_le y
  unfold roundHalfEven
  split
  · rename_i h1; linarith
  · rename_i h1
    split
    · push_cast; linarith
    · rename_i h2
      split
      · linarith
      · push_cast; linarith


/-- The `float64` nearest to a positive number, by the number of binary digits behind the
point that its significand has. -/
theorem float64Round_pos_eq (x : ℚ) (hx : 0 < x) (k : ℕ) (hk : Int.log 2 x = 52 - (k : Int)) :
    float64Round x = (roundHalfEven (x * 2 ^ k) : ℚ) / 2 ^ k := by
  have hu : float64Ulp x = ((2 : ℚ) ^ k)⁻¹ := by
    unfold float64Ulp
    rw [abs_of_pos hx, hk]
    have : (52 : Int) - k - 52 = -(k : Int) := by omega
    rw [this, zpow_neg, zpow_natCast]
  unfold float64Round
  rw [if_neg (ne_of_gt hx), hu, div_inv_eq_mul, div_eq_mul_inv]

/-- The `float64` nearest to a positive number below `2^L`: its significand has more than
`52 - L` binary digits behind the point. -/
theorem float64Round_exists (x : ℚ) (hx : 0 < x) (L : Int) (hL : x < (2 : ℚ) ^ L) (hL52 : L ≤ 53) :
    ∃ k : ℕ, (52 : Int) - L < k ∧ Int.log 2 x = 52 - (k : Int) ∧
      float64Round x = (roundHalfEven (x * 2 ^ k) : ℚ) / 2 ^ k := by
  have hlog : Int.log 2 x < L := by
    have := (Int.lt_zpow_iff_log_lt (b := 2) (by norm_num) (x := L) hx).mp (by exact_mod_cast hL)
    exact this
  refine ⟨(52 - Int.log 2 x).toNat, ?_, ?_, ?_⟩
  · rw [Int.toNat_of_nonneg (by omega)]; omega
  · rw [Int.toNat_of_nonneg (by omega)]; omega
  · exact float64Round_pos_eq x hx _ (by rw [Int.toNat_of_nonneg (by omega)]; omega)

/-- Every integer of at most 53 binary digits is a `float64`. -/
theorem float64Round_intCast (n : Int) (h0 : 0 ≤ n) (hn : n < 9007199254740992) :
    float64Round (n : ℚ) = n := by
  rcases eq_or_lt_of_le h0 with h | hpos
  · rw [← h]; simp [float64Round]
  · have hx : (0 : ℚ) < n := by exact_mod_cast hpos
    have hlt : (n : ℚ) < (2 : ℚ) ^ (53 : Int) := by
      have : (n : ℚ) < 9007199254740992 := by exact_mod_cast hn
      norm_num
      exact this
    obtain ⟨k, -, -, hr⟩ := float64Round_exists (n : ℚ) hx 53 hlt (le_refl _)
    rw [hr]
    have : (n : ℚ) * 2 ^ k = ((n * 2 ^ k : Int) : ℚ) := by push_cast; ring
    rw [this, roundHalfEven_intCast]
    push_cast
    field_simp


/-- The quotient of a number of nanoseconds below a second by `1e9`, as a `float64`: at most 1
and more than `2^-30`. -/
theorem float64Round_fraction (nsec : Int) (h1 : 1 ≤ nsec) (h2 : nsec < 1000000000) :
    (1 : ℚ) / 1073741824 < float64Round ((nsec : ℚ) / 1000000000) ∧
      float64Round ((nsec : ℚ) / 1000000000) ≤ 1 := by
  have hn1 : (1 : ℚ) ≤ nsec := by exact_mod_cast h1
  have hn2 : (nsec : ℚ) < 1000000000 := by exact_mod_cast h2
  have hq0 : (0 : ℚ) < (nsec : ℚ) / 1000000000 := by positivity
  have hqlow : (1 : ℚ) / 1000000000 ≤ (nsec : ℚ) / 1000000000 := by
    apply div_le_div_of_nonneg_right hn1 (by norm_num)
  have hq1 : (nsec : ℚ) / 1000000000 < (2 : ℚ) ^ (0 : Int) := by
    rw [zpow_zero, div_lt_one (by norm_num)]
    exact hn2
  obtain ⟨k, hk, hlog, hr⟩ := float64Round_exists _ hq0 0 hq1 (by norm_num)
  have hpow : (0 : ℚ) < 2 ^ k := by positivity
  rw [hr]
  constructor
  · -- the lower bound
    have hle := Int.zpow_log_le_self (b := 2) (by norm_num) hq0
    rw [hlog] at hle
    have hsplit : ((2 : ℕ) : ℚ) ^ ((52 : Int) - k) = 4503599627370496 / 2 ^ k := by
      rw [zpow_sub₀ (by norm_num), zpow_natCast]
      norm_num
    rw [hsplit, div_le_iff₀ hpow] at hle
    have hround := sub_half_le_roundHalfEven ((nsec : ℚ) / 1000000000 * 2 ^ k)
    rw [lt_div_iff₀ hpow]
    have hbig : (1 : ℚ) / 1000000000 * 2 ^ k ≤ (nsec : ℚ) / 1000000000 * 2 ^ k :=
      mul_le_mul_of_nonneg_right hqlow (le_of_lt hpow)
    have hk53 : (2 : ℚ) ^ 53 ≤ 2 ^ k := by
      apply pow_le_pow_right₀ (by norm_num)
      omega
    nlinarith
  · -- the upper bound
    rw [div_le_one hpow]
    have hcast : ((2 : ℚ) ^ k) = (((2 : Int) ^ k : Int) : ℚ) := by push_cast; rfl
    rw [hcast]
    have : roundHalfEven ((nsec : ℚ) / 1000000000 * (((2 : Int) ^ k : Int) : ℚ))
        ≤ (2 : Int) ^ k := by
      apply roundHalfEven_le
      have : (nsec : ℚ) / 1000000000 ≤ 1 := by
        rw [div_le_one (by norm_num)]; exact le_of_lt hn2
      push_cast
      nlinarith
    exact_mod_cast this


/-- The sum of a whole number of seconds below `2^24` and a fraction between `2^-30` and 1, as a
`float64`: above the whole number and at most one more. -/
theorem float64Round_sum (sec : Int) (f : ℚ) (h0 : 0 ≤ sec) (hsec : sec < 16777216)
    (hf : (1 : ℚ) / 1073741824 < f) (hf1 : f ≤ 1) :
    (sec : ℚ) < float64Round (sec + f) ∧ float64Round (sec + f) ≤ ((sec + 1 : Int) : ℚ) := by
  have hs0 : (0 : ℚ) ≤ sec := by exact_mod_cast h0
  have hs1 : (sec : ℚ) + 1 ≤ 16777216 := by
    have : sec + 1 ≤ 16777216 := by omega
    exact_mod_cast this
  rcases eq_or_lt_of_le hf1 with h1 | hlt
  · -- the fraction is 1: the sum is a whole number
    rw [h1]
    have : (sec : ℚ) + 1 = ((sec + 1 : Int) : ℚ) := by push_cast; rfl
    rw [this, float64Round_intCast (sec + 1) (by omega) (by omega)]
    constructor
    · push_cast; linarith
    · exact le_refl _
  · have hx0 : (0 : ℚ) < sec + f := by linarith
    have hx24 : (sec : ℚ) + f < (2 : ℚ) ^ (24 : Int) := by
      norm_num
      linarith
    obtain ⟨k, hk, -, hr⟩ := float64Round_exists _ hx0 24 hx24 (by norm_num)
    have hpow : (0 : ℚ) < 2 ^ k := by positivity
    have hk29 : (2 : ℚ) ^ 29 ≤ 2 ^ k := by
      apply pow_le_pow_right₀ (by norm_num)
      omega
    have hcast : ((2 : ℚ) ^ k) = (((2 : Int) ^ k : Int) : ℚ) := by push_cast; rfl
    rw [hr]
    constructor
    · rw [lt_div_iff₀ hpow]
      have hlow : sec * 2 ^ k + 1 ≤ roundHalfEven (((sec : ℚ) + f) * 2 ^ k) := by
        apply lt_roundHalfEven
        push_cast
        nlinarith
      have : ((sec * 2 ^ k + 1 : Int) : ℚ) ≤ roundHalfEven (((sec : ℚ) + f) * 2 ^ k) := by
        exact_mod_cast hlow
      push_cast at this
      linarith
    · rw [div_le_iff₀ hpow]
      have hup : roundHalfEven (((sec : ℚ) + f) * 2 ^ k) ≤ (sec + 1) * 2 ^ k := by
        apply roundHalfEven_le
        push_cast
        nlinarith
      have : (roundHalfEven (((sec : ℚ) + f) * 2 ^ k) : ℚ) ≤ (((sec + 1) * 2 ^ k : Int) : ℚ) := by
        exact_mod_cast hup
      push_cast at this ⊢
      linarith

/-- `Int32Ceil` of `Seconds()` with the operations of `goFloat64`, unfolded. -/
theorem Int32Ceil_goFloat64 (d : Int) :
    Int32Ceil goFloat64 (goFloat64.Seconds d) = float64ToInt (mathCeil (Duration.Seconds d)) :=
  rfl

/-- For a duration from 0 to below `2^24` seconds, `Int32Ceil` of its `Seconds()` is the number
of seconds rounded up to a whole number. -/
theorem Int32Ceil_Seconds (d : Int) (h0 : 0 ≤ d) (hd : d < 16777216000000000) :
    Int32Ceil goFloat64 (goFloat64.Seconds d) = (d + 999999999) / 1000000000 := by
  have hdiv : d.tdiv 1000000000 = d / 1000000000 := Int.tdiv_eq_ediv h0 (by norm_num)
  have hmod : d.tmod 1000000000 = d % 1000000000 := Int.tmod_eq_emod h0 (by norm_num)
  have hsec0 : 0 ≤ d / 1000000000 := by omega
  have hsec : d / 1000000000 < 16777216 := by omega
  have hn0 : 0 ≤ d % 1000000000 := by omega
  have hn1 : d % 1000000000 < 1000000000 := by omega
  rw [Int32Ceil_goFloat64]
  unfold Duration.Seconds
  simp only [hdiv, hmod]
  rw [float64Round_intCast _ hsec0 (by omega), float64Round_intCast _ hn0 (by omega)]
  rcases eq_or_lt_of_le hn0 with hz | hpos
  · -- a whole number of seconds
    rw [← hz]
    have hzero : float64Round (((0 : Int) : ℚ) / 1000000000) = 0 := by simp [float64Round]
    rw [hzero, add_zero, float64Round_intCast _ hsec0 (by omega)]
    have : float64ToInt (mathCeil ((d / 1000000000 : Int) : ℚ)) = d / 1000000000 := by
      simp [float64ToInt, mathCeil, hsec0]
    rw [this]
    omega
  · obtain ⟨hf, hf1⟩ := float64Round_fraction (d % 1000000000) (by omega) hn1
    obtain ⟨hlow, hup⟩ := float64Round_sum (d / 1000000000) _ hsec0 hsec hf hf1
    have hceil : ⌈float64Round (((d / 1000000000 : Int) : ℚ) +
        float64Round (((d % 1000000000 : Int) : ℚ) / 1000000000))⌉ = d / 1000000000 + 1 := by
      rw [Int.ceil_eq_iff]
      constructor
      · push_cast; linarith
      · exact hup
    have : float64ToInt (mathCeil (float64Round (((d / 1000000000 : Int) : ℚ) +
        float64Round (((d % 1000000000 : Int) : ℚ) / 1000000000)))) = d / 1000000000 + 1 := by
      unfold mathCeil
      rw [hceil]
      have h1 : (0 : ℚ) ≤ ((d / 1000000000 + 1 : Int) : ℚ) := by
        have : (0 : Int) ≤ d / 1000000000 + 1 := by omega
        exact_mod_cast this
      simp only [float64ToInt, h1, if_true, Int.floor_intCast]
    rw [this]
    omega

/-- A timeout of 4.2 s gives 5, one of 5 s gives 5, one of a nanosecond gives 1. -/
theorem Int32Ceil_Seconds_samples :
    Int32Ceil goFloat64 (goFloat64.Seconds 4200000000) = 5 ∧
    Int32Ceil goFloat64 (goFloat64.Seconds 5000000000) = 5 ∧
    Int32Ceil goFloat64 (goFloat64.Seconds 1) = 1 ∧
    Int32Ceil goFloat64 (goFloat64.Seconds 0) = 0 := by
  refine ⟨?_, ?_, ?_, ?_⟩ <;>
    (rw [Int32Ceil_Seconds _ (by norm_num) (by norm_num)]; norm_num)


/-- A number less than a half above a whole number is not rounded above it. -/
theorem roundHalfEven_le_of_lt (y : ℚ) (N : Int) (h : y < (N : ℚ) + 1 / 2) :
    roundHalfEven y ≤ N := by
  have hy' := Int.floor_le y
  have hfl : ⌊y⌋ ≤ N := by
    have : (⌊y⌋ : ℚ) < (N : ℚ) + 1 := by linarith
    have : ⌊y⌋ < N + 1 := by exact_mod_cast this
    omega
  have hstep : 1 / 2 ≤ y - ⌊y⌋ → ⌊y⌋ + 1 ≤ N := by
    intro hfrac
    have : (⌊y⌋ : ℚ) < N := by linarith
    have : ⌊y⌋ < N := by exact_mod_cast this
    omega
  unfold roundHalfEven
  split
  · exact hfl
  · rename_i h1
    split
    · exact hstep (le_of_not_lt h1)
    · split
      · exact hfl
      · exact hstep (le_of_not_lt h1)

/-- Rounding raises a number by a half at most. -/
theorem roundHalfEven_le_add_half (y : ℚ) : (roundHalfEven y : ℚ) ≤ y + 1 / 2 := by
  have hy' := Int.floor_le y
  unfold roundHalfEven
  split
  · linarith
  · rename_i h1
    split
    · push_cast; linarith
    · rename_i h2
      split
      · linarith
      · push_cast; linarith

/-- Beyond `2^24` seconds a `float64` no longer tells a nanosecond: a duration of `2^24` seconds
and a nanosecond has `Seconds()` equal to `2^24`, and `Int32Ceil` of it is `2^24`, one less than
the number of seconds rounded up. -/
theorem Int32Ceil_Seconds_beyond :
    Int32Ceil goFloat64 (goFloat64.Seconds 16777216000000001) = 16777216 ∧
    ((16777216000000001 : Int) + 999999999) / 1000000000 = 16777217 := by
  refine ⟨?_, by norm_num⟩
  rw [Int32Ceil_goFloat64]
  have hdiv : (16777216000000001 : Int).tdiv 1000000000 = 16777216 := by
    rw [Int.tdiv_eq_ediv (by norm_num) (by norm_num)]; norm_num
  have hmod : (16777216000000001 : Int).tmod 1000000000 = 1 := by
    rw [Int.tmod_eq_emod (by norm_num) (by norm_num)]; norm_num
  unfold Duration.Seconds
  simp only [hdiv, hmod]
  rw [float64Round_intCast _ (by norm_num) (by norm_num),
    float64Round_intCast _ (by norm_num) (by norm_num)]
  -- the fraction is at most 2^-29
  have hq0 : (0 : ℚ) < ((1 : Int) : ℚ) / 1000000000 := by norm_num
  have hq1 : ((1 : Int) : ℚ) / 1000000000 < (2 : ℚ) ^ (0 : Int) := by norm_num
  obtain ⟨k, hk, hlog, hr⟩ := float64Round_exists _ hq0 0 hq1 (by norm_num)
  have hpow : (0 : ℚ) < 2 ^ k := by positivity
  have hk53 : (2 : ℚ) ^ 53 ≤ 2 ^ k := by
    apply pow_le_pow_right₀ (by norm_num)
    omega
  have hfpos : (0 : ℚ) < float64Round (((1 : Int) : ℚ) / 1000000000) :=
    lt_trans (by norm_num) (float64Round_fraction 1 (by norm_num) (by norm_num)).1
  have hfup : float64Round (((1 : Int) : ℚ) / 1000000000) ≤ 1 / 900000000 := by
    rw [hr, div_le_iff₀ hpow]
    have := roundHalfEven_le_add_half (((1 : Int) : ℚ) / 1000000000 * 2 ^ k)
    push_cast at this ⊢
    nlinarith
  generalize float64Round (((1 : Int) : ℚ) / 1000000000) = f at hfpos hfup
  -- the sum rounds to 2^24
  have hx0 : (0 : ℚ) < ((16777216 : Int) : ℚ) + f := by push_cast; linarith
  have hlogx : Int.log 2 (((16777216 : Int) : ℚ) + f) = 52 - ((28 : ℕ) : Int) := by
    apply le_antisymm
    · have : Int.log 2 (((16777216 : Int) : ℚ) + f) < 25 := by
        apply (Int.lt_zpow_iff_log_lt (b := 2) (by norm_num) hx0).mp
        push_cast
        norm_num
        linarith
      omega
    · have : (24 : Int) ≤ Int.log 2 (((16777216 : Int) : ℚ) + f) := by
        apply (Int.zpow_le_iff_le_log (b := 2) (by norm_num) hx0).mp
        push_cast
        norm_num
        linarith
      omega
  rw [float64Round_pos_eq _ hx0 28 hlogx]
  have hrhe : roundHalfEven ((((16777216 : Int) : ℚ) + f) * 2 ^ 28) = 4503599627370496 := by
    apply le_antisymm
    · apply roundHalfEven_le_of_lt
      push_cast
      norm_num
      linarith
    · have := lt_roundHalfEven ((((16777216 : Int) : ℚ) + f) * 2 ^ 28) 4503599627370495
        (by push_cast; norm_num; linarith)
      omega
  rw [hrhe]
  have hval : ((4503599627370496 : Int) : ℚ) / 2 ^ 28 = ((16777216 : Int) : ℚ) := by norm_num
  rw [hval]
  simp [float64ToInt, mathCeil]

/-- C14, as amended. `RespondTaskCompleted` run on a completion request sends a request that
differs from the one passed in `StickyAttributes` and `ReturnNewDecisionTask` at most. With sticky
execution enabled and no sticky attributes passed, that request carries the sticky task list of
the worker and `Int32Ceil` of the sticky timeout in seconds, and `ReturnNewDecisionTask` as passed;
for a timeout from zero to less than 16777216 seconds the value is the timeout rounded up to
whole seconds: the least `n` with `timeout ≤ n` seconds. Sticky attributes that are passed are
sent as they are. With sticky execution disabled the attributes are sent as passed and the flag
sent is false. -/
theorem respondCompleted_request_sent (getWorkerTaskList : String → String)
    (isServiceTransientError : GoError → Bool) (maxRetries : Nat)
    (service : WorkflowServiceClient) (wtp : workflowTaskPoller)
    (StickyScheduleToStartTimeout : Int) (request : RespondDecisionTaskCompletedRequest)
    (task : Option PollForDecisionTaskResponse) :
    ∃ err st first rest, wtp.RespondTaskCompleted getWorkerTaskList goFloat64
        isServiceTransientError maxRetries service StickyScheduleToStartTimeout
        (.RespondDecisionTaskCompletedRequest request) task = .ok (err, st) ∧
      st.calls = .RespondDecisionTaskCompleted first :: rest ∧
      first.TaskToken = request.TaskToken ∧ first.Decisions = request.Decisions ∧
      first.Identity = request.Identity ∧
      first.ForceCreateNewDecisionTask = request.ForceCreateNewDecisionTask ∧
      (wtp.disableStickyExecution = false → request.StickyAttributes = none →
        first.StickyAttributes = some
          { WorkerTaskList := some { Name := getWorkerTaskList wtp.stickyUUID,
                                     Kind := TASK_LIST_KIND_UNSPECIFIED },
            ScheduleToStartTimeoutSeconds :=
              Int32Ceil goFloat64 (goFloat64.Seconds StickyScheduleToStartTimeout) } ∧
        first.ReturnNewDecisionTask = request.ReturnNewDecisionTask ∧
        (0 ≤ StickyScheduleToStartTimeout →
          StickyScheduleToStartTimeout < 16777216 * Second →
          ∃ n : Int,
            first.StickyAttributes = some
              { WorkerTaskList := some { Name := getWorkerTaskList wtp.stickyUUID,
                                         Kind := TASK_LIST_KIND_UNSPECIFIED },
                ScheduleToStartTimeoutSeconds := n } ∧
            StickyScheduleToStartTimeout ≤ n * Second ∧
            (n - 1) * Second < StickyScheduleToStartTimeout)) ∧
      (request.StickyAttributes ≠ none → first.StickyAttributes = request.StickyAttributes) ∧
      (wtp.disableStickyExecution = true →
        first.StickyAttributes = request.StickyAttributes ∧
        first.ReturnNewDecisionTask = false) := by
  obtain ⟨err, st, first, rest, hrun, hcalls, h1, h2, h3, h4, hsticky, hpreset, hdis⟩ :=
    respondCompleted_first_request getWorkerTaskList goFloat64 isServiceTransientError maxRetries
      service wtp StickyScheduleToStartTimeout request task
  refine ⟨err, st, first, rest, hrun, hcalls, h1, h2, h3, h4, ?_, hpreset, hdis⟩
  intro hen hnone
  obtain ⟨hattrs, hflag⟩ := hsticky hen hnone
  refine ⟨hattrs, hflag, ?_⟩
  intro h0 hlt
  have hlt2 : StickyScheduleToStartTimeout < 16777216000000000 := by
    have : (16777216 : Int) * Second = 16777216000000000 := by simp [Second]
    omega
  have hceil := Int32Ceil_Seconds StickyScheduleToStartTimeout h0 hlt2
  refine ⟨(StickyScheduleToStartTimeout + 999999999) / 1000000000, ?_, ?_, ?_⟩
  · have hceil2 : goFloat64.toInt32 (goFloat64.Ceil
        (goFloat64.Seconds StickyScheduleToStartTimeout))
        = (StickyScheduleToStartTimeout + 999999999) / 1000000000 := hceil
    rw [hattrs, hceil2]
  · simp only [Second]; omega
  · simp only [Second]; omega

/-- Witness of C14 as amended: a sticky poller, a service whose first call fails, and a sticky
timeout of 4.2 s. -/
theorem respondCompleted_request_sent_witness :
    ∃ err st first rest, pollerTie.RespondTaskCompleted stickyName goFloat64
        (fun _ => true) 3 flakyService 4200000000
        (.RespondDecisionTaskCompletedRequest handlerRequest) (some sampleTask) = .ok (err, st) ∧
      st.calls = .RespondDecisionTaskCompleted first :: rest ∧
      first.TaskToken = handlerRequest.TaskToken ∧ first.Decisions = handlerRequest.Decisions ∧
      first.Identity = handlerRequest.Identity ∧
      first.ForceCreateNewDecisionTask = handlerRequest.ForceCreateNewDecisionTask ∧
      (pollerTie.disableStickyExecution = false → handlerRequest.StickyAttributes = none →
        first.StickyAttributes = some
          { WorkerTaskList := some { Name := stickyName pollerTie.stickyUUID,
                                     Kind := TASK_LIST_KIND_UNSPECIFIED },
            ScheduleToStartTimeoutSeconds :=
              Int32Ceil goFloat64 (goFloat64.Seconds 4200000000) } ∧
        first.ReturnNewDecisionTask = handlerRequest.ReturnNewDecisionTask ∧
        ((0 : Int) ≤ 4200000000 →
          (4200000000 : Int) < 16777216 * Second →
          ∃ n : Int,
            first.StickyAttributes = some
              { WorkerTaskList := some { Name := stickyName pollerTie.stickyUUID,
                                         Kind := TASK_LIST_KIND_UNSPECIFIED },
                ScheduleToStartTimeoutSeconds := n } ∧
            (4200000000 : Int) ≤ n * Second ∧
            (n - 1) * Second < 4200000000)) ∧
      (handlerRequest.StickyAttributes ≠ none →
        first.StickyAttributes = handlerRequest.StickyAttributes) ∧
      (pollerTie.disableStickyExecution = true →
        first.StickyAttributes = handlerRequest.StickyAttributes ∧
        first.ReturnNewDecisionTask = false) :=
  respondCompleted_request_sent stickyName (fun _ => true) 3 flakyService pollerTie 4200000000
    handlerRequest (some sampleTask)

end Temporal
